import Mathlib

/-!
# Smart door lock: the Controller node (doorLock_CTRL_ECU)

A shallow embedding of `doorLock_CTRL_ECU/src/App/app.c`.

* Every global and every function-local `static` of `app.c` is a field of `State`,
  under the name it has in the source.
* `uint8_t` values are natural numbers; an increment is taken modulo 256 and a
  received byte is reduced modulo 256 where the receive interrupt stores it.
* What the handlers do to the hardware (UART transmit, timer, motor, buzzer,
  EEPROM write) is appended, in program order, to the field `trace`.
* The persistence store is the field `eeprom`, a map from address to byte.
* The unbounded loops of the source (the handshake of `establishConnection`, the
  EEPROM retries, the closing busy-wait of `app_update`) read the environment; what
  the environment does during one call of `app_update` is an `Env`.
* The busy delays `TIMER_DELAY_MS` only take time and are left out.
-/

namespace Ctrl

/-! ## Constants (`app.h`) -/

@[simp] def PASSWORD_LENGTH : Nat := 5
@[simp] def DEFAULT_MSG_TIME_MS : Nat := 1000
@[simp] def WARNING_MSG_TIME_MS : Nat := 60000
@[simp] def MOTOR_UNLOCK_TIME_MS : Nat := 15000
@[simp] def MOTOR_LOCK_TIME_MS : Nat := 15000
@[simp] def MOTOR_HOLD_TIME_MS : Nat := 3000
/-- The character '+'. -/
@[simp] def OPEN_DOOR_MENU_CHAR : Nat := 43
/-- The character '-'. -/
@[simp] def CHANGE_PASS_MENU_CHAR : Nat := 45
/-- The character '0'. -/
@[simp] def PASS_ALLOWED_START_CHAR : Nat := 48
/-- The character '9'. -/
@[simp] def PASS_ALLOWED_END_CHAR : Nat := 57
/-- The character '-'. -/
@[simp] def PASS_BACKSPACE_CHAR : Nat := 45
/-- The character 'c'. -/
@[simp] def PASS_CLEAR_SCREEN_CHAR : Nat := 99
/-- The character '='. -/
@[simp] def PASS_ENTER_CHAR : Nat := 61
@[simp] def NEW_PASSWORD_TRIALS : Nat := 5
@[simp] def PASSWORD_TRIALS : Nat := 3
@[simp] def FIRST_TIME_CHECK_ADDRESS : Nat := 0x00
@[simp] def PASSWORD_EEPROM_START_ADDRESS : Nat := 0x01
@[simp] def NOT_FIRST_TIME_EEPROM_VAL : Nat := 0x55

/-! ## Command bytes (`EN_AppCommands`, numbered from 'A' = 65) -/

@[simp] def ACK_CMD : Nat := 65
@[simp] def SHOW_DOOR_LOCK_TEXT_CMD : Nat := 66
@[simp] def READ_NEW_PASS_CMD : Nat := 67
@[simp] def CONFIRM_PASS_CMD : Nat := 68
@[simp] def READ_NEXT_PASS_CHAR_CMD : Nat := 69
@[simp] def SKIP_PASS_CHAR_CMD : Nat := 70
@[simp] def BACKSPACE_PASS_CHAR_CMD : Nat := 71
@[simp] def CLEAR_ALL_PASS_CHARS_CMD : Nat := 72
@[simp] def SHOW_PASS_MISMATCH_TEXT_CMD : Nat := 73
@[simp] def SHOW_PASS_CHANGED_CMD : Nat := 74
@[simp] def GET_MENU_OPTION_CMD : Nat := 75
@[simp] def ENTER_PASS_CMD : Nat := 76
@[simp] def STOP_RECEIVING_PASS_CMD : Nat := 77
@[simp] def SHOW_WRONG_PASS_TEXT_CMD : Nat := 78
@[simp] def SHOW_ACCESS_DENIED_TEXT_CMD : Nat := 79
@[simp] def SHOW_DOOR_UNLOCKING_TEXT_CMD : Nat := 80
@[simp] def SHOW_DOOR_LOCKING_TEXT_CMD : Nat := 81
@[simp] def SHOW_DOOR_IS_UNLOCKED_TEXT_CMD : Nat := 82

/-! ## Types (`app.h`, `dc-motor.h`) -/

/-- The top-level states of the application (`EN_AppStates`). -/
inductive EN_AppStates where
  | PREPAIRING_CONNECTION_STATE
  | MAIN_MENU_STATE
  | CHANGE_PASS_STATE
  | OPEN_DOOR_STATE
  | AUTHORIZING_STATE
  deriving DecidableEq

/-- What the main loop waits for at the end of an iteration (`EN_AwaitOptions`). -/
inductive EN_AwaitOptions where
  | AWAIT_NOTHING
  | AWAIT_RESPONSE
  | AWAIT_TIMER
  | AWAIT_RESPONSE_AND_TIMER
  deriving DecidableEq

/-- Direction of the door motor (`EN_DcMotorDirection`). -/
inductive EN_DcMotorDirection where
  | DCMOTOR_FORWARD
  | DCMOTOR_REVERSE
  deriving DecidableEq

open EN_AppStates EN_AwaitOptions EN_DcMotorDirection

/-- One observable action of the controller on its peripherals. `timerArm ms` stands
for the three statements `g_mainTimerConfig.ticks = TIME_MS_TO_TICKS(.., ms);
TIMER_init(..); TIMER_start(TIMER_0);` and keeps the duration in milliseconds. -/
inductive Effect where
  | uartSend (byte : Nat)
  | timerArm (ms : Nat)
  | motorStart (direction : EN_DcMotorDirection) (speedPercent : Nat)
  | motorStop
  | buzzerOn
  | buzzerOff
  | eepromWrite (addr data : Nat)
  deriving DecidableEq

/-- An interrupt that fires while the main loop spins. -/
inductive Event where
  | rx (byte : Nat)
  | timer
  deriving DecidableEq

/-- The globals of `app.c`, the `static` locals of `changePass`, `auth` and
`readPassword`, the EEPROM content and the log of peripheral actions. -/
structure State where
  g_isDataReceived : Bool
  g_hasMainTimerFinished : Bool
  g_firstTime : Bool
  g_currentState : EN_AppStates
  g_previousState : EN_AppStates
  g_innerState : Nat
  g_passTrials : Nat
  g_awaitOption : EN_AwaitOptions
  g_receivedData : Nat
  /-- `static uint8_t newPass[PASSWORD_LENGTH]` of `changePass`. -/
  newPass : Nat → Nat
  /-- `static uint8_t confirmationPass[PASSWORD_LENGTH]` of `changePass`. -/
  confirmationPass : Nat → Nat
  /-- `static uint8_t pass[PASSWORD_LENGTH]` of `auth`. -/
  pass : Nat → Nat
  /-- `static uint8_t passIndex` of `readPassword`. -/
  passIndex : Nat
  /-- `static uint8_t passInnerState` of `readPassword`. -/
  passInnerState : Nat
  /-- Content of the external EEPROM. -/
  eeprom : Nat → Nat
  /-- Peripheral actions so far, oldest first. -/
  trace : List Effect

/-- What the environment does during one call of `app_update`.

* `polls`: one entry per iteration of the handshake loop of `establishConnection`
  that ends without the peer's echo in `g_receivedData`; `some b` when the receive
  interrupt stored `b` during that iteration, `none` when it did not fire.
* `busErrors addr`: how many transactions with EEPROM address `addr` fail before
  the one that succeeds.
* `events`: the interrupts that fire during the closing busy-wait, in order.
* `busReads addr k`: for the failed read transaction number `k` at address `addr`,
  `some b` when it fails at its last status check, after the driver has stored the byte
  `b` taken from the bus into the output variable, and `none` when it fails earlier. -/
structure Env where
  polls : List (Option Nat)
  busErrors : Nat → Nat
  events : List Event
  busReads : Nat → Nat → Option Nat := fun _ _ => none

/-- Power-on values of the globals and statics over EEPROM content `mem`. -/
def initialState (mem : Nat → Nat) : State where
  g_isDataReceived := false
  g_hasMainTimerFinished := false
  g_firstTime := false
  g_currentState := PREPAIRING_CONNECTION_STATE
  g_previousState := PREPAIRING_CONNECTION_STATE
  g_innerState := 0
  g_passTrials := 0
  g_awaitOption := AWAIT_NOTHING
  g_receivedData := 0
  newPass := fun _ => 0
  confirmationPass := fun _ => 0
  pass := fun _ => 0
  passIndex := 0
  passInnerState := 0
  eeprom := mem
  trace := []

/-! ## Peripherals -/

/-- Store `v` at index `i` of a byte array. -/
def setByte (m : Nat → Nat) (i v : Nat) : Nat → Nat :=
  fun j => if j = i then v else m j

def emit (e : Effect) (s : State) : State :=
  { s with trace := s.trace ++ [e] }

def UART_sendByteBlocking (byte : Nat) (s : State) : State :=
  emit (Effect.uartSend byte) s

/-- Load the main timer with the ticks of `ms` milliseconds and start it. -/
def startMainTimer (ms : Nat) (s : State) : State :=
  emit (Effect.timerArm ms) s

def DCMOTOR_start (direction : EN_DcMotorDirection) (speedPercent : Nat) (s : State) : State :=
  emit (Effect.motorStart direction speedPercent) s

def DCMOTOR_stop (s : State) : State :=
  emit Effect.motorStop s

def BUZZER_on (s : State) : State :=
  emit Effect.buzzerOn s

def BUZZER_off (s : State) : State :=
  emit Effect.buzzerOff s

/-- One EEPROM write transaction (`external-eeprom.c`); `ok` tells whether every
TWI status check passes. The result is `EEPROM_SUCCESS` (true) or `EEPROM_ERROR`. -/
def EEPROM_writeByte (ok : Bool) (addr data : Nat) (s : State) : Bool × State :=
  if ok then
    (true, { s with eeprom := setByte s.eeprom addr data,
                    trace := s.trace ++ [Effect.eepromWrite addr data] })
  else
    (false, s)

/-- One EEPROM read transaction (`external-eeprom.c`); `old` is the value of the output
variable before the call and `ok` tells whether every TWI status check passes. When a
check fails, `got` is `some b` if it is the last one, which comes after the assignment
`*a_u8data = TWI_readByteWithoutACK()` of the byte `b`, and `none` if it is an earlier
one. Returns the status and the value of the output variable. -/
def EEPROM_readByte (ok : Bool) (got : Option Nat) (addr old : Nat) (s : State) : Bool × Nat :=
  if ok then (true, s.eeprom addr)
  else
    match got with
    | some b => (false, b % 256)
    | none => (false, old)

/-- The loop `while(EEPROM_writeByte(addr, data) == EEPROM_ERROR);` when `errors`
transactions fail before one succeeds. -/
def writeByteRetry : Nat → Nat → Nat → State → State
  | 0, addr, data, s => (EEPROM_writeByte true addr data s).2
  | errors + 1, addr, data, s =>
      writeByteRetry errors addr data (EEPROM_writeByte false addr data s).2

/-- The loop `while(EEPROM_readByte(addr, &v) == EEPROM_ERROR);` when `errors`
transactions fail before one succeeds, failed transaction `k` leaving `got k` in the
output variable; the result is `v`. -/
def readByteRetry : Nat → (Nat → Option Nat) → Nat → Nat → State → Nat
  | 0, _, addr, old, s => (EEPROM_readByte true none addr old s).2
  | errors + 1, got, addr, old, s =>
      readByteRetry errors (fun k => got (k + 1)) addr
        (EEPROM_readByte false (got 0) addr old s).2 s

/-! ## Interrupt handlers -/

def uartRxCallback (byte : Nat) (s : State) : State :=
  { s with g_isDataReceived := true, g_receivedData := byte % 256 }

def mainTimerCallback (s : State) : State :=
  { s with g_hasMainTimerFinished := true }

def isr (e : Event) (s : State) : State :=
  match e with
  | Event.rx byte => uartRxCallback byte s
  | Event.timer => mainTimerCallback s

/-! ## Helpers of `app.c` -/

def setAppState (a_state : EN_AppStates) (s : State) : State :=
  { s with g_previousState := s.g_currentState, g_currentState := a_state }

/-- The loop of `comparePasswords` from index `passIndex` with `n` iterations left. -/
def comparePasswordsFrom (pass1 pass2 : Nat → Nat) : Nat → Nat → Bool
  | 0, _ => true
  | n + 1, passIndex =>
      if pass1 passIndex ≠ pass2 passIndex then false
      else comparePasswordsFrom pass1 pass2 n (passIndex + 1)

def comparePasswords (pass1 pass2 : Nat → Nat) : Bool :=
  comparePasswordsFrom pass1 pass2 PASSWORD_LENGTH 0

/-- The loop of `savePassToEeprom` from index `passIndex` with `n` iterations left. -/
def savePassFrom (env : Env) (password : Nat → Nat) : Nat → Nat → State → State
  | 0, _, s => s
  | n + 1, passIndex, s =>
      savePassFrom env password n (passIndex + 1)
        (writeByteRetry (env.busErrors (PASSWORD_EEPROM_START_ADDRESS + passIndex))
          (PASSWORD_EEPROM_START_ADDRESS + passIndex) (password passIndex) s)

def savePassToEeprom (env : Env) (password : Nat → Nat) (s : State) : State :=
  savePassFrom env password PASSWORD_LENGTH 0 s

/-- The loop of `readPassFromEeprom` from index `passIndex` with `n` iterations left. -/
def readPassFrom (env : Env) (s : State) : Nat → Nat → (Nat → Nat) → (Nat → Nat)
  | 0, _, password => password
  | n + 1, passIndex, password =>
      readPassFrom env s n (passIndex + 1)
        (setByte password passIndex
          (readByteRetry (env.busErrors (PASSWORD_EEPROM_START_ADDRESS + passIndex))
            (env.busReads (PASSWORD_EEPROM_START_ADDRESS + passIndex))
            (PASSWORD_EEPROM_START_ADDRESS + passIndex) (password passIndex) s))

/-- Fills `password` from the EEPROM and returns it. -/
def readPassFromEeprom (env : Env) (password : Nat → Nat) (s : State) : Nat → Nat :=
  readPassFrom env s PASSWORD_LENGTH 0 password

/-- One call of `readPassword(password)`: the return value, the array and the state. -/
def readPassword (password : Nat → Nat) (s : State) : Bool × (Nat → Nat) × State :=
  match s.passInnerState with
  | 0 =>
    let r : (Nat → Nat) × State :=
      if s.g_receivedData = PASS_BACKSPACE_CHAR ∧ s.passIndex ≠ 0 then
        (password,
          UART_sendByteBlocking BACKSPACE_PASS_CHAR_CMD { s with passIndex := s.passIndex - 1 })
      else if s.g_receivedData = PASS_CLEAR_SCREEN_CHAR then
        (password,
          UART_sendByteBlocking CLEAR_ALL_PASS_CHARS_CMD { s with passIndex := 0 })
      else if s.passIndex ≠ PASSWORD_LENGTH ∧ s.g_receivedData ≥ PASS_ALLOWED_START_CHAR
          ∧ s.g_receivedData ≤ PASS_ALLOWED_END_CHAR then
        (setByte password s.passIndex s.g_receivedData,
          UART_sendByteBlocking READ_NEXT_PASS_CHAR_CMD
            { s with passIndex := (s.passIndex + 1) % 256 })
      else if s.passIndex = PASSWORD_LENGTH ∧ s.g_receivedData = PASS_ENTER_CHAR then
        (password,
          { UART_sendByteBlocking STOP_RECEIVING_PASS_CMD { s with passIndex := 0 } with
            passInnerState := (s.passInnerState + 1) % 256 })
      else
        (password, UART_sendByteBlocking SKIP_PASS_CHAR_CMD s)
    (false, r.1, { r.2 with g_awaitOption := AWAIT_RESPONSE })
  | 1 => (true, password, { s with passInnerState := 0 })
  | _ => (false, password, s)

/-! ## State handlers -/

/-- The handshake loop `do { send ACK; delay } while (g_receivedData != ACK_CMD);`.
The loop cannot be left before `g_receivedData` holds `ACK_CMD`: after the iterations
listed in `polls` the peer's echo arrives. -/
def handshake : List (Option Nat) → State → State
  | [], s => uartRxCallback ACK_CMD (UART_sendByteBlocking ACK_CMD s)
  | p :: polls, s =>
      let s1 := UART_sendByteBlocking ACK_CMD s
      let s2 := match p with
        | some byte => uartRxCallback byte s1
        | none => s1
      if s2.g_receivedData ≠ ACK_CMD then handshake polls s2 else s2

def establishConnection (env : Env) (s : State) : State :=
  match s.g_innerState with
  | 0 =>
    let s := handshake env.polls s
    let s := startMainTimer DEFAULT_MSG_TIME_MS s
    let s := UART_sendByteBlocking SHOW_DOOR_LOCK_TEXT_CMD s
    let s := { s with g_awaitOption := AWAIT_RESPONSE_AND_TIMER }
    { s with g_innerState := (s.g_innerState + 1) % 256 }
  | 1 =>
    let eepromValue :=
      readByteRetry (env.busErrors FIRST_TIME_CHECK_ADDRESS)
        (env.busReads FIRST_TIME_CHECK_ADDRESS) FIRST_TIME_CHECK_ADDRESS 0 s
    let s :=
      if eepromValue = NOT_FIRST_TIME_EEPROM_VAL then
        setAppState MAIN_MENU_STATE { s with g_firstTime := false }
      else
        setAppState CHANGE_PASS_STATE { s with g_firstTime := true }
    { s with g_innerState := 0 }
  | _ => s

def showMainMenu (s : State) : State :=
  match s.g_innerState with
  | 0 =>
    let s := UART_sendByteBlocking GET_MENU_OPTION_CMD s
    let s := { s with g_awaitOption := AWAIT_RESPONSE }
    { s with g_innerState := (s.g_innerState + 1) % 256 }
  | 1 =>
    if s.g_receivedData = OPEN_DOOR_MENU_CHAR then
      { setAppState OPEN_DOOR_STATE s with g_innerState := 0 }
    else if s.g_receivedData = CHANGE_PASS_MENU_CHAR then
      { setAppState CHANGE_PASS_STATE s with g_innerState := 0 }
    else
      { UART_sendByteBlocking ACK_CMD s with g_awaitOption := AWAIT_RESPONSE }
  | _ => s

def changePass (env : Env) (a_isAuthRequired : Bool) (s : State) : State :=
  match s.g_innerState with
  | 0 =>
    { s with g_passTrials := 0, g_innerState := (s.g_innerState + 1) % 256 }
  | 1 =>
    if a_isAuthRequired then
      setAppState AUTHORIZING_STATE s
    else
      let s := UART_sendByteBlocking READ_NEW_PASS_CMD s
      let s := { s with g_awaitOption := AWAIT_RESPONSE }
      { s with g_innerState := (s.g_innerState + 1) % 256 }
  | 2 =>
    let r := readPassword s.newPass s
    let s := { r.2.2 with newPass := r.2.1 }
    let s :=
      if r.1 then
        let s := UART_sendByteBlocking CONFIRM_PASS_CMD s
        { s with g_innerState := (s.g_innerState + 1) % 256 }
      else s
    { s with g_awaitOption := AWAIT_RESPONSE }
  | 3 =>
    let r := readPassword s.confirmationPass s
    let s := { r.2.2 with confirmationPass := r.2.1 }
    if r.1 then
      let s :=
        if comparePasswords s.newPass s.confirmationPass then
          let s := savePassToEeprom env s.confirmationPass s
          let s :=
            if s.g_firstTime then
              let s := writeByteRetry (env.busErrors FIRST_TIME_CHECK_ADDRESS)
                FIRST_TIME_CHECK_ADDRESS NOT_FIRST_TIME_EEPROM_VAL s
              { s with g_firstTime := false }
            else s
          let s := UART_sendByteBlocking SHOW_PASS_CHANGED_CMD s
          { s with g_innerState := (s.g_innerState + 1) % 256 }
        else
          let s := UART_sendByteBlocking SHOW_PASS_MISMATCH_TEXT_CMD s
          let s :=
            if !s.g_firstTime then { s with g_passTrials := (s.g_passTrials + 1) % 256 }
            else s
          if s.g_passTrials < NEW_PASSWORD_TRIALS then
            { s with g_innerState := 1 }
          else
            { s with g_innerState := (s.g_innerState + 1) % 256 }
      let s := { s with g_awaitOption := AWAIT_RESPONSE_AND_TIMER }
      startMainTimer DEFAULT_MSG_TIME_MS s
    else s
  | 4 =>
    { setAppState MAIN_MENU_STATE s with g_innerState := 0 }
  | _ => s

def openDoor (a_isAuthRequired : Bool) (s : State) : State :=
  match s.g_innerState with
  | 0 =>
    if a_isAuthRequired then
      setAppState AUTHORIZING_STATE s
    else
      let s := startMainTimer MOTOR_UNLOCK_TIME_MS s
      let s := DCMOTOR_start DCMOTOR_FORWARD 50 s
      let s := UART_sendByteBlocking SHOW_DOOR_UNLOCKING_TEXT_CMD s
      let s := { s with g_awaitOption := AWAIT_TIMER }
      { s with g_innerState := (s.g_innerState + 1) % 256 }
  | 1 =>
    let s := startMainTimer MOTOR_HOLD_TIME_MS s
    let s := DCMOTOR_stop s
    let s := UART_sendByteBlocking SHOW_DOOR_IS_UNLOCKED_TEXT_CMD s
    let s := { s with g_awaitOption := AWAIT_TIMER }
    { s with g_innerState := (s.g_innerState + 1) % 256 }
  | 2 =>
    let s := startMainTimer MOTOR_LOCK_TIME_MS s
    let s := DCMOTOR_start DCMOTOR_REVERSE 50 s
    let s := UART_sendByteBlocking SHOW_DOOR_LOCKING_TEXT_CMD s
    let s := { s with g_awaitOption := AWAIT_TIMER }
    { s with g_innerState := (s.g_innerState + 1) % 256 }
  | 3 =>
    let s := DCMOTOR_stop s
    { setAppState MAIN_MENU_STATE s with g_innerState := 0 }
  | _ => s

/-- The handler `auth`. Its local array `rightPass` is not initialised in the source;
all `PASSWORD_LENGTH` entries are filled by `readPassFromEeprom` before they are read. -/
def auth (env : Env) (s : State) : State :=
  match s.g_innerState with
  | 0 =>
    { s with g_passTrials := 0, g_innerState := (s.g_innerState + 1) % 256 }
  | 1 =>
    let s := UART_sendByteBlocking ENTER_PASS_CMD s
    let s := { s with g_awaitOption := AWAIT_RESPONSE }
    { s with g_innerState := (s.g_innerState + 1) % 256 }
  | 2 =>
    let r := readPassword s.pass s
    let s := { r.2.2 with pass := r.2.1 }
    if r.1 then { s with g_innerState := (s.g_innerState + 1) % 256 } else s
  | 3 =>
    let rightPass := readPassFromEeprom env (fun _ => 0) s
    if comparePasswords s.pass rightPass then
      { setAppState s.g_previousState s with g_innerState := 0 }
    else
      let s := { s with g_passTrials := (s.g_passTrials + 1) % 256 }
      if s.g_passTrials < PASSWORD_TRIALS then
        let s := UART_sendByteBlocking SHOW_WRONG_PASS_TEXT_CMD s
        let s := { s with g_innerState := 1 }
        let s := startMainTimer DEFAULT_MSG_TIME_MS s
        { s with g_awaitOption := AWAIT_RESPONSE_AND_TIMER }
      else
        { s with g_innerState := (s.g_innerState + 1) % 256 }
  | 4 =>
    let s := startMainTimer WARNING_MSG_TIME_MS s
    let s := BUZZER_on s
    let s := UART_sendByteBlocking SHOW_ACCESS_DENIED_TEXT_CMD s
    let s := { s with g_awaitOption := AWAIT_TIMER }
    { s with g_innerState := (s.g_innerState + 1) % 256 }
  | 5 =>
    let s := BUZZER_off s
    { setAppState MAIN_MENU_STATE s with g_innerState := 0 }
  | _ => s

/-! ## The main loop body -/

/-- The first three statements of `app_update`. -/
def resetFlags (s : State) : State :=
  { s with g_awaitOption := AWAIT_NOTHING, g_isDataReceived := false,
           g_hasMainTimerFinished := false }

/-- The `switch (g_currentState)` of `app_update`. -/
def dispatch (env : Env) (s : State) : State :=
  match s.g_currentState with
  | PREPAIRING_CONNECTION_STATE => establishConnection env s
  | MAIN_MENU_STATE => showMainMenu s
  | CHANGE_PASS_STATE =>
      if s.g_firstTime || s.g_previousState == AUTHORIZING_STATE then changePass env false s
      else changePass env true s
  | OPEN_DOOR_STATE =>
      if s.g_previousState == AUTHORIZING_STATE then openDoor false s
      else openDoor true s
  | AUTHORIZING_STATE => auth env s

/-- The condition of the closing `while` of `app_update`. -/
def awaitPending (s : State) : Bool :=
  (s.g_awaitOption == AWAIT_RESPONSE && !s.g_isDataReceived) ||
  (s.g_awaitOption == AWAIT_TIMER && !s.g_hasMainTimerFinished) ||
  (s.g_awaitOption == AWAIT_RESPONSE_AND_TIMER &&
    (!s.g_isDataReceived || !s.g_hasMainTimerFinished))

/-- The closing busy-wait of `app_update`: while the condition holds the loop spins
and the next interrupt of `events` fires. The loop is left as soon as the condition
is false. When `events` runs out first, the result is the state in which the loop is
still spinning, and `awaitPending` is true of it. -/
def awaitLoop : List Event → State → State
  | [], s => s
  | e :: events, s => if awaitPending s then awaitLoop events (isr e s) else s

/-- One iteration of the main loop (one tick). -/
def app_update (env : Env) (s : State) : State :=
  awaitLoop env.events (dispatch env (resetFlags s))

/-! ## Executions -/

/-- The state after `n` ticks from `s0`, tick `k` running in environment `envs k`. -/
def run (envs : Nat → Env) (s0 : State) : Nat → State
  | 0 => s0
  | n + 1 => app_update (envs n) (run envs s0 n)

/-- The peripheral actions of the tick that starts in `s`. -/
def tickEffects (env : Env) (s : State) : List Effect :=
  (app_update env s).trace.drop s.trace.length

/-! ## Vocabulary of the properties -/

/-- The entered password of `auth` equals the stored password byte by byte. -/
def passwordMatches (s : State) : Prop :=
  ∀ i, i < PASSWORD_LENGTH → s.pass i = s.eeprom (PASSWORD_EEPROM_START_ADDRESS + i)

/-- The tick that starts in `s` is an Authorizing comparison that finds the entered
password equal to the stored one. -/
def authMatchTick (s : State) : Prop :=
  s.g_currentState = AUTHORIZING_STATE ∧ s.g_innerState = 3 ∧ passwordMatches s

/-- The ChangingPassword tick that completes the confirmation entry. -/
def confirmTick (s : State) : Prop :=
  s.g_currentState = CHANGE_PASS_STATE ∧ s.g_innerState = 3 ∧ s.passInnerState = 1

/-- Which tick can cause which peripheral action. -/
def allowed (s : State) : Effect → Prop
  | Effect.uartSend _ => True
  | Effect.timerArm _ => True
  | Effect.motorStart d _ =>
      s.g_currentState = OPEN_DOOR_STATE ∧
        ((d = DCMOTOR_FORWARD ∧ s.g_previousState = AUTHORIZING_STATE ∧ s.g_innerState = 0) ∨
         (d = DCMOTOR_REVERSE ∧ s.g_innerState = 2))
  | Effect.motorStop =>
      s.g_currentState = OPEN_DOOR_STATE ∧ (s.g_innerState = 1 ∨ s.g_innerState = 3)
  | Effect.buzzerOn => s.g_currentState = AUTHORIZING_STATE ∧ s.g_innerState = 4
  | Effect.buzzerOff => s.g_currentState = AUTHORIZING_STATE ∧ s.g_innerState = 5
  | Effect.eepromWrite _ _ =>
      confirmTick s ∧ comparePasswords s.newPass s.confirmationPass = true

/-- The log of `t2` extends the log of `t` by actions allowed in `t`, and `t2` has the
EEPROM content of `t` unless `t` is a confirmation tick with equal passwords. -/
def TickOk (t t2 : State) : Prop :=
  t2.trace.take t.trace.length = t.trace ∧
    (∀ e ∈ t2.trace.drop t.trace.length, allowed t e) ∧
    (¬ (confirmTick t ∧ comparePasswords t.newPass t.confirmationPass = true) →
      t2.eeprom = t.eeprom)

/-- The five EEPROM writes that store password `p`, in program order. -/
def passwordWrites (p : Nat → Nat) : List Effect :=
  (List.range PASSWORD_LENGTH).map
    (fun i => Effect.eepromWrite (PASSWORD_EEPROM_START_ADDRESS + i) (p i))

/-- EEPROM content `m` with password `p` stored in the password range. -/
def storePass (p m : Nat → Nat) : Nat → Nat :=
  fun a =>
    if PASSWORD_EEPROM_START_ADDRESS ≤ a ∧ a < PASSWORD_EEPROM_START_ADDRESS + PASSWORD_LENGTH
    then p (a - PASSWORD_EEPROM_START_ADDRESS) else m a

/-- The changes of top-level state a tick can make from `s`: `transition s c` holds when
the handler of `s` may call `setAppState c`. -/
def transition (s : State) (c : EN_AppStates) : Prop :=
  match s.g_currentState with
  | PREPAIRING_CONNECTION_STATE =>
      s.g_innerState = 1 ∧
        ((c = MAIN_MENU_STATE ∧ s.eeprom FIRST_TIME_CHECK_ADDRESS = NOT_FIRST_TIME_EEPROM_VAL) ∨
         (c = CHANGE_PASS_STATE ∧ s.eeprom FIRST_TIME_CHECK_ADDRESS ≠ NOT_FIRST_TIME_EEPROM_VAL))
  | MAIN_MENU_STATE =>
      s.g_innerState = 1 ∧
        ((c = OPEN_DOOR_STATE ∧ s.g_receivedData = OPEN_DOOR_MENU_CHAR) ∨
         (c = CHANGE_PASS_STATE ∧ s.g_receivedData = CHANGE_PASS_MENU_CHAR))
  | CHANGE_PASS_STATE =>
      (s.g_innerState = 1 ∧ c = AUTHORIZING_STATE ∧ s.g_firstTime = false ∧
          s.g_previousState ≠ AUTHORIZING_STATE) ∨
      (s.g_innerState = 4 ∧ c = MAIN_MENU_STATE)
  | OPEN_DOOR_STATE =>
      (s.g_innerState = 0 ∧ c = AUTHORIZING_STATE ∧ s.g_previousState ≠ AUTHORIZING_STATE) ∨
      (s.g_innerState = 3 ∧ c = MAIN_MENU_STATE)
  | AUTHORIZING_STATE =>
      (authMatchTick s ∧ c = s.g_previousState) ∨ (s.g_innerState = 5 ∧ c = MAIN_MENU_STATE)

/-- Either the tick from `t` to `t2` keeps the current and the previous state, or it is
one call of `setAppState` allowed by `transition`. -/
def ControlOk (t t2 : State) : Prop :=
  (t2.g_currentState = t.g_currentState ∧ t2.g_previousState = t.g_previousState) ∨
  (t2.g_previousState = t.g_currentState ∧ transition t t2.g_currentState)

/-- The action starts the door motor in the forward direction. -/
def isForwardDrive : Effect → Bool
  | Effect.motorStart DCMOTOR_FORWARD _ => true
  | _ => false

/-- The action is an EEPROM write. -/
def isEepromWrite : Effect → Bool
  | Effect.eepromWrite _ _ => true
  | _ => false

/-- The action is an EEPROM write into the password range. -/
def isPasswordRangeWrite : Effect → Bool
  | Effect.eepromWrite addr _ =>
      decide (PASSWORD_EEPROM_START_ADDRESS ≤ addr ∧
        addr < PASSWORD_EEPROM_START_ADDRESS + PASSWORD_LENGTH)
  | _ => false

/-- The action switches the buzzer. -/
def isBuzzer : Effect → Bool
  | Effect.buzzerOn => true
  | Effect.buzzerOff => true
  | _ => false

/-- The tick that starts in `s` drives the door actuator forward. -/
def drivesForward (env : Env) (s : State) : Prop :=
  ∃ e, e ∈ tickEffects env s ∧ isForwardDrive e = true

/-- The tick that starts in `s` writes a byte of the password range of the EEPROM. -/
def writesPasswordRange (env : Env) (s : State) : Prop :=
  ∃ e, e ∈ tickEffects env s ∧ isPasswordRangeWrite e = true

instance (env : Env) (s : State) : Decidable (drivesForward env s) := by
  unfold drivesForward
  infer_instance

instance (env : Env) (s : State) : Decidable (writesPasswordRange env s) := by
  unfold writesPasswordRange
  infer_instance

/-- Tick `n` of the run from `s0` comes after an Authorizing comparison tick that found
the entered password equal to the stored one, with no MainMenu tick between the two. -/
def authorizedAt (envs : Nat → Env) (s0 : State) (n : Nat) : Prop :=
  ∃ j, j < n ∧ authMatchTick (run envs s0 j) ∧
    ∀ k, j < k → k < n → (run envs s0 k).g_currentState ≠ MAIN_MENU_STATE

/-! ## Concrete environments and runs -/

/-- An environment without bus errors in which the interrupts `events` fire. -/
def envOf (events : List Event) : Env :=
  { polls := [], busErrors := fun _ => 0, events := events }

/-- The environment stream that plays the interrupt lists of `l`, one per tick. -/
def script (l : List (List Event)) : Nat → Env :=
  fun n => envOf (l.getD n [])

/-- A provisioned EEPROM: the sentinel at address 0 and the password "12345". -/
def provisioned : Nat → Nat :=
  fun a => if a = 0 then 0x55 else if a ≤ 5 then 48 + a else 0xFF

/-- An erased EEPROM. -/
def erased : Nat → Nat :=
  fun _ => 0xFF

/-- Boot, menu choice '+', then the password "12345" and '='. -/
def unlockScript : Nat → Env :=
  script [[Event.rx 65, Event.timer], [], [Event.rx 43], [], [], [], [Event.rx 49],
    [Event.rx 50], [Event.rx 51], [Event.rx 52], [Event.rx 53], [Event.rx 61], [Event.rx 65],
    [], [], [Event.timer], [Event.timer], [Event.timer], []]

/-- A ChangingPassword flow that still needs authorization (provisioned system, not
entered from Authorizing) is not past its hand-over step, or is at its last step. -/
def changeGuard (s : State) : Prop :=
  s.g_currentState = CHANGE_PASS_STATE → s.g_firstTime = false →
    s.g_previousState ≠ AUTHORIZING_STATE → s.g_innerState ≤ 1 ∨ s.g_innerState = 4

/-- Boot of an erased system, then the new password "12345" and its confirmation "12345". -/
def provisionScript : Nat → Env :=
  script [[Event.rx 65, Event.timer], [], [], [Event.rx 49],
    [Event.rx 50], [Event.rx 51], [Event.rx 52], [Event.rx 53], [Event.rx 61], [Event.rx 65],
    [Event.rx 49], [Event.rx 50], [Event.rx 51], [Event.rx 52], [Event.rx 53], [Event.rx 61],
    [Event.rx 65], [Event.rx 65, Event.timer], []]

/-- Boot of a provisioned system, menu choice '-', the stored password "12345", then the
new password "11111" and its confirmation "11111". -/
def changeScript : Nat → Env :=
  script [[Event.rx 65, Event.timer], [], [Event.rx 45], [], [], [],
    [Event.rx 49], [Event.rx 50], [Event.rx 51], [Event.rx 52], [Event.rx 53], [Event.rx 61],
    [Event.rx 65], [], [], [], [Event.rx 49],
    [Event.rx 49], [Event.rx 49], [Event.rx 49], [Event.rx 49], [Event.rx 61], [Event.rx 65],
    [Event.rx 49], [Event.rx 49], [Event.rx 49], [Event.rx 49], [Event.rx 49], [Event.rx 61],
    [Event.rx 65], [Event.rx 65, Event.timer], []]

/-- Boot of an erased system, then the new password "12345" and the confirmation "00000". -/
def firstRunMismatchScript : Nat → Env :=
  script [[Event.rx 65, Event.timer], [], [], [Event.rx 49],
    [Event.rx 50], [Event.rx 51], [Event.rx 52], [Event.rx 53], [Event.rx 61], [Event.rx 65],
    [Event.rx 48], [Event.rx 48], [Event.rx 48], [Event.rx 48], [Event.rx 48], [Event.rx 61],
    [Event.rx 65], [Event.rx 65, Event.timer], [Event.rx 49], []]

/-- Boot of a provisioned system, menu choice '-', the stored password "12345", then the
new password "11111" and the confirmation "22222". -/
def changeMismatchScript : Nat → Env :=
  script [[Event.rx 65, Event.timer], [], [Event.rx 45], [], [], [],
    [Event.rx 49], [Event.rx 50], [Event.rx 51], [Event.rx 52], [Event.rx 53], [Event.rx 61],
    [Event.rx 65], [], [], [], [Event.rx 49],
    [Event.rx 49], [Event.rx 49], [Event.rx 49], [Event.rx 49], [Event.rx 61], [Event.rx 65],
    [Event.rx 50], [Event.rx 50], [Event.rx 50], [Event.rx 50], [Event.rx 50], [Event.rx 61],
    [Event.rx 65], [Event.rx 65, Event.timer], [Event.rx 49], []]

/-- The confirmation tick in `s` finds the confirmation equal to the new password. -/
def confirmMatchTick (s : State) : Prop :=
  confirmTick s ∧ ∀ i, i < PASSWORD_LENGTH → s.newPass i = s.confirmationPass i

/-- Bound on the mismatch counter inside a ChangingPassword flow after its first tick. -/
def flowCounter (s : State) : Prop :=
  s.g_passTrials ≤ NEW_PASSWORD_TRIALS ∧
    (s.g_currentState = CHANGE_PASS_STATE →
      1 ≤ s.g_innerState ∧ s.g_innerState ≤ 4 ∧
        (s.g_innerState ≤ 3 → s.g_passTrials < NEW_PASSWORD_TRIALS))

/-- One round of a failed password change: the new-password prompt is answered with
"11111" and '=', the confirmation prompt with "22222" and '='. -/
def mismatchRound : List (List Event) :=
  [[Event.rx 49], [Event.rx 49], [Event.rx 49], [Event.rx 49], [Event.rx 49], [Event.rx 61],
   [Event.rx 65], [Event.rx 50], [Event.rx 50], [Event.rx 50], [Event.rx 50], [Event.rx 50],
   [Event.rx 61], [Event.rx 65], [Event.rx 65, Event.timer]]

/-- The environment of a ChangingPassword flow with five failed rounds. -/
def fiveMismatchScript : Nat → Env :=
  script ([[]] ++ mismatchRound ++ mismatchRound ++ mismatchRound ++ mismatchRound ++
    mismatchRound ++ [[], []])

/-- The first state of a ChangingPassword flow on a provisioned system: the state after the
authorization of `changeScript`. -/
def changeFlowStart : State :=
  run changeScript (initialState provisioned) 15

instance (s : State) : Decidable (passwordMatches s) := by
  unfold passwordMatches
  infer_instance

instance (s : State) : Decidable (authMatchTick s) := by
  unfold authMatchTick
  infer_instance

instance (s : State) : Decidable (confirmTick s) := by
  unfold confirmTick
  infer_instance

instance (s : State) : Decidable (confirmMatchTick s) := by
  unfold confirmMatchTick
  infer_instance

/-- Boot of a provisioned system, menu choice '+', then three times the wrong password
"00000" and '='. -/
def lockoutScript : Nat → Env :=
  script [[Event.rx 65, Event.timer], [], [Event.rx 43], [], [], [],
    [Event.rx 48], [Event.rx 48], [Event.rx 48], [Event.rx 48], [Event.rx 48], [Event.rx 61],
    [Event.rx 65], [], [Event.rx 65, Event.timer],
    [Event.rx 48], [Event.rx 48], [Event.rx 48], [Event.rx 48], [Event.rx 48], [Event.rx 61],
    [Event.rx 65], [], [Event.rx 65, Event.timer],
    [Event.rx 48], [Event.rx 48], [Event.rx 48], [Event.rx 48], [Event.rx 48], [Event.rx 61],
    [Event.rx 65], [], [], [Event.timer], [], [Event.rx 65]]

/-- The tick that starts in `s` is a password comparison of Authorizing. -/
def isComparisonTick (s : State) : Prop :=
  s.g_currentState = AUTHORIZING_STATE ∧ s.g_innerState = 3

instance (s : State) : Decidable (isComparisonTick s) := by
  unfold isComparisonTick
  infer_instance

/-- The number of password comparisons among the first `n` ticks of the run from `s0`. -/
def comparisonsBefore (envs : Nat → Env) (s0 : State) : Nat → Nat
  | 0 => 0
  | n + 1 =>
      comparisonsBefore envs s0 n + (if isComparisonTick (run envs s0 n) then 1 else 0)

/-- The relation between the inner step of Authorizing, the trial counter and the number
`c` of comparisons made so far in the flow. -/
def authInv (s : State) (c : Nat) : Prop :=
  s.g_previousState ≠ AUTHORIZING_STATE ∧
    ((s.g_innerState = 0 ∧ c = 0) ∨
     (1 ≤ s.g_innerState ∧ s.g_innerState ≤ 3 ∧ s.g_passTrials = c ∧ c ≤ 2) ∨
     ((s.g_innerState = 4 ∨ s.g_innerState = 5) ∧ c = 3))

/-- The state of `lockoutScript` in which OpeningDoor hands over to Authorizing. -/
def lockoutFlowStart : State :=
  run lockoutScript (initialState provisioned) 4

/-- The environments of `lockoutScript` from the hand-over on. -/
def lockoutFlowEnvs : Nat → Env :=
  fun k => lockoutScript (k + 4)

/-! ## Calls of `readPassword` on a stream of received bytes -/

/-- The call of `readPassword(password)` in a tick that starts after the receive
interrupt has stored `byte`: the interrupt, the resets at the head of `app_update`, then
the call. -/
def readPasswordOn (byte : Nat) (password : Nat → Nat) (s : State) :
    Bool × (Nat → Nat) × State :=
  readPassword password (resetFlags (uartRxCallback byte s))

/-- The array and the state before call `k`, when call `j` runs on byte `bytes j` and
all calls work on the same array, starting from `password` and `s`. -/
def entryState (bytes : Nat → Nat) (password : Nat → Nat) (s : State) :
    Nat → (Nat → Nat) × State
  | 0 => (password, s)
  | k + 1 =>
      let e := entryState bytes password s k
      let r := readPasswordOn (bytes k) e.1 e.2
      (r.2.1, r.2.2)

/-- The return value of call `k`. -/
def callResult (bytes : Nat → Nat) (password : Nat → Nat) (s : State) (k : Nat) : Bool :=
  let e := entryState bytes password s k
  (readPasswordOn (bytes k) e.1 e.2).1

/-- The byte stream that starts with the bytes of `l` and goes on with zeros. -/
def bytesOf (l : List Nat) : Nat → Nat :=
  fun k => l.getD k 0

/-- The byte is one of the digits accepted in a password. -/
def isPassDigit (b : Nat) : Prop :=
  PASS_ALLOWED_START_CHAR ≤ b ∧ b ≤ PASS_ALLOWED_END_CHAR

instance (b : Nat) : Decidable (isPassDigit b) := by
  unfold isPassDigit
  infer_instance

/-- The action is a motor command. -/
def isMotor : Effect → Bool
  | Effect.motorStart _ _ => true
  | Effect.motorStop => true
  | _ => false

/-- During the first run nothing but a confirmed password ends ChangingPassword: in
ChangingPassword either the first-run indicator is true or the flow is at its last step. -/
def firstRunGuard (s : State) : Prop :=
  s.g_currentState = CHANGE_PASS_STATE → s.g_firstTime = true ∨ s.g_innerState = 4

/-- The environment whose bus fails `errors a` times on address `a` before a transaction
succeeds. -/
def busEnv (errors : Nat → Nat) : Env :=
  { polls := [], busErrors := errors, events := [] }

/-- The invariant of the entry sub-protocol between two calls of `readPassword`: the entry
step is 0 or 1, the index is at most `PASSWORD_LENGTH`, every position below the index
holds a digit, and in entry step 1 the index is 0 and all five positions hold digits. -/
def entryInv (p : Nat → Nat) (s : State) : Prop :=
  s.passInnerState ≤ 1 ∧ s.passIndex ≤ PASSWORD_LENGTH ∧
  (∀ i, i < s.passIndex → isPassDigit (p i)) ∧
  (s.passInnerState = 1 →
    s.passIndex = 0 ∧ ∀ i, i < PASSWORD_LENGTH → isPassDigit (p i))

/-- Boot of a provisioned system, then, while the menu is open, the bytes 'K' (the
ShowMenu command itself), '0' and 200, and finally the option '+'. -/
def menuNoiseScript : Nat → Env :=
  script [[Event.rx 65, Event.timer], [], [Event.rx 75], [Event.rx 48], [Event.rx 200],
    [Event.rx 43], []]

/-- The tail of `unlockScript` from the first OpeningDoor tick after the authorization. -/
def doorScript : Nat → Env :=
  fun k => unlockScript (15 + k)

/-- The tick from `t` to `t2` keeps the current state, or ends at inner step 0, or is the
hand-over of ChangingPassword to Authorizing, which ends at inner step 1. -/
def StepReset (t t2 : State) : Prop :=
  t2.g_currentState = t.g_currentState ∨ t2.g_innerState = 0 ∨
  (t.g_currentState = CHANGE_PASS_STATE ∧ t.g_innerState = 1 ∧ t.g_firstTime = false ∧
    t.g_previousState ≠ AUTHORIZING_STATE ∧ t2.g_currentState = AUTHORIZING_STATE ∧
    t2.g_innerState = 1)

/-- The inner step is one that the handler of the current state defines. -/
def innerInRange (s : State) : Prop :=
  match s.g_currentState with
  | PREPAIRING_CONNECTION_STATE => s.g_innerState ≤ 1
  | MAIN_MENU_STATE => s.g_innerState ≤ 1
  | CHANGE_PASS_STATE => s.g_innerState ≤ 4
  | OPEN_DOOR_STATE => s.g_innerState ≤ 3
  | AUTHORIZING_STATE => s.g_innerState ≤ 5

instance (s : State) : Decidable (innerInRange s) := by
  unfold innerInRange
  cases s.g_currentState <;> infer_instance

/-- The bytes transmitted on the UART among the actions `l`, in order. -/
def uartBytes : List Effect → List Nat
  | [] => []
  | Effect.uartSend b :: l => b :: uartBytes l
  | _ :: l => uartBytes l

/-- The step from `t` to `t2` transmits at most one byte, transmits exactly one byte when
it leaves a wait that includes a message armed, and leaves the entry step at 0 or 1. -/
def SendOk (t t2 : State) : Prop :=
  (uartBytes (t2.trace.drop t.trace.length)).length ≤ 1 ∧
  ((t2.g_awaitOption = AWAIT_RESPONSE ∨ t2.g_awaitOption = AWAIT_RESPONSE_AND_TIMER) →
    (uartBytes (t2.trace.drop t.trace.length)).length = 1) ∧
  t2.passInnerState ≤ 1

/-- The invariant behind the first run: outside Bootstrapping and ChangingPassword the
first-run indicator is false and the first-run address holds the sentinel; in
ChangingPassword either this holds too, or the indicator is true and the flow is at its
first step or at steps 1 to 3 with the mismatch counter at 0. -/
def firstRunInv (s : State) : Prop :=
  match s.g_currentState with
  | PREPAIRING_CONNECTION_STATE => True
  | CHANGE_PASS_STATE =>
      (s.g_firstTime = false ∧ s.eeprom FIRST_TIME_CHECK_ADDRESS = NOT_FIRST_TIME_EEPROM_VAL) ∨
      (s.g_firstTime = true ∧
        (s.g_innerState = 0 ∨ (s.g_passTrials = 0 ∧ s.g_innerState ≤ 3)))
  | _ => s.g_firstTime = false ∧ s.eeprom FIRST_TIME_CHECK_ADDRESS = NOT_FIRST_TIME_EEPROM_VAL

end Ctrl

/-!
# Smart door lock: the Interface node (doorLock_HMI_ECU)

A shallow embedding of `doorLock_HMI_ECU/src/App/app.c`.

* The globals of `app.c` are the fields of `State`, under their source names.
* What the node does to the hardware (UART transmit, LCD command, LCD text, LCD cursor,
  LCD character, keypad read) is appended, in program order, to the field `trace`.
* `KEYPAD_getPressedKey` blocks until a key is pressed; the key it returns during one
  call of `app_update` is given by the environment, as are the bytes whose receive
  interrupts fire while the closing busy-wait spins.
-/

namespace Hmi

/-! ## Constants (`app.h`, `lcd.h`) -/

def DOOR_LOCK_TEXT : String := "DOOR LOCK SYSTEM"
def READ_NEW_PASS_TEXT : String := "Enter a new Pass"
def CONFIRM_NEW_PASS_TEXT : String := "Confirm Pass"
def PASS_MISMATCH_TEXT : String := "Pass Mismatch"
def PASS_CHANGED_TEXT : String := "Pass Changed"
def MENU_OPTIONS_UPPER_TEXT : String := "+: Open Door"
def MENU_OPTIONS_LOWER_TEXT : String := "-: Change Pass"
def ENTER_PASS_TEXT : String := "Enter Pass :"
def WRONG_PASS_TEXT : String := "Wrong Pass"
def ACCESS_DENIED_TEXT : String := "ACCESS DENIED"
def DOOR_UNLOCKING_TEXT : String := "Unlocking Door"
def DOOR_LOCKING_TEXT : String := "Locking Door"
def DOOR_IS_UNLOCKED_TEXT : String := "Door is Unlocked"
/-- The character '*'. -/
@[simp] def PASS_DISPLAY_CHAR : Nat := 42
@[simp] def LCD_CLEAR_SCREEN : Nat := 0x01
@[simp] def LCD_MOVE_CURSOR_LEFT : Nat := 0x10

/-! ## Command bytes (`EN_AppCommands`, numbered from 'A' = 65) -/

@[simp] def ACK_CMD : Nat := 65
@[simp] def SHOW_DOOR_LOCK_TEXT_CMD : Nat := 66
@[simp] def READ_NEW_PASS_CMD : Nat := 67
@[simp] def CONFIRM_PASS_CMD : Nat := 68
@[simp] def READ_NEXT_PASS_CHAR_CMD : Nat := 69
@[simp] def SKIP_PASS_CHAR_CMD : Nat := 70
@[simp] def BACKSPACE_PASS_CHAR_CMD : Nat := 71
@[simp] def CLEAR_ALL_PASS_CHARS_CMD : Nat := 72
@[simp] def SHOW_PASS_MISMATCH_TEXT_CMD : Nat := 73
@[simp] def SHOW_PASS_CHANGED_CMD : Nat := 74
@[simp] def GET_MENU_OPTION_CMD : Nat := 75
@[simp] def ENTER_PASS_CMD : Nat := 76
@[simp] def STOP_RECEIVING_PASS_CMD : Nat := 77
@[simp] def SHOW_WRONG_PASS_TEXT_CMD : Nat := 78
@[simp] def SHOW_ACCESS_DENIED_TEXT_CMD : Nat := 79
@[simp] def SHOW_DOOR_UNLOCKING_TEXT_CMD : Nat := 80
@[simp] def SHOW_DOOR_LOCKING_TEXT_CMD : Nat := 81
@[simp] def SHOW_DOOR_IS_UNLOCKED_TEXT_CMD : Nat := 82

/-! ## Types (`app.h`) -/

/-- What the closing busy-wait of `app_update` waits for (`EN_AwaitOptions`). -/
inductive EN_AwaitOptions where
  | AWAIT_NOTHING
  | AWAIT_RESPONSE
  deriving DecidableEq

/-- The states of the Interface application (`EN_AppStates`). -/
inductive EN_AppStates where
  | RECEIVE_COMMAND_STATE
  | READING_PASS_STATE
  | READING_MENU_OPTIONS_STATE
  deriving DecidableEq

open EN_AwaitOptions EN_AppStates

/-- A peripheral action of the Interface node. -/
inductive Effect where
  | uartSend (byte : Nat)
  | lcdCommand (command : Nat)
  | lcdStrAt (row col : Nat) (str : String)
  | lcdSetCursor (row col : Nat)
  | lcdChar (char : Nat)
  | keypadRead (key : Nat)
  deriving DecidableEq

/-- The globals of `app.c` and the log of peripheral actions. -/
structure State where
  g_isDataReceived : Bool
  g_state : EN_AppStates
  g_awaitOption : EN_AwaitOptions
  g_receivedCmd : Nat
  trace : List Effect

/-- What the environment does during one call of `app_update`: `key` is the key that
`KEYPAD_getPressedKey` returns if it is called, `events` are the bytes whose receive
interrupts fire, in order, while the closing busy-wait spins. -/
structure Env where
  key : Nat
  events : List Nat

/-- The values of the globals at reset. -/
def initialState : State where
  g_isDataReceived := false
  g_state := RECEIVE_COMMAND_STATE
  g_awaitOption := AWAIT_NOTHING
  g_receivedCmd := 0
  trace := []

/-! ## Peripherals -/

def emit (e : Effect) (s : State) : State :=
  { s with trace := s.trace ++ [e] }

def UART_sendByteBlocking (byte : Nat) (s : State) : State :=
  emit (Effect.uartSend byte) s

def LCD_sendCommand (command : Nat) (s : State) : State :=
  emit (Effect.lcdCommand command) s

def LCD_sendStrAt (row col : Nat) (str : String) (s : State) : State :=
  emit (Effect.lcdStrAt row col str) s

def LCD_setCursor (row col : Nat) (s : State) : State :=
  emit (Effect.lcdSetCursor row col) s

def LCD_sendChar (char : Nat) (s : State) : State :=
  emit (Effect.lcdChar char) s

/-- The call `KEYPAD_getPressedKey()`: it blocks until a key is pressed and returns the
key, a `uint8_t`; the read is logged. -/
def KEYPAD_getPressedKey (env : Env) (s : State) : Nat × State :=
  (env.key % 256, emit (Effect.keypadRead (env.key % 256)) s)

/-! ## Interrupt handler -/

def UartRxCallback (byte : Nat) (s : State) : State :=
  { s with g_isDataReceived := true, g_receivedCmd := byte % 256 }

/-! ## Helpers of `app.c` -/

/-- Shows the text that belongs to the received command; the screen is cleared first when
the command is a known one. -/
def controlLcdText (receivedCmd : Nat) (s : State) : State :=
  let s :=
    if receivedCmd ≥ ACK_CMD ∧ receivedCmd ≤ SHOW_DOOR_IS_UNLOCKED_TEXT_CMD then
      LCD_sendCommand LCD_CLEAR_SCREEN s
    else s
  if receivedCmd = SHOW_DOOR_LOCK_TEXT_CMD then LCD_sendStrAt 0 0 DOOR_LOCK_TEXT s
  else if receivedCmd = READ_NEW_PASS_CMD then LCD_sendStrAt 0 0 READ_NEW_PASS_TEXT s
  else if receivedCmd = CONFIRM_PASS_CMD then LCD_sendStrAt 0 0 CONFIRM_NEW_PASS_TEXT s
  else if receivedCmd = SHOW_PASS_MISMATCH_TEXT_CMD then LCD_sendStrAt 0 0 PASS_MISMATCH_TEXT s
  else if receivedCmd = SHOW_PASS_CHANGED_CMD then LCD_sendStrAt 0 0 PASS_CHANGED_TEXT s
  else if receivedCmd = GET_MENU_OPTION_CMD then
    LCD_sendStrAt 1 0 MENU_OPTIONS_LOWER_TEXT (LCD_sendStrAt 0 0 MENU_OPTIONS_UPPER_TEXT s)
  else if receivedCmd = ENTER_PASS_CMD then LCD_sendStrAt 0 0 ENTER_PASS_TEXT s
  else if receivedCmd = SHOW_WRONG_PASS_TEXT_CMD then LCD_sendStrAt 0 0 WRONG_PASS_TEXT s
  else if receivedCmd = SHOW_ACCESS_DENIED_TEXT_CMD then
    LCD_sendStrAt 0 0 ACCESS_DENIED_TEXT s
  else if receivedCmd = SHOW_DOOR_UNLOCKING_TEXT_CMD then
    LCD_sendStrAt 0 0 DOOR_UNLOCKING_TEXT s
  else if receivedCmd = SHOW_DOOR_LOCKING_TEXT_CMD then LCD_sendStrAt 0 0 DOOR_LOCKING_TEXT s
  else if receivedCmd = SHOW_DOOR_IS_UNLOCKED_TEXT_CMD then
    LCD_sendStrAt 0 0 DOOR_IS_UNLOCKED_TEXT s
  else s

/-- One call of `readPassword(receivedCmd)` of the Interface node: renders the command and,
unless it is `STOP_RECEIVING_PASS_CMD`, forwards one key. -/
def readPassword (env : Env) (receivedCmd : Nat) (s : State) : State :=
  let s :=
    if receivedCmd = STOP_RECEIVING_PASS_CMD then
      UART_sendByteBlocking ACK_CMD { s with g_state := RECEIVE_COMMAND_STATE }
    else if receivedCmd = BACKSPACE_PASS_CHAR_CMD then
      LCD_sendCommand LCD_MOVE_CURSOR_LEFT
        (LCD_sendChar 32 (LCD_sendCommand LCD_MOVE_CURSOR_LEFT s))
    else if receivedCmd = CLEAR_ALL_PASS_CHARS_CMD then
      LCD_setCursor 1 0 (LCD_sendStrAt 1 0 "                " s)
    else if receivedCmd = READ_NEXT_PASS_CHAR_CMD then
      LCD_sendChar PASS_DISPLAY_CHAR s
    else s
  let s :=
    if receivedCmd ≠ STOP_RECEIVING_PASS_CMD then
      UART_sendByteBlocking (KEYPAD_getPressedKey env s).1 (KEYPAD_getPressedKey env s).2
    else s
  { s with g_awaitOption := AWAIT_RESPONSE }

/-- The check `app_init` makes after the drivers are set up. -/
def app_init (s : State) : State :=
  if s.g_receivedCmd = ACK_CMD then UART_sendByteBlocking ACK_CMD s else s

/-- The two assignments at the head of `app_update`. -/
def resetFlags (s : State) : State :=
  { s with g_awaitOption := AWAIT_NOTHING, g_isDataReceived := false }

/-- The `switch (g_state)` of `app_update` on the copy `receivedCmdCpy` of the mailbox. -/
def dispatch (env : Env) (receivedCmdCpy : Nat) (s : State) : State :=
  match s.g_state with
  | RECEIVE_COMMAND_STATE =>
    let s := controlLcdText receivedCmdCpy s
    if receivedCmdCpy = GET_MENU_OPTION_CMD then
      { s with g_state := READING_MENU_OPTIONS_STATE }
    else if receivedCmdCpy = READ_NEW_PASS_CMD ∨ receivedCmdCpy = CONFIRM_PASS_CMD
        ∨ receivedCmdCpy = ENTER_PASS_CMD then
      LCD_setCursor 1 0 { s with g_state := READING_PASS_STATE }
    else
      { UART_sendByteBlocking ACK_CMD s with g_awaitOption := AWAIT_RESPONSE }
  | READING_PASS_STATE => readPassword env receivedCmdCpy s
  | READING_MENU_OPTIONS_STATE =>
    if receivedCmdCpy = ACK_CMD ∨ receivedCmdCpy = GET_MENU_OPTION_CMD then
      { UART_sendByteBlocking (KEYPAD_getPressedKey env s).1 (KEYPAD_getPressedKey env s).2 with
        g_awaitOption := AWAIT_RESPONSE }
    else
      { s with g_state := RECEIVE_COMMAND_STATE }

/-- The condition of the closing `while` of `app_update`. -/
def awaitPending (s : State) : Bool :=
  s.g_awaitOption == AWAIT_RESPONSE && !s.g_isDataReceived

/-- The closing busy-wait of `app_update`: while the condition holds the loop spins and
the next receive interrupt of `events` fires. When `events` runs out first, the result is
the state in which the loop is still spinning. -/
def awaitLoop : List Nat → State → State
  | [], s => s
  | b :: events, s => if awaitPending s then awaitLoop events (UartRxCallback b s) else s

/-- One iteration of the main loop (one tick); `receivedCmdCpy` is a `uint8_t`. -/
def app_update (env : Env) (s : State) : State :=
  awaitLoop env.events (dispatch env (s.g_receivedCmd % 256) (resetFlags s))

/-- The state after `n` ticks from `s0`, tick `k` running in environment `envs k`. -/
def run (envs : Nat → Env) (s0 : State) : Nat → State
  | 0 => s0
  | n + 1 => app_update (envs n) (run envs s0 n)

/-- The bytes transmitted on the UART among the actions `l`, in order. -/
def sentBytes : List Effect → List Nat
  | [] => []
  | Effect.uartSend b :: l => b :: sentBytes l
  | _ :: l => sentBytes l

/-- The keys read from the keypad among the actions `l`, in order. -/
def keysRead : List Effect → List Nat
  | [] => []
  | Effect.keypadRead k :: l => k :: keysRead l
  | _ :: l => keysRead l

/-- State `t` is state `s` with more LCD output in the log and nothing else changed. -/
def lcdOnly (s t : State) : Prop :=
  ∃ l, t = { s with trace := s.trace ++ l } ∧ sentBytes l = [] ∧ keysRead l = []

/-- From `s`, the first `n` ticks do not arm the wait, leave the mailbox as it is and
transmit nothing, and tick `n` arms the wait after the node has transmitted exactly one
byte, `ACK_CMD` or the key pressed during that tick. -/
def repliesAt (envs : Nat → Env) (s : State) (n : Nat) : Prop :=
  (∀ k, k < n →
    (run envs s (k + 1)).g_awaitOption = AWAIT_NOTHING ∧
    (run envs s (k + 1)).g_receivedCmd = s.g_receivedCmd ∧
    ∃ l, (run envs s (k + 1)).trace = s.trace ++ l ∧ sentBytes l = []) ∧
  (run envs s (n + 1)).g_awaitOption = AWAIT_RESPONSE ∧
  ∃ l b, (run envs s (n + 1)).trace = s.trace ++ l ∧ sentBytes l = [b] ∧
    (b = ACK_CMD ∨ b = (envs n).key % 256)

/-- The environment with key `key` and received bytes `events`. -/
def envOf (key : Nat) (events : List Nat) : Env :=
  { key := key, events := events }

/-- The Interface state with application state `st` and mailbox content `cmd`. -/
def stateOf (st : EN_AppStates) (cmd : Nat) : State :=
  { initialState with g_state := st, g_receivedCmd := cmd }

end Hmi

namespace Ctrl

open EN_AppStates EN_AwaitOptions EN_DcMotorDirection

set_option maxRecDepth 100000

/-! ## Basic facts -/

theorem writeByteRetry_eq (errors addr data : Nat) (s : State) :
    writeByteRetry errors addr data s =
      { s with eeprom := setByte s.eeprom addr data,
               trace := s.trace ++ [Effect.eepromWrite addr data] } := by
  induction errors with
  | zero => simp [writeByteRetry, EEPROM_writeByte]
  | succ n ih => simpa [writeByteRetry, EEPROM_writeByte] using ih

theorem readByteRetry_eq (errors : Nat) (got : Nat → Option Nat) (addr old : Nat)
    (s : State) : readByteRetry errors got addr old s = s.eeprom addr := by
  induction errors generalizing old got with
  | zero => simp [readByteRetry, EEPROM_readByte]
  | succ n ih =>
    simp only [readByteRetry]
    exact ih _ _

theorem comparePasswordsFrom_iff (p q : Nat → Nat) (n k : Nat) :
    comparePasswordsFrom p q n k = true ↔ ∀ i, k ≤ i → i < k + n → p i = q i := by
  induction n generalizing k with
  | zero => simp [comparePasswordsFrom]; intro i h1 h2; omega
  | succ n ih =>
    simp only [comparePasswordsFrom]
    by_cases h : p k = q k
    · simp only [h, ne_eq, not_true_eq_false, if_false, ih]
      constructor
      · intro H i h1 h2
        rcases Nat.eq_or_lt_of_le h1 with e | l
        · subst e; exact h
        · exact H i l (by omega)
      · intro H i h1 h2
        exact H i (by omega) (by omega)
    · simp only [h, ne_eq, not_false_eq_true, if_true]
      constructor
      · intro H; cases H
      · intro H; exact absurd (H k (le_refl k) (by omega)) h

theorem comparePasswords_iff (p q : Nat → Nat) :
    comparePasswords p q = true ↔ ∀ i, i < PASSWORD_LENGTH → p i = q i := by
  unfold comparePasswords
  rw [comparePasswordsFrom_iff]
  constructor
  · intro H i hi; exact H i (Nat.zero_le i) (by omega)
  · intro H i _ hi; exact H i (by omega)

theorem readPassFrom_apply (env : Env) (s : State) (n k : Nat) (p : Nat → Nat) (i : Nat) :
    readPassFrom env s n k p i =
      if k ≤ i ∧ i < k + n then s.eeprom (PASSWORD_EEPROM_START_ADDRESS + i) else p i := by
  induction n generalizing k p with
  | zero =>
    simp only [readPassFrom]
    rw [if_neg]; omega
  | succ n ih =>
    simp only [readPassFrom, ih, readByteRetry_eq, setByte]
    by_cases h1 : i = k
    · subst h1; simp
    · by_cases h2 : k ≤ i ∧ i < k + (n + 1)
      · rw [if_pos (by omega), if_pos h2]
      · rw [if_neg (by omega), if_neg h2, if_neg h1]

theorem readPassFromEeprom_apply (env : Env) (p : Nat → Nat) (s : State) (i : Nat)
    (hi : i < PASSWORD_LENGTH) :
    readPassFromEeprom env p s i = s.eeprom (PASSWORD_EEPROM_START_ADDRESS + i) := by
  unfold readPassFromEeprom
  rw [readPassFrom_apply, if_pos ⟨Nat.zero_le i, by omega⟩]

theorem compare_stored_iff (env : Env) (p : Nat → Nat) (s : State) :
    comparePasswords s.pass (readPassFromEeprom env p s) = true ↔ passwordMatches s := by
  rw [comparePasswords_iff]
  unfold passwordMatches
  constructor
  · intro H i hi; rw [H i hi, readPassFromEeprom_apply env p s i hi]
  · intro H i hi; rw [H i hi, readPassFromEeprom_apply env p s i hi]

theorem awaitLoop_frame (events : List Event) (s : State) :
    ∃ r t d, awaitLoop events s =
      { s with g_isDataReceived := r, g_hasMainTimerFinished := t, g_receivedData := d } := by
  induction events generalizing s with
  | nil => exact ⟨s.g_isDataReceived, s.g_hasMainTimerFinished, s.g_receivedData, rfl⟩
  | cons e es ih =>
    unfold awaitLoop
    split
    · obtain ⟨r, t, d, h⟩ := ih (isr e s)
      rw [h]
      cases e <;> simp [isr, uartRxCallback, mainTimerCallback]
    · exact ⟨s.g_isDataReceived, s.g_hasMainTimerFinished, s.g_receivedData, rfl⟩

@[simp] theorem awaitLoop_currentState (events : List Event) (s : State) :
    (awaitLoop events s).g_currentState = s.g_currentState := by
  obtain ⟨r, t, d, h⟩ := awaitLoop_frame events s
  rw [h]

@[simp] theorem awaitLoop_previousState (events : List Event) (s : State) :
    (awaitLoop events s).g_previousState = s.g_previousState := by
  obtain ⟨r, t, d, h⟩ := awaitLoop_frame events s
  rw [h]

@[simp] theorem awaitLoop_firstTime (events : List Event) (s : State) :
    (awaitLoop events s).g_firstTime = s.g_firstTime := by
  obtain ⟨r, t, d, h⟩ := awaitLoop_frame events s
  rw [h]

@[simp] theorem awaitLoop_innerState (events : List Event) (s : State) :
    (awaitLoop events s).g_innerState = s.g_innerState := by
  obtain ⟨r, t, d, h⟩ := awaitLoop_frame events s
  rw [h]

@[simp] theorem awaitLoop_passTrials (events : List Event) (s : State) :
    (awaitLoop events s).g_passTrials = s.g_passTrials := by
  obtain ⟨r, t, d, h⟩ := awaitLoop_frame events s
  rw [h]

@[simp] theorem awaitLoop_awaitOption (events : List Event) (s : State) :
    (awaitLoop events s).g_awaitOption = s.g_awaitOption := by
  obtain ⟨r, t, d, h⟩ := awaitLoop_frame events s
  rw [h]

@[simp] theorem awaitLoop_newPass (events : List Event) (s : State) :
    (awaitLoop events s).newPass = s.newPass := by
  obtain ⟨r, t, d, h⟩ := awaitLoop_frame events s
  rw [h]

@[simp] theorem awaitLoop_confirmationPass (events : List Event) (s : State) :
    (awaitLoop events s).confirmationPass = s.confirmationPass := by
  obtain ⟨r, t, d, h⟩ := awaitLoop_frame events s
  rw [h]

@[simp] theorem awaitLoop_pass (events : List Event) (s : State) :
    (awaitLoop events s).pass = s.pass := by
  obtain ⟨r, t, d, h⟩ := awaitLoop_frame events s
  rw [h]

@[simp] theorem awaitLoop_passIndex (events : List Event) (s : State) :
    (awaitLoop events s).passIndex = s.passIndex := by
  obtain ⟨r, t, d, h⟩ := awaitLoop_frame events s
  rw [h]

@[simp] theorem awaitLoop_passInnerState (events : List Event) (s : State) :
    (awaitLoop events s).passInnerState = s.passInnerState := by
  obtain ⟨r, t, d, h⟩ := awaitLoop_frame events s
  rw [h]

theorem innerState_cases (n : Nat) :
    n = 0 ∨ n = 1 ∨ n = 2 ∨ n = 3 ∨ n = 4 ∨ n = 5 ∨ 6 ≤ n := by omega

/-! ### `readPassword` -/

theorem readPassword_done (p : Nat → Nat) (s : State) (h : s.passInnerState = 1) :
    readPassword p s = (true, p, { s with passInnerState := 0 }) := by
  simp [readPassword, h]

theorem handshake_frame (polls : List (Option Nat)) (s : State) :
    ∃ r d k, handshake polls s =
      { s with g_isDataReceived := r, g_receivedData := d,
               trace := s.trace ++ List.replicate k (Effect.uartSend ACK_CMD) } := by
  induction polls generalizing s with
  | nil =>
    exact ⟨true, ACK_CMD % 256, 1, by simp [handshake, uartRxCallback, UART_sendByteBlocking, emit]⟩
  | cons p ps ih =>
    cases p with
    | none =>
      by_cases hne : s.g_receivedData ≠ ACK_CMD
      · obtain ⟨r, d, k, h⟩ := ih (UART_sendByteBlocking ACK_CMD s)
        refine ⟨r, d, k + 1, ?_⟩
        simp only [handshake]
        rw [if_pos (by simpa [UART_sendByteBlocking, emit] using hne), h]
        simp [UART_sendByteBlocking, emit, List.replicate_succ]
      · refine ⟨s.g_isDataReceived, s.g_receivedData, 1, ?_⟩
        simp only [handshake]
        rw [if_neg (by simpa [UART_sendByteBlocking, emit] using hne)]
        simp [UART_sendByteBlocking, emit]
    | some b =>
      by_cases hne : b % 256 ≠ ACK_CMD
      · obtain ⟨r, d, k, h⟩ := ih (uartRxCallback b (UART_sendByteBlocking ACK_CMD s))
        refine ⟨r, d, k + 1, ?_⟩
        simp only [handshake]
        rw [if_pos (by simpa [UART_sendByteBlocking, emit, uartRxCallback] using hne), h]
        simp [UART_sendByteBlocking, emit, uartRxCallback, List.replicate_succ]
      · refine ⟨true, b % 256, 1, ?_⟩
        simp only [handshake]
        rw [if_neg (by simpa [UART_sendByteBlocking, emit, uartRxCallback] using hne)]
        simp [UART_sendByteBlocking, emit, uartRxCallback]

/-- The two ways a call of `readPassword` can go: the entry is complete, or the call
handles one received byte (or does nothing) and reports `FALSE`. -/
theorem readPassword_cases (p : Nat → Nat) (t : State) :
    (t.passInnerState = 1 ∧ readPassword p t = (true, p, { t with passInnerState := 0 })) ∨
    (t.passInnerState ≠ 1 ∧ ∃ q idx st aw l,
      readPassword p t = (false, q,
        { t with passIndex := idx, passInnerState := st, g_awaitOption := aw,
                 trace := t.trace ++ l }) ∧
      (l = [] ∨ ∃ b, l = [Effect.uartSend b])) := by
  rcases Nat.lt_or_ge t.passInnerState 2 with h | h
  · rcases Nat.lt_or_ge t.passInnerState 1 with h0 | h1
    · have h0 : t.passInnerState = 0 := by omega
      refine Or.inr ⟨by omega, ?_⟩
      simp only [readPassword, h0, UART_sendByteBlocking, emit]
      split_ifs
      · exact ⟨_, _, _, _, _, rfl, Or.inr ⟨_, rfl⟩⟩
      · exact ⟨_, _, _, _, _, rfl, Or.inr ⟨_, rfl⟩⟩
      · exact ⟨_, _, _, _, _, rfl, Or.inr ⟨_, rfl⟩⟩
      · exact ⟨_, _, _, _, _, rfl, Or.inr ⟨_, rfl⟩⟩
      · exact ⟨_, _, _, _, _, rfl, Or.inr ⟨_, rfl⟩⟩
    · have h1 : t.passInnerState = 1 := by omega
      exact Or.inl ⟨h1, readPassword_done p t h1⟩
  · refine Or.inr ⟨by omega, p, t.passIndex, t.passInnerState, t.g_awaitOption, [], ?_, Or.inl rfl⟩
    have : readPassword p t = (false, p, t) := by
      unfold readPassword
      split <;> first | rfl | omega
    rw [this]
    simp

@[simp] theorem awaitLoop_trace (events : List Event) (s : State) :
    (awaitLoop events s).trace = s.trace := by
  obtain ⟨r, t, d, h⟩ := awaitLoop_frame events s
  rw [h]

@[simp] theorem awaitLoop_eeprom (events : List Event) (s : State) :
    (awaitLoop events s).eeprom = s.eeprom := by
  obtain ⟨r, t, d, h⟩ := awaitLoop_frame events s
  rw [h]

theorem TickOk_refl (t : State) : TickOk t t := by
  simp [TickOk]

theorem establishConnection_default (env : Env) (s : State) (h : 2 ≤ s.g_innerState) :
    establishConnection env s = s := by
  unfold establishConnection
  split <;> first | rfl | omega

theorem showMainMenu_default (s : State) (h : 2 ≤ s.g_innerState) :
    showMainMenu s = s := by
  unfold showMainMenu
  split <;> first | rfl | omega

theorem changePass_default (env : Env) (b : Bool) (s : State) (h : 5 ≤ s.g_innerState) :
    changePass env b s = s := by
  unfold changePass
  split <;> first | rfl | omega

theorem openDoor_default (b : Bool) (s : State) (h : 4 ≤ s.g_innerState) :
    openDoor b s = s := by
  unfold openDoor
  split <;> first | rfl | omega

theorem auth_default (env : Env) (s : State) (h : 6 ≤ s.g_innerState) : auth env s = s := by
  unfold auth
  split <;> first | rfl | omega

theorem dispatch_changePass (env : Env) (s : State) (hc : s.g_currentState = CHANGE_PASS_STATE) :
    dispatch env s =
      changePass env (!(s.g_firstTime || s.g_previousState == AUTHORIZING_STATE)) s := by
  unfold dispatch
  rw [hc]
  cases hf : (s.g_firstTime || s.g_previousState == AUTHORIZING_STATE) <;> simp [hf]

theorem dispatch_openDoor (env : Env) (s : State) (hc : s.g_currentState = OPEN_DOOR_STATE) :
    dispatch env s = openDoor (!(s.g_previousState == AUTHORIZING_STATE)) s := by
  unfold dispatch
  rw [hc]
  cases hf : (s.g_previousState == AUTHORIZING_STATE) <;> simp [hf]

theorem establishConnection_ok (env : Env) (t : State)
    (_hc : t.g_currentState = PREPAIRING_CONNECTION_STATE) :
    TickOk t (establishConnection env t) := by
  rcases innerState_cases t.g_innerState with h | h | h | h | h | h | h
  · obtain ⟨r, d, k, hh⟩ := handshake_frame env.polls t
    simp only [establishConnection, h, hh, startMainTimer, UART_sendByteBlocking, emit, TickOk]
    simp only [List.append_assoc, List.take_left, List.drop_left, true_and]
    refine ⟨?_, fun _ => trivial⟩
    rintro e he
    rcases List.mem_append.1 he with h1 | h1
    · rw [List.eq_of_mem_replicate h1]; trivial
    · simp at h1
      rcases h1 with rfl | rfl <;> trivial
  · simp only [establishConnection, h, setAppState, TickOk]
    split <;> simp
  all_goals
    rw [establishConnection_default _ _ (by omega)]
    exact TickOk_refl t

theorem showMainMenu_ok (t : State) (_hc : t.g_currentState = MAIN_MENU_STATE) :
    TickOk t (showMainMenu t) := by
  rcases innerState_cases t.g_innerState with h | h | h | h | h | h | h
  · simp [showMainMenu, h, UART_sendByteBlocking, emit, TickOk, allowed]
  · simp only [showMainMenu, h, UART_sendByteBlocking, emit, setAppState, TickOk]
    split_ifs <;> simp [allowed]
  all_goals
    rw [showMainMenu_default _ (by omega)]
    exact TickOk_refl t

theorem openDoor_ok (b : Bool) (t : State) (hc : t.g_currentState = OPEN_DOOR_STATE)
    (hb : b = !(t.g_previousState == AUTHORIZING_STATE)) :
    TickOk t (openDoor b t) := by
  rcases innerState_cases t.g_innerState with h | h | h | h | h | h | h
  · cases b
    · have hp : t.g_previousState = AUTHORIZING_STATE := by simpa using hb
      simp [openDoor, h, UART_sendByteBlocking, emit, setAppState, TickOk, allowed,
        startMainTimer, DCMOTOR_start, hc, hp]
    · simp [openDoor, h, UART_sendByteBlocking, emit, setAppState, TickOk, allowed]
  · simp [openDoor, h, UART_sendByteBlocking, emit, setAppState, TickOk, allowed,
        startMainTimer, DCMOTOR_stop, hc]
  · simp [openDoor, h, UART_sendByteBlocking, emit, setAppState, TickOk, allowed,
        startMainTimer, DCMOTOR_start, hc]
  · simp [openDoor, h, UART_sendByteBlocking, emit, setAppState, TickOk, allowed,
        startMainTimer, DCMOTOR_stop, hc]
  all_goals
    rw [openDoor_default _ _ (by omega)]
    exact TickOk_refl t

theorem auth_ok (env : Env) (t : State) (hc : t.g_currentState = AUTHORIZING_STATE) :
    TickOk t (auth env t) := by
  have hn : ¬ confirmTick t := by simp [confirmTick, hc]
  rcases innerState_cases t.g_innerState with h | h | h | h | h | h | h
  · simp [auth, h, TickOk]
  · simp [auth, h, UART_sendByteBlocking, emit, TickOk, allowed]
  · rcases readPassword_cases t.pass t with ⟨_, hr⟩ | ⟨_, q, idx, st, aw, l, hr, hl⟩
    · simp [auth, h, hr, TickOk]
    · simp only [auth, h, hr, TickOk]
      rcases hl with rfl | ⟨b, rfl⟩ <;> simp [allowed]
  · simp only [auth, h, TickOk, setAppState, UART_sendByteBlocking, emit, startMainTimer]
    split
    · simp
    · split <;> simp [allowed]
  · simp [auth, h, UART_sendByteBlocking, emit, TickOk, allowed, startMainTimer, BUZZER_on, hc]
  · simp [auth, h, UART_sendByteBlocking, emit, TickOk, allowed, setAppState, BUZZER_off, hc]
  · rw [auth_default _ _ h]
    exact TickOk_refl t

theorem passwordWrites_eq (p : Nat → Nat) :
    passwordWrites p =
      [Effect.eepromWrite 1 (p 0), Effect.eepromWrite 2 (p 1), Effect.eepromWrite 3 (p 2),
       Effect.eepromWrite 4 (p 3), Effect.eepromWrite 5 (p 4)] := rfl

theorem savePassToEeprom_eq (env : Env) (p : Nat → Nat) (t : State) :
    savePassToEeprom env p t =
      { t with eeprom := storePass p t.eeprom, trace := t.trace ++ passwordWrites p } := by
  have he : setByte (setByte (setByte (setByte (setByte t.eeprom 1 (p 0)) 2 (p 1)) 3 (p 2))
      4 (p 3)) 5 (p 4) = storePass p t.eeprom := by
    funext a
    simp only [setByte, storePass, PASSWORD_EEPROM_START_ADDRESS, PASSWORD_LENGTH]
    by_cases h5 : a = 5
    · subst h5; simp
    by_cases h4 : a = 4
    · subst h4; simp
    by_cases h3 : a = 3
    · subst h3; simp
    by_cases h2 : a = 2
    · subst h2; simp
    by_cases h1 : a = 1
    · subst h1; simp
    rw [if_neg h5, if_neg h4, if_neg h3, if_neg h2, if_neg h1, if_neg (by omega)]
  simp [savePassToEeprom, savePassFrom, writeByteRetry_eq, passwordWrites_eq, he]

theorem changePass_confirm_match (env : Env) (b : Bool) (t : State)
    (hi : t.g_innerState = 3) (hp : t.passInnerState = 1)
    (hm : comparePasswords t.newPass t.confirmationPass = true) :
    changePass env b t =
      { t with
        passInnerState := 0
        g_firstTime := false
        g_innerState := 4
        g_awaitOption := AWAIT_RESPONSE_AND_TIMER
        eeprom :=
          if t.g_firstTime then
            setByte (storePass t.confirmationPass t.eeprom) FIRST_TIME_CHECK_ADDRESS
              NOT_FIRST_TIME_EEPROM_VAL
          else storePass t.confirmationPass t.eeprom
        trace := t.trace ++ (passwordWrites t.confirmationPass ++
          ((if t.g_firstTime then
              [Effect.eepromWrite FIRST_TIME_CHECK_ADDRESS NOT_FIRST_TIME_EEPROM_VAL]
            else []) ++
          [Effect.uartSend SHOW_PASS_CHANGED_CMD, Effect.timerArm DEFAULT_MSG_TIME_MS])) } := by
  simp only [changePass, hi, readPassword_done _ _ hp, hm, if_true, savePassToEeprom_eq,
    writeByteRetry_eq, UART_sendByteBlocking, emit, startMainTimer]
  cases hf : t.g_firstTime <;> simp

theorem changePass_confirm_mismatch (env : Env) (b : Bool) (t : State)
    (hi : t.g_innerState = 3) (hp : t.passInnerState = 1)
    (hm : comparePasswords t.newPass t.confirmationPass = false) :
    changePass env b t =
      { t with
        passInnerState := 0
        g_passTrials := if t.g_firstTime then t.g_passTrials else (t.g_passTrials + 1) % 256
        g_innerState :=
          if (if t.g_firstTime then t.g_passTrials else (t.g_passTrials + 1) % 256)
              < NEW_PASSWORD_TRIALS then 1 else 4
        g_awaitOption := AWAIT_RESPONSE_AND_TIMER
        trace := t.trace ++
          [Effect.uartSend SHOW_PASS_MISMATCH_TEXT_CMD, Effect.timerArm DEFAULT_MSG_TIME_MS] } := by
  simp only [changePass, hi, readPassword_done _ _ hp, hm, UART_sendByteBlocking, emit,
    startMainTimer]
  cases hf : t.g_firstTime <;> simp <;> split <;> simp

theorem changePass_ok (env : Env) (b : Bool) (t : State)
    (hc : t.g_currentState = CHANGE_PASS_STATE) :
    TickOk t (changePass env b t) := by
  rcases innerState_cases t.g_innerState with h | h | h | h | h | h | h
  · simp [changePass, h, TickOk]
  · cases b <;>
      simp [changePass, h, UART_sendByteBlocking, emit, setAppState, TickOk, allowed]
  · have hn : ¬ confirmTick t := by simp [confirmTick, h]
    rcases readPassword_cases t.newPass t with ⟨_, hr⟩ | ⟨_, q, idx, st, aw, l, hr, hl⟩
    · simp [changePass, h, hr, TickOk, UART_sendByteBlocking, emit, allowed]
    · simp only [changePass, h, hr, TickOk]
      rcases hl with rfl | ⟨b, rfl⟩ <;> simp [allowed]
  · rcases readPassword_cases t.confirmationPass t with ⟨hp, _⟩ | ⟨hp, q, idx, st, aw, l, hr, hl⟩
    · cases hm : comparePasswords t.newPass t.confirmationPass
      · rw [changePass_confirm_mismatch env b t h hp hm]
        simp [TickOk, allowed]
      · rw [changePass_confirm_match env b t h hp hm]
        have hk : confirmTick t := ⟨hc, h, hp⟩
        simp only [TickOk, List.take_left, List.drop_left, true_and]
        refine ⟨?_, fun hneg => absurd ⟨hk, hm⟩ hneg⟩
        intro e he
        rw [passwordWrites_eq] at he
        cases hf : t.g_firstTime <;> simp [hf] at he <;>
          rcases he with rfl | rfl | rfl | rfl | rfl | he <;>
          first
          | exact ⟨hk, hm⟩
          | (rcases he with rfl | rfl | rfl <;> first | exact ⟨hk, hm⟩ | trivial)
    · simp only [changePass, h, hr, TickOk]
      rcases hl with rfl | ⟨b, rfl⟩ <;> simp [allowed, confirmTick, hp]
  · simp [changePass, h, setAppState, TickOk]
  all_goals
    rw [changePass_default _ _ _ (by omega)]
    exact TickOk_refl t

theorem allowed_resetFlags (s : State) (e : Effect) : allowed (resetFlags s) e = allowed s e := by
  cases e <;> simp [allowed, resetFlags, confirmTick]

/-- Every tick extends the log by actions allowed in its start state. -/
theorem app_update_ok (env : Env) (s : State) : TickOk s (app_update env s) := by
  have key : TickOk (resetFlags s) (dispatch env (resetFlags s)) := by
    cases hc : s.g_currentState
    · simpa [dispatch, resetFlags, hc] using
        establishConnection_ok env (resetFlags s) (by simpa [resetFlags] using hc)
    · simpa [dispatch, resetFlags, hc] using
        showMainMenu_ok (resetFlags s) (by simpa [resetFlags] using hc)
    · rw [dispatch_changePass env _ (by simpa [resetFlags] using hc)]
      exact changePass_ok env _ _ (by simpa [resetFlags] using hc)
    · rw [dispatch_openDoor env _ (by simpa [resetFlags] using hc)]
      exact openDoor_ok _ _ (by simpa [resetFlags] using hc) rfl
    · simpa [dispatch, resetFlags, hc] using
        auth_ok env (resetFlags s) (by simpa [resetFlags] using hc)
  unfold TickOk at key ⊢
  simp only [app_update, awaitLoop_trace, awaitLoop_eeprom]
  simpa [resetFlags, allowed_resetFlags, confirmTick] using key

theorem ControlOk_refl (t : State) : ControlOk t t := Or.inl ⟨rfl, rfl⟩

theorem establishConnection_control (env : Env) (t : State)
    (hc : t.g_currentState = PREPAIRING_CONNECTION_STATE) :
    ControlOk t (establishConnection env t) := by
  rcases innerState_cases t.g_innerState with h | h | h | h | h | h | h
  · obtain ⟨r, d, k, hh⟩ := handshake_frame env.polls t
    simp [establishConnection, h, hh, startMainTimer, UART_sendByteBlocking, emit, ControlOk]
  · simp only [establishConnection, h, setAppState, ControlOk, readByteRetry_eq]
    split <;> simp_all [transition]
  all_goals
    rw [establishConnection_default _ _ (by omega)]
    exact ControlOk_refl t

theorem showMainMenu_control (t : State) (hc : t.g_currentState = MAIN_MENU_STATE) :
    ControlOk t (showMainMenu t) := by
  rcases innerState_cases t.g_innerState with h | h | h | h | h | h | h
  · simp [showMainMenu, h, UART_sendByteBlocking, emit, ControlOk]
  · simp only [showMainMenu, h, UART_sendByteBlocking, emit, setAppState, ControlOk]
    split_ifs <;> simp_all [transition]
  all_goals
    rw [showMainMenu_default _ (by omega)]
    exact ControlOk_refl t

theorem changePass_control (env : Env) (b : Bool) (t : State)
    (hc : t.g_currentState = CHANGE_PASS_STATE)
    (hb : b = !(t.g_firstTime || t.g_previousState == AUTHORIZING_STATE)) :
    ControlOk t (changePass env b t) := by
  rcases innerState_cases t.g_innerState with h | h | h | h | h | h | h
  · simp [changePass, h, ControlOk]
  · cases b
    · simp [changePass, h, UART_sendByteBlocking, emit, ControlOk]
    · have hb2 : t.g_firstTime = false ∧ t.g_previousState ≠ AUTHORIZING_STATE := by
        simpa using hb.symm
      simp [changePass, h, setAppState, ControlOk, transition, hc, hb2.1, hb2.2]
  · rcases readPassword_cases t.newPass t with ⟨_, hr⟩ | ⟨_, q, idx, st, aw, l, hr, hl⟩
    · simp [changePass, h, hr, ControlOk, UART_sendByteBlocking, emit]
    · simp [changePass, h, hr, ControlOk]
  · rcases readPassword_cases t.confirmationPass t with ⟨hp, _⟩ | ⟨hp, q, idx, st, aw, l, hr, hl⟩
    · cases hm : comparePasswords t.newPass t.confirmationPass
      · rw [changePass_confirm_mismatch env b t h hp hm]
        simp [ControlOk]
      · rw [changePass_confirm_match env b t h hp hm]
        simp [ControlOk]
    · simp [changePass, h, hr, ControlOk]
  · simp [changePass, h, setAppState, ControlOk, transition, hc]
  all_goals
    rw [changePass_default _ _ _ (by omega)]
    exact ControlOk_refl t

theorem openDoor_control (b : Bool) (t : State) (hc : t.g_currentState = OPEN_DOOR_STATE)
    (hb : b = !(t.g_previousState == AUTHORIZING_STATE)) :
    ControlOk t (openDoor b t) := by
  rcases innerState_cases t.g_innerState with h | h | h | h | h | h | h
  · cases b
    · simp [openDoor, h, UART_sendByteBlocking, emit, ControlOk, startMainTimer, DCMOTOR_start]
    · have hb2 : t.g_previousState ≠ AUTHORIZING_STATE := by simpa using hb.symm
      simp [openDoor, h, setAppState, ControlOk, transition, hc, hb2]
  · simp [openDoor, h, UART_sendByteBlocking, emit, ControlOk, startMainTimer, DCMOTOR_stop]
  · simp [openDoor, h, UART_sendByteBlocking, emit, ControlOk, startMainTimer, DCMOTOR_start]
  · simp [openDoor, h, setAppState, ControlOk, DCMOTOR_stop, emit, transition, hc]
  all_goals
    rw [openDoor_default _ _ (by omega)]
    exact ControlOk_refl t

theorem auth_compare_match (env : Env) (t : State) (hi : t.g_innerState = 3)
    (hm : passwordMatches t) :
    auth env t =
      { t with g_previousState := t.g_currentState, g_currentState := t.g_previousState,
               g_innerState := 0 } := by
  have h := (compare_stored_iff env (fun _ => 0) t).2 hm
  simp only [auth, hi, h, if_true, setAppState]

theorem auth_compare_mismatch (env : Env) (t : State) (hi : t.g_innerState = 3)
    (hm : ¬ passwordMatches t) :
    auth env t =
      if (t.g_passTrials + 1) % 256 < PASSWORD_TRIALS then
        { t with g_passTrials := (t.g_passTrials + 1) % 256, g_innerState := 1,
                 g_awaitOption := AWAIT_RESPONSE_AND_TIMER,
                 trace := t.trace ++ [Effect.uartSend SHOW_WRONG_PASS_TEXT_CMD,
                                      Effect.timerArm DEFAULT_MSG_TIME_MS] }
      else
        { t with g_passTrials := (t.g_passTrials + 1) % 256, g_innerState := 4 } := by
  have h : comparePasswords t.pass (readPassFromEeprom env (fun _ => 0) t) = false := by
    cases hc : comparePasswords t.pass (readPassFromEeprom env (fun _ => 0) t)
    · rfl
    · exact absurd ((compare_stored_iff env (fun _ => 0) t).1 hc) hm
  simp only [auth, hi, h, Bool.false_eq_true, if_false, UART_sendByteBlocking, emit,
    startMainTimer]
  split <;> simp

theorem auth_control (env : Env) (t : State) (hc : t.g_currentState = AUTHORIZING_STATE) :
    ControlOk t (auth env t) := by
  rcases innerState_cases t.g_innerState with h | h | h | h | h | h | h
  · simp [auth, h, ControlOk]
  · simp [auth, h, UART_sendByteBlocking, emit, ControlOk]
  · rcases readPassword_cases t.pass t with ⟨_, hr⟩ | ⟨_, q, idx, st, aw, l, hr, hl⟩
    · simp [auth, h, hr, ControlOk]
    · simp [auth, h, hr, ControlOk]
  · by_cases hm : passwordMatches t
    · rw [auth_compare_match env t h hm]
      simp [ControlOk, transition, hc, authMatchTick, hm, h]
    · rw [auth_compare_mismatch env t h hm]
      split <;> simp [ControlOk]
  · simp [auth, h, UART_sendByteBlocking, emit, ControlOk, startMainTimer, BUZZER_on]
  · simp [auth, h, emit, ControlOk, setAppState, BUZZER_off, transition, hc]
  · rw [auth_default _ _ h]
    exact ControlOk_refl t

theorem transition_resetFlags (s : State) (c : EN_AppStates) :
    transition (resetFlags s) c = transition s c := by
  cases hc : s.g_currentState <;>
    simp [transition, resetFlags, hc, authMatchTick, passwordMatches]

/-- Every tick keeps the top-level state or makes one allowed transition. -/
theorem app_update_control (env : Env) (s : State) : ControlOk s (app_update env s) := by
  have key : ControlOk (resetFlags s) (dispatch env (resetFlags s)) := by
    cases hc : s.g_currentState
    · simpa [dispatch, resetFlags, hc] using
        establishConnection_control env (resetFlags s) (by simpa [resetFlags] using hc)
    · simpa [dispatch, resetFlags, hc] using
        showMainMenu_control (resetFlags s) (by simpa [resetFlags] using hc)
    · rw [dispatch_changePass env _ (by simpa [resetFlags] using hc)]
      exact changePass_control env _ _ (by simpa [resetFlags] using hc) rfl
    · rw [dispatch_openDoor env _ (by simpa [resetFlags] using hc)]
      exact openDoor_control _ _ (by simpa [resetFlags] using hc) rfl
    · simpa [dispatch, resetFlags, hc] using
        auth_control env (resetFlags s) (by simpa [resetFlags] using hc)
  unfold ControlOk at key ⊢
  rw [transition_resetFlags] at key
  simpa [app_update, resetFlags] using key

/-! ## Runs -/

theorem tickEffects_allowed (env : Env) (s : State) :
    ∀ e ∈ tickEffects env s, allowed s e :=
  (app_update_ok env s).2.1

theorem drivesForward_state (env : Env) (s : State) (h : drivesForward env s) :
    s.g_currentState = OPEN_DOOR_STATE ∧ s.g_previousState = AUTHORIZING_STATE ∧
      s.g_innerState = 0 := by
  obtain ⟨e, he, hf⟩ := h
  have ha := tickEffects_allowed env s e he
  cases e with
  | motorStart d sp =>
    cases d with
    | DCMOTOR_FORWARD =>
      simp only [allowed] at ha
      rcases ha with ⟨hc, ⟨_, hp, hi⟩ | ⟨hd, _⟩⟩
      · exact ⟨hc, hp, hi⟩
      · cases hd
    | DCMOTOR_REVERSE => simp [isForwardDrive] at hf
  | _ => simp [isForwardDrive] at hf

/-- A requester that runs with `previous = Authorizing` has been authorized. -/
theorem authorized_of_previous (envs : Nat → Env) (s0 : State)
    (h0 : s0.g_previousState ≠ AUTHORIZING_STATE) (n : Nat)
    (hc : (run envs s0 n).g_currentState = OPEN_DOOR_STATE ∨
          (run envs s0 n).g_currentState = CHANGE_PASS_STATE)
    (hp : (run envs s0 n).g_previousState = AUTHORIZING_STATE) :
    authorizedAt envs s0 n := by
  induction n with
  | zero => exact absurd hp h0
  | succ n ih =>
    simp only [run] at hc hp
    rcases app_update_control (envs n) (run envs s0 n) with ⟨h1, h2⟩ | ⟨h1, h2⟩
    · rw [h1] at hc
      rw [h2] at hp
      obtain ⟨j, hj, hm, hk⟩ := ih hc hp
      refine ⟨j, Nat.lt_succ_of_lt hj, hm, ?_⟩
      intro k hjk hkn
      rcases Nat.lt_succ_iff_lt_or_eq.1 hkn with hlt | rfl
      · exact hk k hjk hlt
      · intro hmm
        rw [hmm] at hc
        rcases hc with hc | hc <;> cases hc
    · rw [hp] at h1
      simp only [transition, ← h1] at h2
      rcases h2 with ⟨hm, _⟩ | ⟨_, hmain⟩
      · exact ⟨n, Nat.lt_succ_self n, hm, fun k hjk hkn => absurd hjk (by omega)⟩
      · rw [hmain] at hc
        rcases hc with hc | hc <;> cases hc

theorem changePass_changeGuard (env : Env) (b : Bool) (t : State)
    (hc : t.g_currentState = CHANGE_PASS_STATE)
    (hb : b = !(t.g_firstTime || t.g_previousState == AUTHORIZING_STATE))
    (hg : changeGuard t) : changeGuard (changePass env b t) := by
  unfold changeGuard at hg ⊢
  cases b
  · -- no authorization required
    have hb2 : ¬ (t.g_firstTime = false ∧ t.g_previousState ≠ AUTHORIZING_STATE) := by
      intro ⟨h1, h2⟩
      simp [h1, h2] at hb
    rcases innerState_cases t.g_innerState with h | h | h | h | h | h | h
    · simp [changePass, h]
    · simp only [changePass, h, UART_sendByteBlocking, emit]
      intro _ hf hp
      exact absurd ⟨hf, hp⟩ hb2
    · rcases readPassword_cases t.newPass t with ⟨_, hr⟩ | ⟨_, q, idx, st, aw, l, hr, hl⟩
      · simp only [changePass, h, hr, UART_sendByteBlocking, emit]
        intro _ hf hp
        exact absurd ⟨hf, hp⟩ hb2
      · simp only [changePass, h, hr]
        intro _ hf hp
        exact absurd ⟨hf, hp⟩ hb2
    · rcases readPassword_cases t.confirmationPass t with
        ⟨hp, _⟩ | ⟨hp, q, idx, st, aw, l, hr, hl⟩
      · cases hm : comparePasswords t.newPass t.confirmationPass
        · rw [changePass_confirm_mismatch env _ t h hp hm]
          intro _ hf hp
          exact absurd ⟨hf, hp⟩ hb2
        · rw [changePass_confirm_match env _ t h hp hm]
          intro _ _ _
          exact Or.inr rfl
      · simp only [changePass, h, hr]
        intro _ hf hp
        exact absurd ⟨hf, hp⟩ hb2
    · simp [changePass, h, setAppState]
    all_goals
      rw [changePass_default _ _ _ (by omega)]
      exact hg
  · -- authorization required
    have hb2 : t.g_firstTime = false ∧ t.g_previousState ≠ AUTHORIZING_STATE := by
      simpa using hb.symm
    have h01 := hg hc hb2.1 hb2.2
    rcases innerState_cases t.g_innerState with h | h | h | h | h | h | h
    · simp [changePass, h]
    · simp [changePass, h, setAppState]
    · omega
    · omega
    · simp [changePass, h, setAppState]
    all_goals omega

theorem establishConnection_changeGuard (env : Env) (t : State)
    (hc : t.g_currentState = PREPAIRING_CONNECTION_STATE) :
    changeGuard (establishConnection env t) := by
  unfold changeGuard
  rcases innerState_cases t.g_innerState with h | h | h | h | h | h | h
  · obtain ⟨r, d, k, hh⟩ := handshake_frame env.polls t
    simp [establishConnection, h, hh, startMainTimer, UART_sendByteBlocking, emit, hc]
  · simp only [establishConnection, h, setAppState]
    split <;> simp
  all_goals
    rw [establishConnection_default _ _ (by omega)]
    simp [hc]

theorem showMainMenu_changeGuard (t : State) (hc : t.g_currentState = MAIN_MENU_STATE) :
    changeGuard (showMainMenu t) := by
  unfold changeGuard
  rcases innerState_cases t.g_innerState with h | h | h | h | h | h | h
  · simp [showMainMenu, h, UART_sendByteBlocking, emit, hc]
  · simp only [showMainMenu, h, UART_sendByteBlocking, emit, setAppState]
    split_ifs <;> simp [hc]
  all_goals
    rw [showMainMenu_default _ (by omega)]
    simp [hc]

theorem changeGuard_resetFlags (s : State) : changeGuard (resetFlags s) = changeGuard s := by
  simp [changeGuard, resetFlags]

theorem awaitLoop_changeGuard (events : List Event) (s : State) :
    changeGuard (awaitLoop events s) = changeGuard s := by
  obtain ⟨r, t, d, h⟩ := awaitLoop_frame events s
  rw [h]
  simp [changeGuard]

/-- The guard on ChangingPassword is kept by every tick. -/
theorem app_update_changeGuard (env : Env) (s : State) (hg : changeGuard s) :
    changeGuard (app_update env s) := by
  unfold app_update
  rw [awaitLoop_changeGuard]
  cases hc : s.g_currentState
  · simpa [dispatch, resetFlags, hc] using
      establishConnection_changeGuard env (resetFlags s) (by simpa [resetFlags] using hc)
  · simpa [dispatch, resetFlags, hc] using
      showMainMenu_changeGuard (resetFlags s) (by simpa [resetFlags] using hc)
  · rw [dispatch_changePass env _ (by simpa [resetFlags] using hc)]
    exact changePass_changeGuard env _ _ (by simpa [resetFlags] using hc) rfl
      (by rw [changeGuard_resetFlags]; exact hg)
  · have hk := app_update_control env s
    simp only [app_update, ControlOk, awaitLoop_currentState, awaitLoop_previousState] at hk
    unfold changeGuard
    intro h1
    rcases hk with ⟨h2, _⟩ | ⟨_, h2⟩
    · rw [h2, hc] at h1; cases h1
    · simp only [transition, hc, h1] at h2
      rcases h2 with ⟨_, h2, _⟩ | ⟨_, h2⟩ <;> cases h2
  · have hk := app_update_control env s
    simp only [app_update, ControlOk, awaitLoop_currentState, awaitLoop_previousState] at hk
    unfold changeGuard
    intro h1 _ h3
    rcases hk with ⟨h2, _⟩ | ⟨h2, _⟩
    · rw [h2, hc] at h1; cases h1
    · rw [h2, hc] at h3; exact absurd rfl h3

theorem run_changeGuard (envs : Nat → Env) (s0 : State) (h0 : changeGuard s0) (n : Nat) :
    changeGuard (run envs s0 n) := by
  induction n with
  | zero => exact h0
  | succ n ih => exact app_update_changeGuard _ _ ih

theorem writesPasswordRange_state (env : Env) (s : State) (h : writesPasswordRange env s) :
    confirmTick s ∧ comparePasswords s.newPass s.confirmationPass = true := by
  obtain ⟨e, he, hf⟩ := h
  have ha := tickEffects_allowed env s e he
  cases e with
  | eepromWrite a d => exact ha
  | _ => simp [isPasswordRangeWrite] at hf

theorem comparePasswords_eq_false (p q : Nat → Nat)
    (h : ¬ ∀ i, i < PASSWORD_LENGTH → p i = q i) : comparePasswords p q = false := by
  cases hc : comparePasswords p q
  · rfl
  · exact absurd ((comparePasswords_iff p q).1 hc) h

theorem dispatch_confirm_match (env : Env) (s : State) (h : confirmTick s)
    (hm : ∀ i, i < PASSWORD_LENGTH → s.newPass i = s.confirmationPass i) :
    dispatch env (resetFlags s) =
      { s with
        g_isDataReceived := false
        g_hasMainTimerFinished := false
        passInnerState := 0
        g_firstTime := false
        g_innerState := 4
        g_awaitOption := AWAIT_RESPONSE_AND_TIMER
        eeprom :=
          if s.g_firstTime then
            setByte (storePass s.confirmationPass s.eeprom) FIRST_TIME_CHECK_ADDRESS
              NOT_FIRST_TIME_EEPROM_VAL
          else storePass s.confirmationPass s.eeprom
        trace := s.trace ++ (passwordWrites s.confirmationPass ++
          ((if s.g_firstTime then
              [Effect.eepromWrite FIRST_TIME_CHECK_ADDRESS NOT_FIRST_TIME_EEPROM_VAL]
            else []) ++
          [Effect.uartSend SHOW_PASS_CHANGED_CMD, Effect.timerArm DEFAULT_MSG_TIME_MS])) } := by
  obtain ⟨hc, hi, hp⟩ := h
  rw [dispatch_changePass env _ (by simpa [resetFlags] using hc),
    changePass_confirm_match env _ _ (by simpa [resetFlags] using hi)
      (by simpa [resetFlags] using hp)
      (by simpa [resetFlags] using (comparePasswords_iff _ _).2 hm)]
  simp [resetFlags]

theorem dispatch_confirm_mismatch (env : Env) (s : State) (h : confirmTick s)
    (hm : ¬ ∀ i, i < PASSWORD_LENGTH → s.newPass i = s.confirmationPass i) :
    dispatch env (resetFlags s) =
      { s with
        g_isDataReceived := false
        g_hasMainTimerFinished := false
        passInnerState := 0
        g_passTrials := if s.g_firstTime then s.g_passTrials else (s.g_passTrials + 1) % 256
        g_innerState :=
          if (if s.g_firstTime then s.g_passTrials else (s.g_passTrials + 1) % 256)
              < NEW_PASSWORD_TRIALS then 1 else 4
        g_awaitOption := AWAIT_RESPONSE_AND_TIMER
        trace := s.trace ++
          [Effect.uartSend SHOW_PASS_MISMATCH_TEXT_CMD, Effect.timerArm DEFAULT_MSG_TIME_MS] } := by
  obtain ⟨hc, hi, hp⟩ := h
  rw [dispatch_changePass env _ (by simpa [resetFlags] using hc),
    changePass_confirm_mismatch env _ _ (by simpa [resetFlags] using hi)
      (by simpa [resetFlags] using hp)
      (by simpa [resetFlags] using comparePasswords_eq_false _ _ hm)]
  simp [resetFlags]

/-! ## ChangingPassword flows -/

theorem tick_no_write (env : Env) (s : State) (h : ¬ confirmMatchTick s) :
    (tickEffects env s).filter isEepromWrite = [] ∧ (app_update env s).eeprom = s.eeprom := by
  have hn : ¬ (confirmTick s ∧ comparePasswords s.newPass s.confirmationPass = true) := by
    rintro ⟨h1, h2⟩
    exact h ⟨h1, (comparePasswords_iff _ _).1 h2⟩
  refine ⟨?_, (app_update_ok env s).2.2 hn⟩
  rw [List.filter_eq_nil_iff]
  intro e he
  have ha := tickEffects_allowed env s e he
  cases e <;> simp [isEepromWrite]
  exact hn ha

theorem changePass_flowCounter (env : Env) (b : Bool) (t : State)
    (hc : t.g_currentState = CHANGE_PASS_STATE)
    (hn : ¬ confirmMatchTick t)
    (hf : t.g_innerState = 0 ∨ flowCounter t) : flowCounter (changePass env b t) := by
  have hf2 : t.g_innerState = 0 ∨ (t.g_passTrials ≤ 5 ∧ 1 ≤ t.g_innerState ∧
      t.g_innerState ≤ 4 ∧ (t.g_innerState ≤ 3 → t.g_passTrials < 5)) := by
    rcases hf with hf | ⟨h1, h2⟩
    · exact Or.inl hf
    · exact Or.inr ⟨h1, h2 hc⟩
  unfold flowCounter
  rcases innerState_cases t.g_innerState with h | h | h | h | h | h | h
  · simp [changePass, h, hc]
  · have h1 : t.g_passTrials < 5 := by omega
    cases b
    · simp [changePass, h, UART_sendByteBlocking, emit]
      omega
    · simp [changePass, h, setAppState]
      omega
  · have h1 : t.g_passTrials < 5 := by omega
    rcases readPassword_cases t.newPass t with ⟨_, hr⟩ | ⟨_, q, idx, st, aw, l, hr, hl⟩
    · simp [changePass, h, hr, UART_sendByteBlocking, emit]
      omega
    · simp [changePass, h, hr]
      omega
  · have h1 : t.g_passTrials < 5 := by omega
    rcases readPassword_cases t.confirmationPass t with
      ⟨hp, _⟩ | ⟨hp, q, idx, st, aw, l, hr, hl⟩
    · have hm : comparePasswords t.newPass t.confirmationPass = false :=
        comparePasswords_eq_false _ _ (fun hall => hn ⟨⟨hc, h, hp⟩, hall⟩)
      rw [changePass_confirm_mismatch env b t h hp hm]
      cases hft : t.g_firstTime
      · have e1 : (t.g_passTrials + 1) % 256 = t.g_passTrials + 1 := by omega
        simp only [Bool.false_eq_true, if_false, NEW_PASSWORD_TRIALS, e1]
        by_cases h5 : t.g_passTrials + 1 < 5
        · rw [if_pos h5]
          exact ⟨by omega, fun _ => ⟨by decide, by decide, fun _ => h5⟩⟩
        · rw [if_neg h5]
          exact ⟨by omega, fun _ => ⟨by decide, by decide, fun h3 => absurd h3 (by decide)⟩⟩
      · simp only [if_true, NEW_PASSWORD_TRIALS]
        rw [if_pos h1]
        exact ⟨by omega, fun _ => ⟨by decide, by decide, fun _ => h1⟩⟩
    · simp [changePass, h, hr]
      omega
  · have h1 : t.g_passTrials ≤ 5 := by omega
    simp [changePass, h, setAppState]
    omega
  all_goals omega

theorem app_update_flowCounter (env : Env) (s : State)
    (hc : s.g_currentState = CHANGE_PASS_STATE) (hn : ¬ confirmMatchTick s)
    (hf : s.g_innerState = 0 ∨ flowCounter s) : flowCounter (app_update env s) := by
  have key := changePass_flowCounter env
    (!((resetFlags s).g_firstTime || (resetFlags s).g_previousState == AUTHORIZING_STATE))
    (resetFlags s) (by simpa [resetFlags] using hc)
    (by simpa [resetFlags, confirmMatchTick, confirmTick] using hn)
    (by simpa [resetFlags, flowCounter] using hf)
  rw [← dispatch_changePass env _ (by simpa [resetFlags] using hc)] at key
  simpa [flowCounter, app_update] using key

theorem dispatch_changePass_start (env : Env) (s : State)
    (hc : s.g_currentState = CHANGE_PASS_STATE) (hi : s.g_innerState = 0) :
    dispatch env (resetFlags s) =
      { s with g_isDataReceived := false, g_hasMainTimerFinished := false,
               g_awaitOption := AWAIT_NOTHING, g_passTrials := 0, g_innerState := 1 } := by
  rw [dispatch_changePass env _ (by simpa [resetFlags] using hc)]
  simp [changePass, resetFlags, hi]

theorem dispatch_changePass_prompt (env : Env) (s : State)
    (hc : s.g_currentState = CHANGE_PASS_STATE) (hi : s.g_innerState = 1)
    (hb : s.g_firstTime = true ∨ s.g_previousState = AUTHORIZING_STATE) :
    dispatch env (resetFlags s) =
      { s with g_isDataReceived := false, g_hasMainTimerFinished := false,
               g_awaitOption := AWAIT_RESPONSE, g_innerState := 2,
               trace := s.trace ++ [Effect.uartSend READ_NEW_PASS_CMD] } := by
  rw [dispatch_changePass env _ (by simpa [resetFlags] using hc)]
  have hb2 : (!(s.g_firstTime || s.g_previousState == AUTHORIZING_STATE)) = false := by
    rcases hb with h | h <;> simp [h]
  simp [changePass, resetFlags, hi, hb2, UART_sendByteBlocking, emit]

theorem dispatch_changePass_leave (env : Env) (s : State)
    (hc : s.g_currentState = CHANGE_PASS_STATE) (hi : s.g_innerState = 4) :
    dispatch env (resetFlags s) =
      { s with g_isDataReceived := false, g_hasMainTimerFinished := false,
               g_awaitOption := AWAIT_NOTHING, g_previousState := CHANGE_PASS_STATE,
               g_currentState := MAIN_MENU_STATE, g_innerState := 0 } := by
  rw [dispatch_changePass env _ (by simpa [resetFlags] using hc)]
  simp [changePass, resetFlags, hi, setAppState, hc]

theorem flow_eeprom (envs : Nat → Env) (s0 : State) (n : Nat)
    (hflow : ∀ k, k < n → ¬ confirmMatchTick (run envs s0 k)) :
    (run envs s0 n).eeprom = s0.eeprom := by
  induction n with
  | zero => rfl
  | succ n ih =>
    simp only [run]
    rw [(tick_no_write (envs n) _ (hflow n (Nat.lt_succ_self n))).2]
    exact ih (fun k hk => hflow k (Nat.lt_succ_of_lt hk))

theorem flow_counter (envs : Nat → Env) (s0 : State)
    (hi0 : s0.g_innerState = 0) (n : Nat)
    (hflow : ∀ k, k < n → (run envs s0 k).g_currentState = CHANGE_PASS_STATE ∧
      ¬ confirmMatchTick (run envs s0 k)) :
    n = 0 ∨ flowCounter (run envs s0 n) := by
  induction n with
  | zero => exact Or.inl rfl
  | succ n ih =>
    refine Or.inr ?_
    obtain ⟨hc, hn⟩ := hflow n (Nat.lt_succ_self n)
    simp only [run]
    apply app_update_flowCounter _ _ hc hn
    rcases ih (fun k hk => hflow k (Nat.lt_succ_of_lt hk)) with h | h
    · subst h
      exact Or.inl hi0
    · exact Or.inr h

/-! ## Ticks of Authorizing and of Bootstrapping -/

theorem dispatch_auth_match (env : Env) (s : State) (h : authMatchTick s) :
    dispatch env (resetFlags s) =
      { s with g_isDataReceived := false, g_hasMainTimerFinished := false,
               g_awaitOption := AWAIT_NOTHING, g_previousState := AUTHORIZING_STATE,
               g_currentState := s.g_previousState, g_innerState := 0 } := by
  obtain ⟨hc, hi, hm⟩ := h
  have hd : dispatch env (resetFlags s) = auth env (resetFlags s) := by
    simp [dispatch, resetFlags, hc]
  rw [hd, auth_compare_match env _ (by simpa [resetFlags] using hi)
    (by simpa [resetFlags, passwordMatches] using hm)]
  simp [resetFlags, hc]

theorem dispatch_auth_mismatch (env : Env) (s : State)
    (hc : s.g_currentState = AUTHORIZING_STATE) (hi : s.g_innerState = 3)
    (hm : ¬ passwordMatches s) :
    dispatch env (resetFlags s) =
      if (s.g_passTrials + 1) % 256 < PASSWORD_TRIALS then
        { s with g_isDataReceived := false, g_hasMainTimerFinished := false,
                 g_passTrials := (s.g_passTrials + 1) % 256, g_innerState := 1,
                 g_awaitOption := AWAIT_RESPONSE_AND_TIMER,
                 trace := s.trace ++ [Effect.uartSend SHOW_WRONG_PASS_TEXT_CMD,
                                      Effect.timerArm DEFAULT_MSG_TIME_MS] }
      else
        { s with g_isDataReceived := false, g_hasMainTimerFinished := false,
                 g_awaitOption := AWAIT_NOTHING,
                 g_passTrials := (s.g_passTrials + 1) % 256, g_innerState := 4 } := by
  have hd : dispatch env (resetFlags s) = auth env (resetFlags s) := by
    simp [dispatch, resetFlags, hc]
  rw [hd, auth_compare_mismatch env _ (by simpa [resetFlags] using hi)
    (by simpa [resetFlags, passwordMatches] using hm)]
  simp [resetFlags]

theorem dispatch_auth_alarm (env : Env) (s : State)
    (hc : s.g_currentState = AUTHORIZING_STATE) (hi : s.g_innerState = 4) :
    dispatch env (resetFlags s) =
      { s with g_isDataReceived := false, g_hasMainTimerFinished := false,
               g_awaitOption := AWAIT_TIMER, g_innerState := 5,
               trace := s.trace ++ [Effect.timerArm WARNING_MSG_TIME_MS, Effect.buzzerOn,
                                    Effect.uartSend SHOW_ACCESS_DENIED_TEXT_CMD] } := by
  simp [dispatch, resetFlags, hc, auth, hi, startMainTimer, BUZZER_on, UART_sendByteBlocking,
    emit]

theorem dispatch_auth_leave (env : Env) (s : State)
    (hc : s.g_currentState = AUTHORIZING_STATE) (hi : s.g_innerState = 5) :
    dispatch env (resetFlags s) =
      { s with g_isDataReceived := false, g_hasMainTimerFinished := false,
               g_awaitOption := AWAIT_NOTHING, g_previousState := AUTHORIZING_STATE,
               g_currentState := MAIN_MENU_STATE, g_innerState := 0,
               trace := s.trace ++ [Effect.buzzerOff] } := by
  simp [dispatch, resetFlags, hc, auth, hi, BUZZER_off, setAppState, emit]

theorem awaitPending_awaitLoop_timer (events : List Event) (s : State)
    (h : s.g_awaitOption = AWAIT_TIMER) :
    awaitPending (awaitLoop events s) = !(awaitLoop events s).g_hasMainTimerFinished := by
  have ha : (awaitLoop events s).g_awaitOption = AWAIT_TIMER := by
    rw [awaitLoop_awaitOption]; exact h
  unfold awaitPending
  rw [ha]
  cases (awaitLoop events s).g_isDataReceived <;>
    cases (awaitLoop events s).g_hasMainTimerFinished <;> rfl

/-! ## Authorizing flows -/

theorem auth_authInv (env : Env) (t : State) (c : Nat)
    (_hc : t.g_currentState = AUTHORIZING_STATE) (hinv : authInv t c) :
    c + (if t.g_innerState = 3 then 1 else 0) ≤ 3 ∧
    ((auth env t).g_currentState = AUTHORIZING_STATE →
      authInv (auth env t) (c + (if t.g_innerState = 3 then 1 else 0))) := by
  obtain ⟨hp, hcase⟩ := hinv
  unfold authInv
  rcases innerState_cases t.g_innerState with h | h | h | h | h | h | h
  · have hc0 : c = 0 := by omega
    simp [auth, h, hc0, hp]
  · have h1 : t.g_passTrials = c ∧ c ≤ 2 := by omega
    simp [auth, h, UART_sendByteBlocking, emit, hp, h1.1]
    omega
  · have h1 : t.g_passTrials = c ∧ c ≤ 2 := by omega
    rcases readPassword_cases t.pass t with ⟨_, hr⟩ | ⟨_, q, idx, st, aw, l, hr, hl⟩
    · simp [auth, h, hr, hp, h1.1]
      omega
    · simp [auth, h, hr, hp, h1.1]
      omega
  · have h1 : t.g_passTrials = c ∧ c ≤ 2 := by omega
    by_cases hm : passwordMatches t
    · rw [auth_compare_match env t h hm]
      simp only [h, if_true]
      refine ⟨by omega, fun hx => absurd hx hp⟩
    · rw [auth_compare_mismatch env t h hm]
      have e1 : (t.g_passTrials + 1) % 256 = c + 1 := by omega
      simp only [h, if_true, e1, PASSWORD_TRIALS]
      refine ⟨by omega, ?_⟩
      by_cases h3 : c + 1 < 3
      · rw [if_pos h3]
        intro _
        exact ⟨hp, Or.inr (Or.inl ⟨by simp, by simp, rfl, by omega⟩)⟩
      · rw [if_neg h3]
        intro _
        exact ⟨hp, Or.inr (Or.inr ⟨Or.inl rfl, by omega⟩)⟩
  · have h1 : c = 3 := by omega
    simp [auth, h, UART_sendByteBlocking, emit, startMainTimer, BUZZER_on, hp, h1]
  · have h1 : c = 3 := by omega
    simp [auth, h, emit, BUZZER_off, setAppState, h1]
  · omega

theorem authInv_resetFlags (s : State) (c : Nat) : authInv (resetFlags s) c = authInv s c := by
  simp [authInv, resetFlags]

theorem app_update_authInv (env : Env) (s : State) (c : Nat)
    (hc : s.g_currentState = AUTHORIZING_STATE) (hinv : authInv s c) :
    c + (if isComparisonTick s then 1 else 0) ≤ 3 ∧
    ((app_update env s).g_currentState = AUTHORIZING_STATE →
      authInv (app_update env s) (c + (if isComparisonTick s then 1 else 0))) := by
  have key := auth_authInv env (resetFlags s) c (by simpa [resetFlags] using hc)
    (by rw [authInv_resetFlags]; exact hinv)
  have hd : dispatch env (resetFlags s) = auth env (resetFlags s) := by
    simp [dispatch, resetFlags, hc]
  have hcmp : (if isComparisonTick s then 1 else 0) =
      (if (resetFlags s).g_innerState = 3 then 1 else 0) := by
    simp [isComparisonTick, hc, resetFlags]
  rw [hcmp]
  refine ⟨key.1, ?_⟩
  have k2 := key.2
  rw [← hd] at k2
  simpa [authInv, app_update] using k2

theorem dispatch_openDoor_handover (env : Env) (s : State)
    (hc : s.g_currentState = OPEN_DOOR_STATE) (hi : s.g_innerState = 0)
    (hp : s.g_previousState ≠ AUTHORIZING_STATE) :
    dispatch env (resetFlags s) =
      { s with g_isDataReceived := false, g_hasMainTimerFinished := false,
               g_awaitOption := AWAIT_NOTHING, g_previousState := OPEN_DOOR_STATE,
               g_currentState := AUTHORIZING_STATE } := by
  rw [dispatch_openDoor env _ (by simpa [resetFlags] using hc)]
  simp [openDoor, resetFlags, hi, hp, setAppState, hc]

theorem dispatch_changePass_handover (env : Env) (s : State)
    (hc : s.g_currentState = CHANGE_PASS_STATE) (hi : s.g_innerState = 1)
    (hf : s.g_firstTime = false) (hp : s.g_previousState ≠ AUTHORIZING_STATE) :
    dispatch env (resetFlags s) =
      { s with g_isDataReceived := false, g_hasMainTimerFinished := false,
               g_awaitOption := AWAIT_NOTHING, g_previousState := CHANGE_PASS_STATE,
               g_currentState := AUTHORIZING_STATE } := by
  rw [dispatch_changePass env _ (by simpa [resetFlags] using hc)]
  simp [changePass, resetFlags, hi, hp, hf, setAppState, hc]

theorem dispatch_auth_prompt (env : Env) (s : State)
    (hc : s.g_currentState = AUTHORIZING_STATE) (hi : s.g_innerState = 1) :
    dispatch env (resetFlags s) =
      { s with g_isDataReceived := false, g_hasMainTimerFinished := false,
               g_awaitOption := AWAIT_RESPONSE, g_innerState := 2,
               trace := s.trace ++ [Effect.uartSend ENTER_PASS_CMD] } := by
  simp [dispatch, resetFlags, hc, auth, hi, UART_sendByteBlocking, emit]

theorem auth_flow_inv (envs : Nat → Env) (s0 : State) (m : Nat)
    (hbase : authInv (run envs s0 m) (comparisonsBefore envs s0 m)) (n : Nat) (hmn : m ≤ n)
    (hflow : ∀ k, m ≤ k → k < n → (run envs s0 k).g_currentState = AUTHORIZING_STATE) :
    comparisonsBefore envs s0 n ≤ 3 ∧
    ((run envs s0 n).g_currentState = AUTHORIZING_STATE →
      authInv (run envs s0 n) (comparisonsBefore envs s0 n)) := by
  induction n, hmn using Nat.le_induction with
  | base =>
    refine ⟨?_, fun _ => hbase⟩
    obtain ⟨_, h⟩ := hbase
    omega
  | succ n hmn ih =>
    have hcn := hflow n hmn (Nat.lt_succ_self n)
    obtain ⟨_, ih2⟩ := ih (fun k h1 h2 => hflow k h1 (Nat.lt_succ_of_lt h2))
    exact app_update_authInv (envs n) (run envs s0 n) _ hcn (ih2 hcn)

/-- What a wrong comparison does, by the number `c` of comparisons made before it. -/
theorem wrong_comparison_tick (envs : Nat → Env) (s0 : State) (k : Nat)
    (hcmp : isComparisonTick (run envs s0 k)) (hw : ¬ passwordMatches (run envs s0 k))
    (hinv : authInv (run envs s0 k) (comparisonsBefore envs s0 k)) :
    (comparisonsBefore envs s0 k < 2 →
      tickEffects (envs k) (run envs s0 k) =
        [Effect.uartSend SHOW_WRONG_PASS_TEXT_CMD, Effect.timerArm DEFAULT_MSG_TIME_MS] ∧
      (run envs s0 (k + 1)).g_awaitOption = AWAIT_RESPONSE_AND_TIMER ∧
      (run envs s0 (k + 1)).g_currentState = AUTHORIZING_STATE ∧
      (run envs s0 (k + 1)).g_innerState = 1 ∧
      tickEffects (envs (k + 1)) (run envs s0 (k + 1)) = [Effect.uartSend ENTER_PASS_CMD]) ∧
    (2 ≤ comparisonsBefore envs s0 k →
      comparisonsBefore envs s0 k = 2 ∧
      tickEffects (envs k) (run envs s0 k) = [] ∧
      (run envs s0 (k + 1)).g_currentState = AUTHORIZING_STATE ∧
      (run envs s0 (k + 1)).g_innerState = 4 ∧
      (run envs s0 (k + 1)).g_awaitOption = AWAIT_NOTHING) := by
  obtain ⟨hc, hi⟩ := hcmp
  obtain ⟨_, hcase⟩ := hinv
  have ht : (run envs s0 k).g_passTrials = comparisonsBefore envs s0 k ∧
      comparisonsBefore envs s0 k ≤ 2 := by omega
  have hd := dispatch_auth_mismatch (envs k) _ hc hi hw
  have e1 : ((run envs s0 k).g_passTrials + 1) % 256 = comparisonsBefore envs s0 k + 1 := by
    omega
  rw [e1] at hd
  have er : run envs s0 (k + 1) =
      awaitLoop (envs k).events (dispatch (envs k) (resetFlags (run envs s0 k))) := rfl
  constructor
  · intro hlt
    have h3 : comparisonsBefore envs s0 k + 1 < PASSWORD_TRIALS := by
      simp only [PASSWORD_TRIALS]; omega
    rw [if_pos h3] at hd
    have c1 : (run envs s0 (k + 1)).g_currentState = AUTHORIZING_STATE := by
      rw [er, awaitLoop_currentState, hd]; exact hc
    have i1 : (run envs s0 (k + 1)).g_innerState = 1 := by
      rw [er, awaitLoop_innerState, hd]
    have hd2 := dispatch_auth_prompt (envs (k + 1)) _ c1 i1
    refine ⟨?_, ?_, c1, i1, ?_⟩
    · simp only [tickEffects, app_update, awaitLoop_trace, hd, List.drop_left]
    · rw [er, awaitLoop_awaitOption, hd]
    · simp only [tickEffects, app_update, awaitLoop_trace, hd2, List.drop_left]
  · intro hge
    have h3 : ¬ comparisonsBefore envs s0 k + 1 < PASSWORD_TRIALS := by
      simp only [PASSWORD_TRIALS]; omega
    rw [if_neg h3] at hd
    refine ⟨by omega, ?_, ?_, ?_, ?_⟩
    · simp only [tickEffects, app_update, awaitLoop_trace, hd, List.drop_length]
    · rw [er, awaitLoop_currentState, hd]; exact hc
    · rw [er, awaitLoop_innerState, hd]
    · rw [er, awaitLoop_awaitOption, hd]

/-- The hand-over of a requester: Authorizing is entered after tick `e`, at inner step `e`,
with no comparison made so far and the flow invariant in force. -/
theorem handover_enters_auth (envs : Nat → Env) (s0 : State) (e : Nat)
    (hreq : (s0.g_currentState = OPEN_DOOR_STATE ∧ e = 0) ∨
            (s0.g_currentState = CHANGE_PASS_STATE ∧ s0.g_firstTime = false ∧ e = 1))
    (hp : s0.g_previousState ≠ AUTHORIZING_STATE) (hi : s0.g_innerState = 0) :
    (run envs s0 (e + 1)).g_currentState = AUTHORIZING_STATE ∧
    (run envs s0 (e + 1)).g_innerState = e ∧
    (∀ k, k ≤ e → (run envs s0 k).g_currentState ≠ AUTHORIZING_STATE) ∧
    comparisonsBefore envs s0 (e + 1) = 0 ∧
    authInv (run envs s0 (e + 1)) 0 := by
  rcases hreq with ⟨hc, rfl⟩ | ⟨hc, hf, rfl⟩
  · have hd := dispatch_openDoor_handover (envs 0) s0 hc hi hp
    have er : run envs s0 1 = awaitLoop (envs 0).events (dispatch (envs 0) (resetFlags s0)) :=
      rfl
    have c1 : (run envs s0 1).g_currentState = AUTHORIZING_STATE := by
      rw [er, awaitLoop_currentState, hd]
    have i1 : (run envs s0 1).g_innerState = 0 := by
      rw [er, awaitLoop_innerState, hd]; exact hi
    have p1 : (run envs s0 1).g_previousState = OPEN_DOOR_STATE := by
      rw [er, awaitLoop_previousState, hd]
    refine ⟨c1, i1, ?_, ?_, ?_⟩
    · intro k hk
      have : k = 0 := by omega
      subst this
      simp [run, hc]
    · simp [comparisonsBefore, isComparisonTick, run, hc]
    · exact ⟨by rw [p1]; decide, Or.inl ⟨i1, rfl⟩⟩
  · have hd := dispatch_changePass_start (envs 0) s0 hc hi
    have er : run envs s0 1 = awaitLoop (envs 0).events (dispatch (envs 0) (resetFlags s0)) :=
      rfl
    have c1 : (run envs s0 1).g_currentState = CHANGE_PASS_STATE := by
      rw [er, awaitLoop_currentState, hd]; exact hc
    have i1 : (run envs s0 1).g_innerState = 1 := by
      rw [er, awaitLoop_innerState, hd]
    have p1 : (run envs s0 1).g_previousState ≠ AUTHORIZING_STATE := by
      rw [er, awaitLoop_previousState, hd]; exact hp
    have f1 : (run envs s0 1).g_firstTime = false := by
      rw [er, awaitLoop_firstTime, hd]; exact hf
    have t1 : (run envs s0 1).g_passTrials = 0 := by
      rw [er, awaitLoop_passTrials, hd]
    have hd2 := dispatch_changePass_handover (envs 1) _ c1 i1 f1 p1
    have er2 : run envs s0 2 =
        awaitLoop (envs 1).events (dispatch (envs 1) (resetFlags (run envs s0 1))) := rfl
    have c2 : (run envs s0 2).g_currentState = AUTHORIZING_STATE := by
      rw [er2, awaitLoop_currentState, hd2]
    have i2 : (run envs s0 2).g_innerState = 1 := by
      rw [er2, awaitLoop_innerState, hd2]; exact i1
    have p2 : (run envs s0 2).g_previousState = CHANGE_PASS_STATE := by
      rw [er2, awaitLoop_previousState, hd2]
    have t2 : (run envs s0 2).g_passTrials = 0 := by
      rw [er2, awaitLoop_passTrials, hd2]; exact t1
    refine ⟨c2, i2, ?_, ?_, ?_⟩
    · intro k hk
      rcases Nat.le_one_iff_eq_zero_or_eq_one.1 hk with h | h
      · subst h; simp [run, hc]
      · subst h; rw [c1]; decide
    · simp [comparisonsBefore, isComparisonTick, c1]
      simp [run, hc]
    · exact ⟨by rw [p2]; decide,
        Or.inr (Or.inl ⟨by rw [i2], by rw [i2]; decide, t2, Nat.zero_le 2⟩)⟩

/-- Consecutive ticks of Authorizing leave the EEPROM as it is. -/
theorem auth_flow_eeprom (envs : Nat → Env) (s0 : State) (n : Nat)
    (hflow : ∀ k, k < n → (run envs s0 k).g_currentState = AUTHORIZING_STATE) :
    (run envs s0 n).eeprom = s0.eeprom := by
  apply flow_eeprom
  intro k hk hm
  have h1 := hflow k hk
  rw [hm.1.1] at h1
  cases h1

/-! ## The entry sub-protocol -/

theorem readPasswordOn_done (b : Nat) (p : Nat → Nat) (s : State) (h : s.passInnerState = 1) :
    readPasswordOn b p s =
      (true, p, { resetFlags (uartRxCallback b s) with passInnerState := 0 }) := by
  unfold readPasswordOn
  rw [readPassword_done _ _ (by simpa [resetFlags, uartRxCallback] using h)]

theorem readPasswordOn_digit (b : Nat) (p : Nat → Nat) (s : State)
    (h0 : s.passInnerState = 0) (hidx : s.passIndex < PASSWORD_LENGTH) (hd : isPassDigit b) :
    readPasswordOn b p s =
      (false, setByte p s.passIndex b,
        { resetFlags (uartRxCallback b s) with
          passIndex := s.passIndex + 1
          g_awaitOption := AWAIT_RESPONSE
          trace := s.trace ++ [Effect.uartSend READ_NEXT_PASS_CHAR_CMD] }) := by
  obtain ⟨hd1, hd2⟩ := hd
  simp only [PASS_ALLOWED_START_CHAR, PASS_ALLOWED_END_CHAR, PASSWORD_LENGTH] at hd1 hd2 hidx
  have hb : b % 256 = b := by omega
  have e1 : (s.passIndex + 1) % 256 = s.passIndex + 1 := by omega
  have n1 : ¬ b = 45 := by omega
  have n2 : ¬ b = 99 := by omega
  have n3 : ¬ s.passIndex = 5 := by omega
  simp [readPasswordOn, readPassword, resetFlags, uartRxCallback, h0, hb, n1, n2, n3, hd1, hd2,
    e1, UART_sendByteBlocking, emit]

theorem readPasswordOn_submit (b : Nat) (p : Nat → Nat) (s : State)
    (h0 : s.passInnerState = 0) (hidx : s.passIndex = PASSWORD_LENGTH)
    (hb : b % 256 = PASS_ENTER_CHAR) :
    readPasswordOn b p s =
      (false, p,
        { resetFlags (uartRxCallback b s) with
          passIndex := 0
          passInnerState := 1
          g_awaitOption := AWAIT_RESPONSE
          trace := s.trace ++ [Effect.uartSend STOP_RECEIVING_PASS_CMD] }) := by
  simp only [PASS_ENTER_CHAR, PASSWORD_LENGTH] at hb hidx
  simp [readPasswordOn, readPassword, resetFlags, uartRxCallback, h0, hb, hidx,
    UART_sendByteBlocking, emit]

theorem readPasswordOn_true_iff (b : Nat) (p : Nat → Nat) (s : State) :
    (readPasswordOn b p s).1 = true ↔ s.passInnerState = 1 := by
  unfold readPasswordOn
  rcases readPassword_cases p (resetFlags (uartRxCallback b s)) with
    ⟨h1, hr⟩ | ⟨h1, q, idx, st, aw, l, hr, _⟩
  · rw [hr]
    simpa [resetFlags, uartRxCallback] using h1
  · rw [hr]
    simpa [resetFlags, uartRxCallback] using h1

theorem entryState_succ (bytes : Nat → Nat) (password : Nat → Nat) (s : State) (k : Nat) :
    entryState bytes password s (k + 1) =
      ((readPasswordOn (bytes k) (entryState bytes password s k).1
          (entryState bytes password s k).2).2.1,
       (readPasswordOn (bytes k) (entryState bytes password s k).1
          (entryState bytes password s k).2).2.2) := by
  simp only [entryState]

theorem callResult_true_iff (bytes : Nat → Nat) (password : Nat → Nat) (s : State) (k : Nat) :
    callResult bytes password s k = true ↔
      (entryState bytes password s k).2.passInnerState = 1 := by
  simp only [callResult]
  exact readPasswordOn_true_iff _ _ _

/-- The first `k` digits of an entry: index `k`, entry step 0, the digits in the array. -/
theorem entryState_digits (bytes : Nat → Nat) (password : Nat → Nat) (s : State)
    (hidx : s.passIndex = 0) (hst : s.passInnerState = 0)
    (hd : ∀ i, i < PASSWORD_LENGTH → isPassDigit (bytes i)) (k : Nat)
    (hk : k ≤ PASSWORD_LENGTH) :
    (entryState bytes password s k).2.passInnerState = 0 ∧
    (entryState bytes password s k).2.passIndex = k ∧
    ∀ i, i < k → (entryState bytes password s k).1 i = bytes i := by
  induction k with
  | zero => exact ⟨hst, hidx, fun i hi => absurd hi (Nat.not_lt_zero i)⟩
  | succ k ih =>
    obtain ⟨h1, h2, h3⟩ := ih (Nat.le_of_succ_le hk)
    have hlt : (entryState bytes password s k).2.passIndex < PASSWORD_LENGTH := by
      rw [h2]; exact hk
    have hstep := readPasswordOn_digit (bytes k) (entryState bytes password s k).1
      (entryState bytes password s k).2 h1 hlt (hd k hk)
    rw [entryState_succ, hstep]
    refine ⟨by simpa [resetFlags, uartRxCallback] using h1, by rw [h2], fun i hi => ?_⟩
    simp only [setByte, h2]
    by_cases hik : i = k
    · rw [if_pos hik, hik]
    · rw [if_neg hik]
      exact h3 i (by omega)

/-- One call of `readPassword` on a received byte keeps `entryInv`; it enters entry step 1
only from step 0 with a full array on the submit character; and a call that returns FALSE
arms the wait for a message. -/
theorem readPasswordOn_step (b : Nat) (p : Nat → Nat) (s : State) (hinv : entryInv p s) :
    entryInv (readPasswordOn b p s).2.1 (readPasswordOn b p s).2.2 ∧
    ((readPasswordOn b p s).2.2.passInnerState = 1 →
      s.passInnerState = 0 ∧ s.passIndex = PASSWORD_LENGTH ∧ b % 256 = PASS_ENTER_CHAR) ∧
    ((readPasswordOn b p s).1 = false →
      (readPasswordOn b p s).2.2.g_awaitOption = AWAIT_RESPONSE) := by
  obtain ⟨hs, hi, hd, h1⟩ := hinv
  rcases Nat.lt_or_ge s.passInnerState 1 with h | h
  · have h0 : s.passInnerState = 0 := by omega
    simp only [PASSWORD_LENGTH] at hi hd h1
    simp only [readPasswordOn, readPassword, resetFlags, uartRxCallback, h0,
      UART_sendByteBlocking, emit, entryInv, isPassDigit, PASSWORD_LENGTH, PASS_ENTER_CHAR,
      PASS_BACKSPACE_CHAR, PASS_CLEAR_SCREEN_CHAR, PASS_ALLOWED_START_CHAR,
      PASS_ALLOWED_END_CHAR] at hd ⊢
    split_ifs with c1 c2 c3 c4
    · refine ⟨⟨by simp, by simp; omega, ?_, by simp⟩, by simp, by simp⟩
      intro i hi2
      exact hd i (by simp at hi2; omega)
    · refine ⟨⟨by simp, by simp, by simp, by simp⟩, by simp, by simp⟩
    · refine ⟨⟨by simp, ?_, ?_, by simp⟩, by simp, by simp⟩
      · simp only
        omega
      · intro i hi2
        simp only at hi2
        simp only [setByte]
        by_cases e : i = s.passIndex
        · rw [if_pos e]
          exact ⟨c3.2.1, c3.2.2⟩
        · rw [if_neg e]
          exact hd i (by omega)
    · refine ⟨⟨by simp, by simp, by simp, ?_⟩, ?_, by simp⟩
      · intro _
        refine ⟨by simp, ?_⟩
        intro i hi2
        exact hd i (by omega)
      · intro _
        exact ⟨trivial, c4.1, c4.2⟩
    · refine ⟨⟨by simp, by simpa using hi, ?_, by simp⟩, by simp, by simp⟩
      intro i hi2
      exact hd i (by simpa using hi2)
  · have h1s : s.passInnerState = 1 := by omega
    obtain ⟨hz, hall⟩ := h1 h1s
    rw [readPasswordOn_done b p s h1s]
    refine ⟨⟨by simp [resetFlags, uartRxCallback], ?_, ?_, ?_⟩, ?_, ?_⟩
    · simp [resetFlags, uartRxCallback, hz]
    · intro i hi2
      simp [resetFlags, uartRxCallback, hz] at hi2
    · intro hc
      simp [resetFlags, uartRxCallback] at hc
    · intro hc
      simp [resetFlags, uartRxCallback] at hc
    · intro hc
      simp at hc

theorem readPasswordOn_index_le (b : Nat) (p : Nat → Nat) (s : State) :
    (readPasswordOn b p s).2.2.passIndex ≤ s.passIndex + 1 := by
  rcases readPassword_cases p (resetFlags (uartRxCallback b s)) with ⟨h1, hr⟩ | ⟨h1, _⟩
  · unfold readPasswordOn
    rw [hr]
    simp [resetFlags, uartRxCallback]
  · have h1b : s.passInnerState ≠ 1 := by simpa [resetFlags, uartRxCallback] using h1
    rcases Nat.lt_or_ge s.passInnerState 1 with h | h
    · have h0 : s.passInnerState = 0 := by omega
      simp only [readPasswordOn, readPassword, resetFlags, uartRxCallback, h0,
        UART_sendByteBlocking, emit]
      split_ifs
      · simp only
        omega
      · simp
      · simp only
        exact Nat.mod_le _ _
      · simp
      · simp
    · have : readPassword p (resetFlags (uartRxCallback b s)) =
          (false, p, resetFlags (uartRxCallback b s)) := by
        unfold readPassword
        split
        · rename_i h0
          simp [resetFlags, uartRxCallback] at h0
          omega
        · rename_i h0
          simp [resetFlags, uartRxCallback] at h0
          omega
        · rfl
      unfold readPasswordOn
      rw [this]
      simp [resetFlags, uartRxCallback]

/-- Along a stream of received bytes that starts on a fresh entry, `entryInv` holds before
every call and the index is at most the number of calls made. -/
theorem entryState_inv (bytes : Nat → Nat) (password : Nat → Nat) (s : State)
    (hidx : s.passIndex = 0) (hst : s.passInnerState = 0) (k : Nat) :
    entryInv (entryState bytes password s k).1 (entryState bytes password s k).2 ∧
    (entryState bytes password s k).2.passIndex ≤ k := by
  induction k with
  | zero =>
    refine ⟨⟨?_, ?_, ?_, ?_⟩, ?_⟩
    · simp [entryState, hst]
    · simp [entryState, hidx]
    · intro i hi
      simp [entryState, hidx] at hi
    · intro h
      simp [entryState, hst] at h
    · simp [entryState, hidx]
  | succ k ih =>
    rw [entryState_succ]
    refine ⟨(readPasswordOn_step _ _ _ ih.1).1, ?_⟩
    have := readPasswordOn_index_le (bytes k) (entryState bytes password s k).1
      (entryState bytes password s k).2
    simp only
    omega

/-! ## The menu -/

/-- The MainMenu tick at the step that awaits a reply, as a step equation. -/
theorem dispatch_menu_reply (env : Env) (s : State) (hc : s.g_currentState = MAIN_MENU_STATE)
    (hi : s.g_innerState = 1) :
    dispatch env (resetFlags s) =
      if s.g_receivedData = OPEN_DOOR_MENU_CHAR then
        { setAppState OPEN_DOOR_STATE (resetFlags s) with g_innerState := 0 }
      else if s.g_receivedData = CHANGE_PASS_MENU_CHAR then
        { setAppState CHANGE_PASS_STATE (resetFlags s) with g_innerState := 0 }
      else
        { resetFlags s with
          g_awaitOption := AWAIT_RESPONSE
          trace := s.trace ++ [Effect.uartSend ACK_CMD] } := by
  have hc2 : (resetFlags s).g_currentState = MAIN_MENU_STATE := hc
  have hi2 : (resetFlags s).g_innerState = 1 := hi
  have hr : (resetFlags s).g_receivedData = s.g_receivedData := rfl
  have ht : (resetFlags s).trace = s.trace := rfl
  unfold dispatch
  rw [hc2]
  simp only [showMainMenu, hi2, hr, UART_sendByteBlocking, emit, ht]

/-! ## The door sequence -/

theorem dispatch_openDoor_unlock (env : Env) (s : State)
    (hc : s.g_currentState = OPEN_DOOR_STATE) (hp : s.g_previousState = AUTHORIZING_STATE)
    (hi : s.g_innerState = 0) :
    dispatch env (resetFlags s) =
      { s with g_isDataReceived := false, g_hasMainTimerFinished := false,
               g_awaitOption := AWAIT_TIMER, g_innerState := 1,
               trace := s.trace ++ [Effect.timerArm MOTOR_UNLOCK_TIME_MS,
                 Effect.motorStart DCMOTOR_FORWARD 50,
                 Effect.uartSend SHOW_DOOR_UNLOCKING_TEXT_CMD] } := by
  rw [dispatch_openDoor env _ (by simpa [resetFlags] using hc)]
  simp [openDoor, resetFlags, hi, hp, startMainTimer, DCMOTOR_start, UART_sendByteBlocking, emit]

theorem dispatch_openDoor_hold (env : Env) (s : State)
    (hc : s.g_currentState = OPEN_DOOR_STATE) (hp : s.g_previousState = AUTHORIZING_STATE)
    (hi : s.g_innerState = 1) :
    dispatch env (resetFlags s) =
      { s with g_isDataReceived := false, g_hasMainTimerFinished := false,
               g_awaitOption := AWAIT_TIMER, g_innerState := 2,
               trace := s.trace ++ [Effect.timerArm MOTOR_HOLD_TIME_MS, Effect.motorStop,
                 Effect.uartSend SHOW_DOOR_IS_UNLOCKED_TEXT_CMD] } := by
  rw [dispatch_openDoor env _ (by simpa [resetFlags] using hc)]
  simp [openDoor, resetFlags, hi, hp, startMainTimer, DCMOTOR_stop, UART_sendByteBlocking, emit]

theorem dispatch_openDoor_lock (env : Env) (s : State)
    (hc : s.g_currentState = OPEN_DOOR_STATE) (hp : s.g_previousState = AUTHORIZING_STATE)
    (hi : s.g_innerState = 2) :
    dispatch env (resetFlags s) =
      { s with g_isDataReceived := false, g_hasMainTimerFinished := false,
               g_awaitOption := AWAIT_TIMER, g_innerState := 3,
               trace := s.trace ++ [Effect.timerArm MOTOR_LOCK_TIME_MS,
                 Effect.motorStart DCMOTOR_REVERSE 50,
                 Effect.uartSend SHOW_DOOR_LOCKING_TEXT_CMD] } := by
  rw [dispatch_openDoor env _ (by simpa [resetFlags] using hc)]
  simp [openDoor, resetFlags, hi, hp, startMainTimer, DCMOTOR_start, UART_sendByteBlocking, emit]

theorem dispatch_openDoor_done (env : Env) (s : State)
    (hc : s.g_currentState = OPEN_DOOR_STATE) (hp : s.g_previousState = AUTHORIZING_STATE)
    (hi : s.g_innerState = 3) :
    dispatch env (resetFlags s) =
      { s with g_isDataReceived := false, g_hasMainTimerFinished := false,
               g_awaitOption := AWAIT_NOTHING, g_innerState := 0,
               g_previousState := OPEN_DOOR_STATE, g_currentState := MAIN_MENU_STATE,
               trace := s.trace ++ [Effect.motorStop] } := by
  rw [dispatch_openDoor env _ (by simpa [resetFlags] using hc)]
  simp [openDoor, resetFlags, hi, hp, hc, DCMOTOR_stop, setAppState, emit]

/-- While the loop waits on the timer only, it is left with the timer flag set exactly
when the flag was set before or a timer interrupt is among the events. -/
theorem awaitLoop_timer_iff (events : List Event) (s : State)
    (h : s.g_awaitOption = AWAIT_TIMER) :
    (awaitLoop events s).g_hasMainTimerFinished = true ↔
      s.g_hasMainTimerFinished = true ∨ Event.timer ∈ events := by
  induction events generalizing s with
  | nil => simp [awaitLoop]
  | cons e es ih =>
    have hp : awaitPending s = !s.g_hasMainTimerFinished := by
      unfold awaitPending
      rw [h]
      cases s.g_isDataReceived <;> cases s.g_hasMainTimerFinished <;> rfl
    unfold awaitLoop
    cases hf : s.g_hasMainTimerFinished
    · rw [hp, hf]
      simp only [Bool.not_false, if_true]
      cases e with
      | rx b =>
        rw [ih (isr (Event.rx b) s) (by simpa [isr, uartRxCallback] using h)]
        simp [isr, uartRxCallback, hf]
      | timer =>
        rw [ih (isr Event.timer s) (by simpa [isr, mainTimerCallback] using h)]
        simp [isr, mainTimerCallback]
    · rw [hp, hf]
      simp [hf]

/-- A tick whose handler arms the wait on the timer only ends its busy-wait exactly when a
timer interrupt is among the events of the tick. -/
theorem timed_tick (env : Env) (t d : State) (hd : dispatch env (resetFlags t) = d)
    (ha : d.g_awaitOption = AWAIT_TIMER) (hf : d.g_hasMainTimerFinished = false) :
    awaitPending (app_update env t) = false ↔ Event.timer ∈ env.events := by
  unfold app_update
  rw [hd, awaitPending_awaitLoop_timer _ _ ha]
  have := awaitLoop_timer_iff env.events d ha
  rw [hf] at this
  simp only [Bool.false_eq_true, false_or] at this
  rw [← this]
  cases (awaitLoop env.events d).g_hasMainTimerFinished <;> simp

/-! ## The first run -/

/-- A ChangingPassword tick of the first run (first-run indicator true, or last step)
keeps `firstRunGuard`. -/
theorem changePass_firstRunGuard (env : Env) (b : Bool) (t : State)
    (hg : t.g_firstTime = true ∨ t.g_innerState = 4) (hb : b = true → t.g_firstTime = false) :
    firstRunGuard (changePass env b t) := by
  unfold firstRunGuard
  rcases innerState_cases t.g_innerState with h | h | h | h | h | h | h
  · have hf : t.g_firstTime = true := by
      rcases hg with hg | hg
      · exact hg
      · omega
    simp [changePass, h, hf]
  · have hf : t.g_firstTime = true := by
      rcases hg with hg | hg
      · exact hg
      · omega
    cases b
    · simp [changePass, h, hf, UART_sendByteBlocking, emit]
    · have := hb rfl
      rw [hf] at this
      cases this
  · have hf : t.g_firstTime = true := by
      rcases hg with hg | hg
      · exact hg
      · omega
    rcases readPassword_cases t.newPass t with ⟨_, hr⟩ | ⟨_, q, idx, st, aw, l, hr, hl⟩
    · simp [changePass, h, hr, hf, UART_sendByteBlocking, emit]
    · simp [changePass, h, hr, hf]
  · have hf : t.g_firstTime = true := by
      rcases hg with hg | hg
      · exact hg
      · omega
    rcases readPassword_cases t.confirmationPass t with
      ⟨hp, _⟩ | ⟨hp, q, idx, st, aw, l, hr, hl⟩
    · cases hm : comparePasswords t.newPass t.confirmationPass
      · rw [changePass_confirm_mismatch env _ t h hp hm]
        intro _
        exact Or.inl hf
      · rw [changePass_confirm_match env _ t h hp hm]
        intro _
        exact Or.inr rfl
    · simp [changePass, h, hr, hf]
  · simp [changePass, h, setAppState]
  all_goals
    rw [changePass_default _ _ _ (by omega)]
    intro _
    rcases hg with hg | hg
    · exact Or.inl hg
    · omega

/-- A first-run ChangingPassword tick never sets the state to Authorizing, and keeps
`firstRunGuard`. -/
theorem app_update_firstRunGuard (env : Env) (s : State)
    (hc : s.g_currentState = CHANGE_PASS_STATE)
    (hg : s.g_firstTime = true ∨ s.g_innerState = 4) :
    (app_update env s).g_currentState ≠ AUTHORIZING_STATE ∧
    firstRunGuard (app_update env s) := by
  constructor
  · rcases app_update_control env s with ⟨h1, _⟩ | ⟨_, h2⟩
    · rw [h1, hc]
      decide
    · intro ha
      rw [ha] at h2
      simp only [transition, hc] at h2
      rcases h2 with ⟨hi, _, hf, _⟩ | ⟨_, h4⟩
      · rcases hg with hg | hg
        · rw [hf] at hg
          cases hg
        · omega
      · cases h4
  · have key := changePass_firstRunGuard env
      (!((resetFlags s).g_firstTime || (resetFlags s).g_previousState == AUTHORIZING_STATE))
      (resetFlags s) hg (by
        intro hb
        cases hf : (resetFlags s).g_firstTime
        · rfl
        · rw [hf] at hb
          simp at hb)
    rw [← dispatch_changePass env (resetFlags s) hc] at key
    unfold firstRunGuard at key ⊢
    simpa [app_update] using key

/-- The first Bootstrapping tick from the initial state: the handshake sends `ACK_CMD`
some number of times, then the banner timer is armed and the banner command sent. -/
theorem boot_tick_handshake (env : Env) (mem : Nat → Nat) :
    ∃ k, (app_update env (initialState mem)).g_currentState = PREPAIRING_CONNECTION_STATE ∧
      (app_update env (initialState mem)).g_innerState = 1 ∧
      (app_update env (initialState mem)).eeprom = mem ∧
      (app_update env (initialState mem)).trace =
        List.replicate k (Effect.uartSend ACK_CMD) ++
          [Effect.timerArm DEFAULT_MSG_TIME_MS, Effect.uartSend SHOW_DOOR_LOCK_TEXT_CMD] := by
  obtain ⟨r, d, k, hh⟩ := handshake_frame env.polls (resetFlags (initialState mem))
  have hd : dispatch env (resetFlags (initialState mem)) =
      establishConnection env (resetFlags (initialState mem)) := by
    simp [dispatch, resetFlags, initialState]
  have hi0 : (resetFlags (initialState mem)).g_innerState = 0 := rfl
  refine ⟨k, ?_, ?_, ?_, ?_⟩
  · simp only [app_update, awaitLoop_currentState, hd, establishConnection, hi0, hh,
      startMainTimer, UART_sendByteBlocking, emit]
    rfl
  · simp only [app_update, awaitLoop_innerState, hd, establishConnection, hi0, hh,
      startMainTimer, UART_sendByteBlocking, emit]
  · simp only [app_update, awaitLoop_eeprom, hd, establishConnection, hi0, hh,
      startMainTimer, UART_sendByteBlocking, emit]
    rfl
  · simp only [app_update, awaitLoop_trace, hd, establishConnection, hi0, hh,
      startMainTimer, UART_sendByteBlocking, emit]
    simp [resetFlags, initialState]

/-- The second Bootstrapping tick on a first-run flag that is not the sentinel. -/
theorem boot_tick_first_run (env : Env) (t : State)
    (hc : t.g_currentState = PREPAIRING_CONNECTION_STATE) (hi : t.g_innerState = 1)
    (hv : t.eeprom FIRST_TIME_CHECK_ADDRESS ≠ NOT_FIRST_TIME_EEPROM_VAL) :
    (app_update env t).g_currentState = CHANGE_PASS_STATE ∧
    (app_update env t).g_firstTime = true ∧
    (app_update env t).g_innerState = 0 ∧
    (app_update env t).trace = t.trace := by
  have hd : dispatch env (resetFlags t) = establishConnection env (resetFlags t) := by
    simp [dispatch, resetFlags, hc]
  have hv2 : ¬ t.eeprom 0 = 85 := hv
  simp only [app_update, awaitLoop_currentState, awaitLoop_firstTime, awaitLoop_innerState,
    awaitLoop_trace, hd]
  simp [establishConnection, resetFlags, hi, readByteRetry_eq, setAppState, hv2]

/-- The log only grows: the log after `m` ticks is a prefix of the log after `n ≥ m`
ticks. -/
theorem run_trace_prefix (envs : Nat → Env) (s0 : State) (m n : Nat) (h : m ≤ n) :
    (run envs s0 n).trace.take (run envs s0 m).trace.length = (run envs s0 m).trace := by
  induction n with
  | zero =>
    have : m = 0 := by omega
    subst this
    simp
  | succ n ih =>
    rcases Nat.lt_or_ge m (n + 1) with hlt | hge
    · have ihn := ih (by omega)
      have hstep := (app_update_ok (envs n) (run envs s0 n)).1
      have hlen : (run envs s0 m).trace.length ≤ (run envs s0 n).trace.length := by
        have := congrArg List.length ihn
        rw [List.length_take] at this
        omega
      have e : (run envs s0 (n + 1)).trace.take (run envs s0 m).trace.length =
          ((run envs s0 (n + 1)).trace.take (run envs s0 n).trace.length).take
            (run envs s0 m).trace.length := by
        rw [List.take_take, Nat.min_eq_left hlen]
      rw [e]
      simp only [run] at hstep ⊢
      rw [hstep]
      exact ihn
    · have : m = n + 1 := by omega
      subst this
      simp

/-- A call of `readPassword` leaves the array as it is, or stores the received byte at the
current index, which then is not `PASSWORD_LENGTH`. -/
theorem readPasswordOn_buffer (b : Nat) (p : Nat → Nat) (s : State) :
    (readPasswordOn b p s).2.1 = p ∨
    (s.passInnerState = 0 ∧ s.passIndex ≠ PASSWORD_LENGTH ∧ isPassDigit (b % 256) ∧
      (readPasswordOn b p s).2.1 = setByte p s.passIndex (b % 256)) := by
  rcases readPassword_cases p (resetFlags (uartRxCallback b s)) with ⟨h1, hr⟩ | ⟨h1, _⟩
  · left
    unfold readPasswordOn
    rw [hr]
  · rcases Nat.lt_or_ge s.passInnerState 1 with h | h
    · have h0 : s.passInnerState = 0 := by omega
      simp only [readPasswordOn, readPassword, resetFlags, uartRxCallback, h0,
        UART_sendByteBlocking, emit]
      split_ifs with c1 c2 c3 c4
      · exact Or.inl rfl
      · exact Or.inl rfl
      · exact Or.inr ⟨trivial, c3.1, ⟨c3.2.1, c3.2.2⟩, rfl⟩
      · exact Or.inl rfl
      · exact Or.inl rfl
    · left
      have h1b : s.passInnerState ≠ 1 := by simpa [resetFlags, uartRxCallback] using h1
      have : readPassword p (resetFlags (uartRxCallback b s)) =
          (false, p, resetFlags (uartRxCallback b s)) := by
        unfold readPassword
        split
        · rename_i h0
          simp [resetFlags, uartRxCallback] at h0
          omega
        · rename_i h0
          simp [resetFlags, uartRxCallback] at h0
          omega
        · rfl
      unfold readPasswordOn
      rw [this]

/-- A digit received in entry step 0 while the index is `PASSWORD_LENGTH` is answered with
the skip command; index and array stay as they are. -/
theorem readPasswordOn_full (b : Nat) (p : Nat → Nat) (s : State)
    (h0 : s.passInnerState = 0) (hidx : s.passIndex = PASSWORD_LENGTH)
    (hd : isPassDigit (b % 256)) :
    readPasswordOn b p s =
      (false, p,
        { resetFlags (uartRxCallback b s) with
          g_awaitOption := AWAIT_RESPONSE
          trace := s.trace ++ [Effect.uartSend SKIP_PASS_CHAR_CMD] }) := by
  obtain ⟨hd1, hd2⟩ := hd
  simp only [PASS_ALLOWED_START_CHAR, PASS_ALLOWED_END_CHAR, PASSWORD_LENGTH] at hd1 hd2 hidx
  have n1 : ¬ b % 256 = 45 := by omega
  have n2 : ¬ b % 256 = 99 := by omega
  have n3 : ¬ b % 256 = 61 := by omega
  simp [readPasswordOn, readPassword, resetFlags, uartRxCallback, h0, n1, n2, n3, hidx,
    UART_sendByteBlocking, emit]

/-! ## The inner step at a change of state -/

theorem StepReset_refl (t : State) : StepReset t t := Or.inl rfl

theorem establishConnection_reset (env : Env) (t : State) :
    StepReset t (establishConnection env t) := by
  rcases innerState_cases t.g_innerState with h | h | h | h | h | h | h
  · obtain ⟨r, d, k, hh⟩ := handshake_frame env.polls t
    simp [establishConnection, h, hh, startMainTimer, UART_sendByteBlocking, emit, StepReset]
  · simp only [establishConnection, h, setAppState, StepReset, readByteRetry_eq]
    split <;> simp
  all_goals
    rw [establishConnection_default _ _ (by omega)]
    exact StepReset_refl t

theorem showMainMenu_reset (t : State) : StepReset t (showMainMenu t) := by
  rcases innerState_cases t.g_innerState with h | h | h | h | h | h | h
  · simp [showMainMenu, h, UART_sendByteBlocking, emit, StepReset]
  · simp only [showMainMenu, h, UART_sendByteBlocking, emit, setAppState, StepReset]
    split_ifs <;> simp
  all_goals
    rw [showMainMenu_default _ (by omega)]
    exact StepReset_refl t

theorem changePass_reset (env : Env) (b : Bool) (t : State)
    (hc : t.g_currentState = CHANGE_PASS_STATE)
    (hb : b = !(t.g_firstTime || t.g_previousState == AUTHORIZING_STATE)) :
    StepReset t (changePass env b t) := by
  rcases innerState_cases t.g_innerState with h | h | h | h | h | h | h
  · simp [changePass, h, StepReset]
  · cases b
    · simp [changePass, h, UART_sendByteBlocking, emit, StepReset]
    · have hb2 : t.g_firstTime = false ∧ t.g_previousState ≠ AUTHORIZING_STATE := by
        simpa using hb.symm
      simp [changePass, h, setAppState, StepReset, hc, hb2.1, hb2.2]
  · rcases readPassword_cases t.newPass t with ⟨_, hr⟩ | ⟨_, q, idx, st, aw, l, hr, hl⟩
    · simp [changePass, h, hr, StepReset, UART_sendByteBlocking, emit]
    · simp [changePass, h, hr, StepReset]
  · rcases readPassword_cases t.confirmationPass t with ⟨hp, _⟩ | ⟨hp, q, idx, st, aw, l, hr, hl⟩
    · cases hm : comparePasswords t.newPass t.confirmationPass
      · rw [changePass_confirm_mismatch env b t h hp hm]
        simp [StepReset]
      · rw [changePass_confirm_match env b t h hp hm]
        simp [StepReset]
    · simp [changePass, h, hr, StepReset]
  · simp [changePass, h, setAppState, StepReset]
  all_goals
    rw [changePass_default _ _ _ (by omega)]
    exact StepReset_refl t

theorem openDoor_reset (b : Bool) (t : State) : StepReset t (openDoor b t) := by
  rcases innerState_cases t.g_innerState with h | h | h | h | h | h | h
  · cases b
    · simp [openDoor, h, UART_sendByteBlocking, emit, StepReset, startMainTimer, DCMOTOR_start]
    · simp [openDoor, h, setAppState, StepReset]
  · simp [openDoor, h, UART_sendByteBlocking, emit, StepReset, startMainTimer, DCMOTOR_stop]
  · simp [openDoor, h, UART_sendByteBlocking, emit, StepReset, startMainTimer, DCMOTOR_start]
  · simp [openDoor, h, setAppState, StepReset, DCMOTOR_stop, emit]
  all_goals
    rw [openDoor_default _ _ (by omega)]
    exact StepReset_refl t

theorem auth_reset (env : Env) (t : State) : StepReset t (auth env t) := by
  rcases innerState_cases t.g_innerState with h | h | h | h | h | h | h
  · simp [auth, h, StepReset]
  · simp [auth, h, UART_sendByteBlocking, emit, StepReset]
  · rcases readPassword_cases t.pass t with ⟨_, hr⟩ | ⟨_, q, idx, st, aw, l, hr, hl⟩
    · simp [auth, h, hr, StepReset]
    · simp [auth, h, hr, StepReset]
  · by_cases hm : passwordMatches t
    · rw [auth_compare_match env t h hm]
      simp [StepReset]
    · rw [auth_compare_mismatch env t h hm]
      split <;> simp [StepReset]
  · simp [auth, h, UART_sendByteBlocking, emit, StepReset, startMainTimer, BUZZER_on]
  · simp [auth, h, emit, StepReset, setAppState, BUZZER_off]
  · rw [auth_default _ _ h]
    exact StepReset_refl t

/-- Every tick that changes the current state ends at inner step 0, except the hand-over
of ChangingPassword to Authorizing. -/
theorem app_update_reset (env : Env) (s : State) : StepReset s (app_update env s) := by
  have key : StepReset (resetFlags s) (dispatch env (resetFlags s)) := by
    cases hc : s.g_currentState
    · simpa [dispatch, resetFlags, hc] using establishConnection_reset env (resetFlags s)
    · simpa [dispatch, resetFlags, hc] using showMainMenu_reset (resetFlags s)
    · rw [dispatch_changePass env _ (by simpa [resetFlags] using hc)]
      exact changePass_reset env _ _ (by simpa [resetFlags] using hc) rfl
    · rw [dispatch_openDoor env _ (by simpa [resetFlags] using hc)]
      exact openDoor_reset _ _
    · simpa [dispatch, resetFlags, hc] using auth_reset env (resetFlags s)
  unfold StepReset at key ⊢
  simpa [app_update, resetFlags] using key

/-! ## The range of the inner step -/

theorem innerInRange_zero (s : State) (h : s.g_innerState = 0) : innerInRange s := by
  unfold innerInRange
  cases s.g_currentState <;> simp [h]

theorem establishConnection_range (env : Env) (t : State)
    (hc : t.g_currentState = PREPAIRING_CONNECTION_STATE) (hr : innerInRange t) :
    innerInRange (establishConnection env t) := by
  have h1 : t.g_innerState ≤ 1 := by simpa [innerInRange, hc] using hr
  rcases innerState_cases t.g_innerState with h | h | h | h | h | h | h
  · obtain ⟨r, d, k, hh⟩ := handshake_frame env.polls t
    simp [establishConnection, h, hh, startMainTimer, UART_sendByteBlocking, emit, innerInRange,
      hc]
  · apply innerInRange_zero
    simp only [establishConnection, h]
  all_goals omega

theorem showMainMenu_range (t : State) (hc : t.g_currentState = MAIN_MENU_STATE)
    (hr : innerInRange t) : innerInRange (showMainMenu t) := by
  have h1 : t.g_innerState ≤ 1 := by simpa [innerInRange, hc] using hr
  rcases innerState_cases t.g_innerState with h | h | h | h | h | h | h
  · simp [showMainMenu, h, UART_sendByteBlocking, emit, innerInRange, hc]
  · simp only [showMainMenu, h, UART_sendByteBlocking, emit, setAppState]
    split_ifs
    · exact innerInRange_zero _ rfl
    · exact innerInRange_zero _ rfl
    · simp [innerInRange, hc, h]
  all_goals omega

theorem changePass_range (env : Env) (b : Bool) (t : State)
    (hc : t.g_currentState = CHANGE_PASS_STATE) (hr : innerInRange t) :
    innerInRange (changePass env b t) := by
  have h1 : t.g_innerState ≤ 4 := by simpa [innerInRange, hc] using hr
  rcases innerState_cases t.g_innerState with h | h | h | h | h | h | h
  · simp [changePass, h, innerInRange, hc]
  · cases b
    · simp [changePass, h, UART_sendByteBlocking, emit, innerInRange, hc]
    · simp [changePass, h, setAppState, innerInRange]
  · rcases readPassword_cases t.newPass t with ⟨_, hr⟩ | ⟨_, q, idx, st, aw, l, hr, hl⟩
    · simp [changePass, h, hr, innerInRange, hc, UART_sendByteBlocking, emit]
    · simp [changePass, h, hr, innerInRange, hc]
  · rcases readPassword_cases t.confirmationPass t with ⟨hp, _⟩ | ⟨hp, q, idx, st, aw, l, hr, hl⟩
    · cases hm : comparePasswords t.newPass t.confirmationPass
      · rw [changePass_confirm_mismatch env b t h hp hm]
        simp only [innerInRange, hc]
        split <;> split <;> simp
      · rw [changePass_confirm_match env b t h hp hm]
        simp [innerInRange, hc]
    · simp [changePass, h, hr, innerInRange, hc]
  · apply innerInRange_zero
    simp [changePass, h, setAppState]
  all_goals omega

theorem openDoor_range (b : Bool) (t : State) (hc : t.g_currentState = OPEN_DOOR_STATE)
    (hr : innerInRange t) : innerInRange (openDoor b t) := by
  have h1 : t.g_innerState ≤ 3 := by simpa [innerInRange, hc] using hr
  rcases innerState_cases t.g_innerState with h | h | h | h | h | h | h
  · cases b
    · simp [openDoor, h, UART_sendByteBlocking, emit, innerInRange, startMainTimer,
        DCMOTOR_start, hc]
    · apply innerInRange_zero
      simp [openDoor, h, setAppState]
  · simp [openDoor, h, UART_sendByteBlocking, emit, innerInRange, startMainTimer, DCMOTOR_stop,
      hc]
  · simp [openDoor, h, UART_sendByteBlocking, emit, innerInRange, startMainTimer, DCMOTOR_start,
      hc]
  · apply innerInRange_zero
    simp [openDoor, h, setAppState, DCMOTOR_stop, emit]
  all_goals omega

theorem auth_range (env : Env) (t : State) (hc : t.g_currentState = AUTHORIZING_STATE)
    (hr : innerInRange t) : innerInRange (auth env t) := by
  have h1 : t.g_innerState ≤ 5 := by simpa [innerInRange, hc] using hr
  rcases innerState_cases t.g_innerState with h | h | h | h | h | h | h
  · simp [auth, h, innerInRange, hc]
  · simp [auth, h, UART_sendByteBlocking, emit, innerInRange, hc]
  · rcases readPassword_cases t.pass t with ⟨_, hr⟩ | ⟨_, q, idx, st, aw, l, hr, hl⟩
    · simp [auth, h, hr, innerInRange, hc]
    · simp [auth, h, hr, innerInRange, hc]
  · by_cases hm : passwordMatches t
    · rw [auth_compare_match env t h hm]
      exact innerInRange_zero _ rfl
    · rw [auth_compare_mismatch env t h hm]
      split <;> simp [innerInRange, hc]
  · simp [auth, h, UART_sendByteBlocking, emit, innerInRange, startMainTimer, BUZZER_on, hc]
  · apply innerInRange_zero
    simp [auth, h, emit, setAppState, BUZZER_off]
  · omega

/-- Every tick keeps the inner step in the range of the handler of the current state. -/
theorem app_update_range (env : Env) (s : State) (hr : innerInRange s) :
    innerInRange (app_update env s) := by
  have hr2 : innerInRange (resetFlags s) := hr
  have key : innerInRange (dispatch env (resetFlags s)) := by
    cases hc : s.g_currentState
    · simpa [dispatch, resetFlags, hc] using
        establishConnection_range env (resetFlags s) (by simpa [resetFlags] using hc) hr2
    · simpa [dispatch, resetFlags, hc] using
        showMainMenu_range (resetFlags s) (by simpa [resetFlags] using hc) hr2
    · rw [dispatch_changePass env _ (by simpa [resetFlags] using hc)]
      exact changePass_range env _ _ (by simpa [resetFlags] using hc) hr2
    · rw [dispatch_openDoor env _ (by simpa [resetFlags] using hc)]
      exact openDoor_range _ _ (by simpa [resetFlags] using hc) hr2
    · simpa [dispatch, resetFlags, hc] using
        auth_range env (resetFlags s) (by simpa [resetFlags] using hc) hr2
  unfold innerInRange at key ⊢
  simpa [app_update] using key

/-! ## One byte per tick -/

/-- A call of `readPassword` in entry step 0 or 1: in step 1 the entry is complete; in step
0 the call transmits exactly one byte, arms the wait for a message and leaves the entry
step at 0 or 1. -/
theorem readPassword_send (p : Nat → Nat) (t : State) (hp : t.passInnerState ≤ 1) :
    (t.passInnerState = 1 ∧ readPassword p t = (true, p, { t with passInnerState := 0 })) ∨
    (t.passInnerState = 0 ∧ ∃ q idx st b,
      readPassword p t = (false, q,
        { t with passIndex := idx, passInnerState := st, g_awaitOption := AWAIT_RESPONSE,
                 trace := t.trace ++ [Effect.uartSend b] }) ∧ st ≤ 1) := by
  rcases Nat.lt_or_ge t.passInnerState 1 with h0 | h1
  · have h0 : t.passInnerState = 0 := by omega
    refine Or.inr ⟨h0, ?_⟩
    simp only [readPassword, h0, UART_sendByteBlocking, emit]
    split_ifs
    · exact ⟨_, _, 0, _, rfl, by omega⟩
    · exact ⟨_, _, 0, _, rfl, by omega⟩
    · exact ⟨_, _, 0, _, rfl, by omega⟩
    · exact ⟨_, _, 1, _, rfl, by omega⟩
    · exact ⟨_, _, 0, _, rfl, by omega⟩
  · have h1 : t.passInnerState = 1 := by omega
    exact Or.inl ⟨h1, readPassword_done p t h1⟩

theorem SendOk_refl (t : State) (hp : t.passInnerState ≤ 1)
    (ha : t.g_awaitOption = AWAIT_NOTHING) : SendOk t t := by
  simp [SendOk, uartBytes, ha, hp]

theorem establishConnection_send (env : Env) (t : State) (hi : t.g_innerState ≠ 0)
    (hp : t.passInnerState ≤ 1) (ha : t.g_awaitOption = AWAIT_NOTHING) :
    SendOk t (establishConnection env t) := by
  rcases innerState_cases t.g_innerState with h | h | h | h | h | h | h
  · exact absurd h hi
  · simp only [establishConnection, h, setAppState, SendOk, readByteRetry_eq]
    split <;> simp [uartBytes, ha, hp]
  all_goals
    rw [establishConnection_default _ _ (by omega)]
    exact SendOk_refl t hp ha

theorem showMainMenu_send (t : State) (hp : t.passInnerState ≤ 1)
    (ha : t.g_awaitOption = AWAIT_NOTHING) : SendOk t (showMainMenu t) := by
  rcases innerState_cases t.g_innerState with h | h | h | h | h | h | h
  · simp [showMainMenu, h, UART_sendByteBlocking, emit, SendOk, uartBytes, hp]
  · simp only [showMainMenu, h, UART_sendByteBlocking, emit, setAppState, SendOk]
    split_ifs <;> simp [uartBytes, ha, hp]
  all_goals
    rw [showMainMenu_default _ (by omega)]
    exact SendOk_refl t hp ha

theorem changePass_send (env : Env) (b : Bool) (t : State) (hp : t.passInnerState ≤ 1)
    (ha : t.g_awaitOption = AWAIT_NOTHING) : SendOk t (changePass env b t) := by
  rcases innerState_cases t.g_innerState with h | h | h | h | h | h | h
  · simp [changePass, h, SendOk, uartBytes, ha, hp]
  · cases b <;>
      simp [changePass, h, UART_sendByteBlocking, emit, setAppState, SendOk, uartBytes, ha, hp]
  · rcases readPassword_send t.newPass t hp with ⟨_, hr⟩ | ⟨_, q, idx, st, c, hr, hst⟩
    · simp [changePass, h, hr, SendOk, UART_sendByteBlocking, emit, uartBytes]
    · simp [changePass, h, hr, SendOk, uartBytes, hst]
  · rcases readPassword_send t.confirmationPass t hp with
      ⟨hp1, _⟩ | ⟨_, q, idx, st, c, hr, hst⟩
    · cases hm : comparePasswords t.newPass t.confirmationPass
      · rw [changePass_confirm_mismatch env b t h hp1 hm]
        simp [SendOk, uartBytes]
      · rw [changePass_confirm_match env b t h hp1 hm, passwordWrites_eq]
        cases hf : t.g_firstTime <;> simp [SendOk, uartBytes]
    · simp [changePass, h, hr, SendOk, uartBytes, hst]
  · simp [changePass, h, setAppState, SendOk, uartBytes, ha, hp]
  all_goals
    rw [changePass_default _ _ _ (by omega)]
    exact SendOk_refl t hp ha

theorem openDoor_send (b : Bool) (t : State) (hp : t.passInnerState ≤ 1)
    (ha : t.g_awaitOption = AWAIT_NOTHING) : SendOk t (openDoor b t) := by
  rcases innerState_cases t.g_innerState with h | h | h | h | h | h | h
  · cases b <;>
      simp [openDoor, h, UART_sendByteBlocking, emit, SendOk, startMainTimer, DCMOTOR_start,
        setAppState, uartBytes, ha, hp]
  · simp [openDoor, h, UART_sendByteBlocking, emit, SendOk, startMainTimer, DCMOTOR_stop,
      uartBytes, hp]
  · simp [openDoor, h, UART_sendByteBlocking, emit, SendOk, startMainTimer, DCMOTOR_start,
      uartBytes, hp]
  · simp [openDoor, h, setAppState, SendOk, DCMOTOR_stop, emit, uartBytes, ha, hp]
  all_goals
    rw [openDoor_default _ _ (by omega)]
    exact SendOk_refl t hp ha

theorem auth_send (env : Env) (t : State) (hp : t.passInnerState ≤ 1)
    (ha : t.g_awaitOption = AWAIT_NOTHING) : SendOk t (auth env t) := by
  rcases innerState_cases t.g_innerState with h | h | h | h | h | h | h
  · simp [auth, h, SendOk, uartBytes, ha, hp]
  · simp [auth, h, UART_sendByteBlocking, emit, SendOk, uartBytes, hp]
  · rcases readPassword_send t.pass t hp with ⟨_, hr⟩ | ⟨_, q, idx, st, c, hr, hst⟩
    · simp [auth, h, hr, SendOk, uartBytes, ha]
    · simp [auth, h, hr, SendOk, uartBytes, hst]
  · by_cases hm : passwordMatches t
    · rw [auth_compare_match env t h hm]
      simp [SendOk, uartBytes, ha, hp]
    · rw [auth_compare_mismatch env t h hm]
      split <;> simp [SendOk, uartBytes, ha, hp]
  · simp [auth, h, UART_sendByteBlocking, emit, SendOk, startMainTimer, BUZZER_on, uartBytes, hp]
  · simp [auth, h, emit, SendOk, setAppState, BUZZER_off, uartBytes, ha, hp]
  · rw [auth_default _ _ h]
    exact SendOk_refl t hp ha

/-- Every tick other than the handshake step transmits at most one byte, exactly one when
it arms a wait that includes a message, and keeps the entry step at 0 or 1. -/
theorem app_update_send (env : Env) (s : State)
    (hh : ¬ (s.g_currentState = PREPAIRING_CONNECTION_STATE ∧ s.g_innerState = 0))
    (hp : s.passInnerState ≤ 1) : SendOk s (app_update env s) := by
  have hp2 : (resetFlags s).passInnerState ≤ 1 := hp
  have ha2 : (resetFlags s).g_awaitOption = AWAIT_NOTHING := rfl
  have key : SendOk (resetFlags s) (dispatch env (resetFlags s)) := by
    cases hc : s.g_currentState
    · have hi : (resetFlags s).g_innerState ≠ 0 := fun h0 => hh ⟨hc, h0⟩
      simpa [dispatch, resetFlags, hc] using
        establishConnection_send env (resetFlags s) hi hp2 ha2
    · simpa [dispatch, resetFlags, hc] using showMainMenu_send (resetFlags s) hp2 ha2
    · rw [dispatch_changePass env _ (by simpa [resetFlags] using hc)]
      exact changePass_send env _ _ hp2 ha2
    · rw [dispatch_openDoor env _ (by simpa [resetFlags] using hc)]
      exact openDoor_send _ _ hp2 ha2
    · simpa [dispatch, resetFlags, hc] using auth_send env (resetFlags s) hp2 ha2
  unfold SendOk at key ⊢
  simpa [app_update, resetFlags] using key

/-- Every tick keeps the entry step of `readPassword` at 0 or 1. -/
theorem app_update_entry_step (env : Env) (s : State) (hp : s.passInnerState ≤ 1) :
    (app_update env s).passInnerState ≤ 1 := by
  by_cases hh : s.g_currentState = PREPAIRING_CONNECTION_STATE ∧ s.g_innerState = 0
  · obtain ⟨r, d, k, hf⟩ := handshake_frame env.polls (resetFlags s)
    have hi : (resetFlags s).g_innerState = 0 := hh.2
    have hd : dispatch env (resetFlags s) = establishConnection env (resetFlags s) := by
      simp [dispatch, resetFlags, hh.1]
    simp only [app_update, awaitLoop_passInnerState, hd, establishConnection, hi, hf,
      startMainTimer, UART_sendByteBlocking, emit]
    exact hp
  · exact (app_update_send env s hh hp).2.2

theorem run_entry_step (envs : Nat → Env) (mem : Nat → Nat) (n : Nat) :
    (run envs (initialState mem) n).passInnerState ≤ 1 := by
  induction n with
  | zero => exact Nat.zero_le 1
  | succ n ih => exact app_update_entry_step (envs n) _ ih

/-! ## The first-run invariant -/

/-- With the indicator false and the sentinel stored, `firstRunInv` holds in every state
other than Bootstrapping. -/
theorem firstRunInv_of_provisioned (s : State) (hf : s.g_firstTime = false)
    (he : s.eeprom FIRST_TIME_CHECK_ADDRESS = NOT_FIRST_TIME_EEPROM_VAL) : firstRunInv s := by
  unfold firstRunInv
  cases s.g_currentState
  · trivial
  · exact ⟨hf, he⟩
  · exact Or.inl ⟨hf, he⟩
  · exact ⟨hf, he⟩
  · exact ⟨hf, he⟩

theorem establishConnection_firstRunInv (env : Env) (t : State)
    (hc : t.g_currentState = PREPAIRING_CONNECTION_STATE) :
    firstRunInv (establishConnection env t) := by
  rcases innerState_cases t.g_innerState with h | h | h | h | h | h | h
  · obtain ⟨r, d, k, hh⟩ := handshake_frame env.polls t
    simp [establishConnection, h, hh, startMainTimer, UART_sendByteBlocking, emit, firstRunInv,
      hc]
  · simp only [establishConnection, h, setAppState, readByteRetry_eq, EEPROM_readByte]
    split
    · rename_i he
      simp [firstRunInv]
      simpa using he
    · simp [firstRunInv]
  all_goals
    rw [establishConnection_default _ _ (by omega)]
    simp [firstRunInv, hc]

theorem showMainMenu_flag (t : State) :
    (showMainMenu t).g_firstTime = t.g_firstTime ∧ (showMainMenu t).eeprom = t.eeprom := by
  rcases innerState_cases t.g_innerState with h | h | h | h | h | h | h
  · simp [showMainMenu, h, UART_sendByteBlocking, emit]
  · simp only [showMainMenu, h, UART_sendByteBlocking, emit, setAppState]
    split_ifs <;> simp
  all_goals
    rw [showMainMenu_default _ (by omega)]
    exact ⟨rfl, rfl⟩

theorem openDoor_flag (b : Bool) (t : State) :
    (openDoor b t).g_firstTime = t.g_firstTime ∧ (openDoor b t).eeprom = t.eeprom := by
  rcases innerState_cases t.g_innerState with h | h | h | h | h | h | h
  · cases b <;>
      simp [openDoor, h, UART_sendByteBlocking, emit, startMainTimer, DCMOTOR_start, setAppState]
  · simp [openDoor, h, UART_sendByteBlocking, emit, startMainTimer, DCMOTOR_stop]
  · simp [openDoor, h, UART_sendByteBlocking, emit, startMainTimer, DCMOTOR_start]
  · simp [openDoor, h, setAppState, DCMOTOR_stop, emit]
  all_goals
    rw [openDoor_default _ _ (by omega)]
    exact ⟨rfl, rfl⟩

theorem auth_flag (env : Env) (t : State) :
    (auth env t).g_firstTime = t.g_firstTime ∧ (auth env t).eeprom = t.eeprom := by
  rcases innerState_cases t.g_innerState with h | h | h | h | h | h | h
  · simp [auth, h]
  · simp [auth, h, UART_sendByteBlocking, emit]
  · rcases readPassword_cases t.pass t with ⟨_, hr⟩ | ⟨_, q, idx, st, aw, l, hr, hl⟩
    · simp [auth, h, hr]
    · simp [auth, h, hr]
  · by_cases hm : passwordMatches t
    · rw [auth_compare_match env t h hm]
      exact ⟨rfl, rfl⟩
    · rw [auth_compare_mismatch env t h hm]
      split <;> exact ⟨rfl, rfl⟩
  · simp [auth, h, UART_sendByteBlocking, emit, startMainTimer, BUZZER_on]
  · simp [auth, h, emit, setAppState, BUZZER_off]
  · rw [auth_default _ _ h]
    exact ⟨rfl, rfl⟩

theorem changePass_firstRunInv (env : Env) (b : Bool) (t : State)
    (hc : t.g_currentState = CHANGE_PASS_STATE)
    (hb : b = !(t.g_firstTime || t.g_previousState == AUTHORIZING_STATE))
    (hinv : firstRunInv t) : firstRunInv (changePass env b t) := by
  have hinv2 : (t.g_firstTime = false ∧ t.eeprom 0 = 85) ∨
      (t.g_firstTime = true ∧ (t.g_innerState = 0 ∨ (t.g_passTrials = 0 ∧ t.g_innerState ≤ 3))) := by
    simpa [firstRunInv, hc] using hinv
  rcases hinv2 with ⟨hf, he⟩ | ⟨hf, hstep⟩
  · -- provisioned: the indicator stays false and address 0 is not written
    apply firstRunInv_of_provisioned
    · rcases innerState_cases t.g_innerState with h | h | h | h | h | h | h
      · simp [changePass, h, hf]
      · cases b <;> simp [changePass, h, hf, UART_sendByteBlocking, emit, setAppState]
      · rcases readPassword_cases t.newPass t with ⟨_, hr⟩ | ⟨_, q, idx, st, aw, l, hr, hl⟩
        · simp [changePass, h, hr, hf, UART_sendByteBlocking, emit]
        · simp [changePass, h, hr, hf]
      · rcases readPassword_cases t.confirmationPass t with
          ⟨hp, _⟩ | ⟨hp, q, idx, st, aw, l, hr, hl⟩
        · cases hm : comparePasswords t.newPass t.confirmationPass
          · rw [changePass_confirm_mismatch env b t h hp hm]
            exact hf
          · rw [changePass_confirm_match env b t h hp hm]
        · simp [changePass, h, hr, hf]
      · simp [changePass, h, setAppState, hf]
      all_goals
        rw [changePass_default _ _ _ (by omega)]
        exact hf
    · rcases innerState_cases t.g_innerState with h | h | h | h | h | h | h
      · simp [changePass, h, he]
      · cases b <;> simp [changePass, h, he, UART_sendByteBlocking, emit, setAppState]
      · rcases readPassword_cases t.newPass t with ⟨_, hr⟩ | ⟨_, q, idx, st, aw, l, hr, hl⟩
        · simp [changePass, h, hr, he, UART_sendByteBlocking, emit]
        · simp [changePass, h, hr, he]
      · rcases readPassword_cases t.confirmationPass t with
          ⟨hp, _⟩ | ⟨hp, q, idx, st, aw, l, hr, hl⟩
        · cases hm : comparePasswords t.newPass t.confirmationPass
          · rw [changePass_confirm_mismatch env b t h hp hm]
            simpa using he
          · rw [changePass_confirm_match env b t h hp hm]
            simp [hf, storePass, he]
        · simp [changePass, h, hr, he]
      · simp [changePass, h, setAppState, he]
      all_goals
        rw [changePass_default _ _ _ (by omega)]
        simpa using he
  · -- first run: no authorization is required
    have hb2 : b = false := by rw [hb, hf]; rfl
    subst hb2
    rcases innerState_cases t.g_innerState with h | h | h | h | h | h | h
    · simp [changePass, h, firstRunInv, hc, hf]
    · have hpt : t.g_passTrials = 0 := by omega
      simp [changePass, h, UART_sendByteBlocking, emit, firstRunInv, hc, hf, hpt]
    · have hpt : t.g_passTrials = 0 := by omega
      rcases readPassword_cases t.newPass t with ⟨_, hr⟩ | ⟨_, q, idx, st, aw, l, hr, hl⟩
      · simp [changePass, h, hr, UART_sendByteBlocking, emit, firstRunInv, hc, hf, hpt]
      · simp [changePass, h, hr, firstRunInv, hc, hf, hpt]
    · have hpt : t.g_passTrials = 0 := by omega
      rcases readPassword_cases t.confirmationPass t with
        ⟨hp, _⟩ | ⟨hp, q, idx, st, aw, l, hr, hl⟩
      · cases hm : comparePasswords t.newPass t.confirmationPass
        · rw [changePass_confirm_mismatch env false t h hp hm]
          simp [firstRunInv, hc, hf, hpt]
        · rw [changePass_confirm_match env false t h hp hm]
          simp [firstRunInv, hc, hf, setByte]
      · simp [changePass, h, hr, firstRunInv, hc, hf, hpt]
    all_goals omega

/-- Every tick keeps `firstRunInv`. -/
theorem app_update_firstRunInv (env : Env) (s : State) (hinv : firstRunInv s) :
    firstRunInv (app_update env s) := by
  have hinv2 : firstRunInv (resetFlags s) := hinv
  have key : firstRunInv (dispatch env (resetFlags s)) := by
    cases hc : s.g_currentState
    · simpa [dispatch, resetFlags, hc] using
        establishConnection_firstRunInv env (resetFlags s) (by simpa [resetFlags] using hc)
    · have hp : s.g_firstTime = false ∧ s.eeprom 0 = 85 := by
        simpa [firstRunInv, hc] using hinv
      have hfl := showMainMenu_flag (resetFlags s)
      have hd : dispatch env (resetFlags s) = showMainMenu (resetFlags s) := by
        simp [dispatch, resetFlags, hc]
      rw [hd]
      exact firstRunInv_of_provisioned _ (hfl.1.trans hp.1) (by rw [hfl.2]; exact hp.2)
    · rw [dispatch_changePass env _ (by simpa [resetFlags] using hc)]
      exact changePass_firstRunInv env _ _ (by simpa [resetFlags] using hc) rfl hinv2
    · have hp : s.g_firstTime = false ∧ s.eeprom 0 = 85 := by
        simpa [firstRunInv, hc] using hinv
      rw [dispatch_openDoor env _ (by simpa [resetFlags] using hc)]
      have hfl := openDoor_flag (!((resetFlags s).g_previousState == AUTHORIZING_STATE))
        (resetFlags s)
      exact firstRunInv_of_provisioned _ (hfl.1.trans hp.1) (by rw [hfl.2]; exact hp.2)
    · have hp : s.g_firstTime = false ∧ s.eeprom 0 = 85 := by
        simpa [firstRunInv, hc] using hinv
      have hfl := auth_flag env (resetFlags s)
      have hd : dispatch env (resetFlags s) = auth env (resetFlags s) := by
        simp [dispatch, resetFlags, hc]
      rw [hd]
      exact firstRunInv_of_provisioned _ (hfl.1.trans hp.1) (by rw [hfl.2]; exact hp.2)
  unfold firstRunInv at key ⊢
  simpa [app_update] using key

theorem run_firstRunInv (envs : Nat → Env) (mem : Nat → Nat) (n : Nat) :
    firstRunInv (run envs (initialState mem) n) := by
  induction n with
  | zero => simp [run, firstRunInv, initialState]
  | succ n ih => exact app_update_firstRunInv (envs n) _ ih

/-! ## The claims -/

/-- C1: in every execution of the Controller from its initial state, a tick that
drives the door actuator forward is preceded by an Authorizing comparison tick in which
the entered password equalled the stored password, and no tick between that comparison
and the actuation is a MainMenu tick. -/
theorem C1_forward_drive_is_authorized (mem : Nat → Nat) (envs : Nat → Env) (n : Nat)
    (h : drivesForward (envs n) (run envs (initialState mem) n)) :
    ∃ j, j < n ∧ authMatchTick (run envs (initialState mem) j) ∧
      ∀ k, j < k → k < n → (run envs (initialState mem) k).g_currentState ≠ MAIN_MENU_STATE := by
  obtain ⟨hc, hp, _⟩ := drivesForward_state _ _ h
  exact authorized_of_previous envs (initialState mem) (by simp [initialState]) n
    (Or.inl hc) hp

/-- C1 at the run that boots a provisioned system, chooses '+' and enters "12345": tick 15
drives the actuator forward. -/
theorem C1_forward_drive_is_authorized_witness :
    drivesForward (unlockScript 15) (run unlockScript (initialState provisioned) 15) ∧
    ∃ j, j < 15 ∧ authMatchTick (run unlockScript (initialState provisioned) j) ∧
      ∀ k, j < k → k < 15 →
        (run unlockScript (initialState provisioned) k).g_currentState ≠ MAIN_MENU_STATE :=
  ⟨by decide, C1_forward_drive_is_authorized provisioned unlockScript 15 (by decide)⟩

/-- C2: in every execution of the Controller from its initial state, a tick that starts
with the first-run indicator false and writes the password range of the EEPROM is preceded
by an Authorizing comparison tick in which the entered password equalled the stored
password, and no tick between the two is a MainMenu tick. -/
theorem C2_password_write_is_authorized (mem : Nat → Nat) (envs : Nat → Env) (n : Nat)
    (hprov : (run envs (initialState mem) n).g_firstTime = false)
    (h : writesPasswordRange (envs n) (run envs (initialState mem) n)) :
    ∃ j, j < n ∧ authMatchTick (run envs (initialState mem) j) ∧
      ∀ k, j < k → k < n → (run envs (initialState mem) k).g_currentState ≠ MAIN_MENU_STATE := by
  obtain ⟨⟨hc, hi, _⟩, _⟩ := writesPasswordRange_state _ _ h
  have hg := run_changeGuard envs (initialState mem) (by simp [changeGuard, initialState]) n
  have hp : (run envs (initialState mem) n).g_previousState = AUTHORIZING_STATE := by
    by_contra hne
    have := hg hc hprov hne
    omega
  exact authorized_of_previous envs (initialState mem) (by simp [initialState]) n
    (Or.inr hc) hp

/-- C2 at the run that boots a provisioned system, chooses '-', enters the stored password
and then "11111" twice: tick 30 writes the password range. -/
theorem C2_password_write_is_authorized_witness :
    (run changeScript (initialState provisioned) 30).g_firstTime = false ∧
    writesPasswordRange (changeScript 30) (run changeScript (initialState provisioned) 30) ∧
    ∃ j, j < 30 ∧ authMatchTick (run changeScript (initialState provisioned) j) ∧
      ∀ k, j < k → k < 30 →
        (run changeScript (initialState provisioned) k).g_currentState ≠ MAIN_MENU_STATE :=
  ⟨by decide, by decide,
    C2_password_write_is_authorized provisioned changeScript 30 (by decide) (by decide)⟩

/-- C3: for every pair of fully entered passwords, `newPass` (P1) and `confirmationPass`
(P2), the ChangingPassword tick that completes the confirmation entry writes P2 to the
password range of the EEPROM if and only if P1 and P2 agree in all `PASSWORD_LENGTH`
bytes. When they agree the password range holds P2 after the tick; when they differ the
tick writes nothing to the EEPROM. -/
theorem C3_persist_iff_confirmed (env : Env) (s : State) (h : confirmTick s) :
    ((tickEffects env s).filter isPasswordRangeWrite = passwordWrites s.confirmationPass ↔
      ∀ i, i < PASSWORD_LENGTH → s.newPass i = s.confirmationPass i) ∧
    ((∀ i, i < PASSWORD_LENGTH → s.newPass i = s.confirmationPass i) →
      ∀ i, i < PASSWORD_LENGTH →
        (app_update env s).eeprom (PASSWORD_EEPROM_START_ADDRESS + i) = s.confirmationPass i) ∧
    ((¬ ∀ i, i < PASSWORD_LENGTH → s.newPass i = s.confirmationPass i) →
      (tickEffects env s).filter isEepromWrite = [] ∧ (app_update env s).eeprom = s.eeprom) := by
  by_cases hm : ∀ i, i < PASSWORD_LENGTH → s.newPass i = s.confirmationPass i
  · have hd := dispatch_confirm_match env s h hm
    have hw : (tickEffects env s).filter isPasswordRangeWrite =
        passwordWrites s.confirmationPass := by
      simp only [tickEffects, app_update, awaitLoop_trace, hd, List.drop_left,
        passwordWrites_eq]
      cases hf : s.g_firstTime <;> simp [List.filter, isPasswordRangeWrite]
    refine ⟨⟨fun _ => hm, fun _ => hw⟩, fun _ i hi => ?_, fun hn => absurd hm hn⟩
    simp only [app_update, awaitLoop_eeprom, hd]
    have hi5 : i < 5 := hi
    cases hf : s.g_firstTime <;> simp [storePass, setByte] <;> omega
  · have hd := dispatch_confirm_mismatch env s h hm
    have hw : tickEffects env s =
        [Effect.uartSend SHOW_PASS_MISMATCH_TEXT_CMD, Effect.timerArm DEFAULT_MSG_TIME_MS] := by
      simp only [tickEffects, app_update, awaitLoop_trace, hd, List.drop_left]
    refine ⟨⟨fun hf => ?_, fun hf => absurd hf hm⟩, fun hf => absurd hf hm, fun _ => ⟨?_, ?_⟩⟩
    · rw [hw, passwordWrites_eq] at hf
      simp [List.filter, isPasswordRangeWrite] at hf
    · rw [hw]
      simp [List.filter, isEepromWrite]
    · simp only [app_update, awaitLoop_eeprom, hd]

/-- C3 at the tick that completes the confirmation "12345" of the new password "12345" on
an erased system: the two entries agree and the tick writes the confirmation to the
password range. -/
theorem C3_persist_iff_confirmed_witness :
    confirmTick (run provisionScript (initialState erased) 17) ∧
    (∀ i, i < PASSWORD_LENGTH →
      (run provisionScript (initialState erased) 17).newPass i =
        (run provisionScript (initialState erased) 17).confirmationPass i) ∧
    (tickEffects (provisionScript 17) (run provisionScript (initialState erased) 17)).filter
        isPasswordRangeWrite =
      passwordWrites (run provisionScript (initialState erased) 17).confirmationPass :=
  ⟨by decide, by decide,
    (C3_persist_iff_confirmed (provisionScript 17)
      (run provisionScript (initialState erased) 17) (by decide)).1.2 (by decide)⟩

/-- C4 (as amended): for every pair of fully entered passwords that differ in one of the
`PASSWORD_LENGTH` bytes, the ChangingPassword tick that completes the confirmation entry
performs no EEPROM write; it increases the mismatch counter by exactly 1 (modulo 256, the
counter being a byte) when the first-run indicator is false, and leaves the counter
unchanged when the first-run indicator is true. -/
theorem C4_mismatch_counter (env : Env) (s : State) (h : confirmTick s)
    (hne : ∃ i, i < PASSWORD_LENGTH ∧ s.newPass i ≠ s.confirmationPass i) :
    (tickEffects env s).filter isEepromWrite = [] ∧
    (app_update env s).eeprom = s.eeprom ∧
    (s.g_firstTime = false →
      (app_update env s).g_passTrials = (s.g_passTrials + 1) % 256 ∧
      (s.g_passTrials < 255 → (app_update env s).g_passTrials = s.g_passTrials + 1)) ∧
    (s.g_firstTime = true → (app_update env s).g_passTrials = s.g_passTrials) := by
  have hm : ¬ ∀ i, i < PASSWORD_LENGTH → s.newPass i = s.confirmationPass i := by
    obtain ⟨i, hi, hd⟩ := hne
    exact fun hall => hd (hall i hi)
  have hd := dispatch_confirm_mismatch env s h hm
  have ht : (app_update env s).g_passTrials =
      if s.g_firstTime then s.g_passTrials else (s.g_passTrials + 1) % 256 := by
    simp only [app_update, awaitLoop_passTrials, hd]
  have hnw := tick_no_write env s (fun hmt => hm hmt.2)
  refine ⟨hnw.1, hnw.2, fun hf => ?_, fun hf => ?_⟩
  · rw [ht, hf]
    refine ⟨by simp, fun hlt => ?_⟩
    simp only [Bool.false_eq_true, if_false]
    omega
  · rw [ht, hf]
    simp

/-- C4 as stated fails on a first-run system: after an erased boot, the new password "12345"
and the confirmation "00000" differ, and the tick that completes the confirmation leaves
the mismatch counter at 0 instead of increasing it by 1. -/
theorem C4_counterexample :
    confirmTick (run firstRunMismatchScript (initialState erased) 17) ∧
    (run firstRunMismatchScript (initialState erased) 17).newPass 0 ≠
      (run firstRunMismatchScript (initialState erased) 17).confirmationPass 0 ∧
    (run firstRunMismatchScript (initialState erased) 17).g_firstTime = true ∧
    (run firstRunMismatchScript (initialState erased) 17).g_passTrials = 0 ∧
    (app_update (firstRunMismatchScript 17)
      (run firstRunMismatchScript (initialState erased) 17)).g_passTrials = 0 ∧
    ¬ ((app_update (firstRunMismatchScript 17)
        (run firstRunMismatchScript (initialState erased) 17)).g_passTrials =
      (run firstRunMismatchScript (initialState erased) 17).g_passTrials + 1) :=
  ⟨⟨by decide, by decide, by decide⟩, by decide, by decide, by decide, by decide, by decide⟩

/-- C4 (as amended) at the tick that completes the confirmation "22222" of the new
password "11111" on a provisioned system: the counter goes from 0 to 1 and nothing is
written. -/
theorem C4_mismatch_counter_witness :
    confirmTick (run changeMismatchScript (initialState provisioned) 30) ∧
    (∃ i, i < PASSWORD_LENGTH ∧
      (run changeMismatchScript (initialState provisioned) 30).newPass i ≠
        (run changeMismatchScript (initialState provisioned) 30).confirmationPass i) ∧
    (tickEffects (changeMismatchScript 30)
      (run changeMismatchScript (initialState provisioned) 30)).filter isEepromWrite = [] ∧
    (app_update (changeMismatchScript 30)
      (run changeMismatchScript (initialState provisioned) 30)).g_passTrials =
      (run changeMismatchScript (initialState provisioned) 30).g_passTrials + 1 :=
  ⟨⟨by decide, by decide, by decide⟩, ⟨0, by decide, by decide⟩,
    (C4_mismatch_counter (changeMismatchScript 30)
      (run changeMismatchScript (initialState provisioned) 30)
      ⟨by decide, by decide, by decide⟩ ⟨0, by decide, by decide⟩).1,
    ((C4_mismatch_counter (changeMismatchScript 30)
      (run changeMismatchScript (initialState provisioned) 30)
      ⟨by decide, by decide, by decide⟩ ⟨0, by decide, by decide⟩).2.2.1 (by decide)).2
      (by decide)⟩

/-- C5: in a ChangingPassword flow, started at inner step 0 (whose tick sets the mismatch
counter to 0) and followed through `n` ticks none of which confirms a password: no tick
writes to the EEPROM and the EEPROM content is that of the start; the counter never
exceeds `NEW_PASSWORD_TRIALS`; a mismatch that leaves the counter below
`NEW_PASSWORD_TRIALS` is followed by the new-password prompt (inner step 1, whose tick
sends `READ_NEW_PASS_CMD`); and after the mismatch that brings the counter to
`NEW_PASSWORD_TRIALS` the next tick sets the state to MainMenu with inner step 0. -/
theorem C5_mismatch_limit (envs : Nat → Env) (s0 : State)
    (hc0 : s0.g_currentState = CHANGE_PASS_STATE) (hi0 : s0.g_innerState = 0) (n : Nat)
    (hflow : ∀ k, k < n → (run envs s0 k).g_currentState = CHANGE_PASS_STATE ∧
      ¬ confirmMatchTick (run envs s0 k)) :
    (∀ k, k < n → (tickEffects (envs k) (run envs s0 k)).filter isEepromWrite = []) ∧
    (run envs s0 n).eeprom = s0.eeprom ∧
    (0 < n → (run envs s0 1).g_passTrials = 0) ∧
    (0 < n → (run envs s0 n).g_passTrials ≤ NEW_PASSWORD_TRIALS) ∧
    (∀ k, k < n → confirmTick (run envs s0 k) →
      ((run envs s0 (k + 1)).g_passTrials < NEW_PASSWORD_TRIALS →
        (run envs s0 (k + 1)).g_currentState = CHANGE_PASS_STATE ∧
        (run envs s0 (k + 1)).g_innerState = 1 ∧
        tickEffects (envs (k + 1)) (run envs s0 (k + 1)) =
          [Effect.uartSend READ_NEW_PASS_CMD] ∧
        (run envs s0 (k + 2)).g_currentState = CHANGE_PASS_STATE ∧
        (run envs s0 (k + 2)).g_innerState = 2) ∧
      ((run envs s0 (k + 1)).g_passTrials = NEW_PASSWORD_TRIALS →
        (run envs s0 (k + 2)).g_currentState = MAIN_MENU_STATE ∧
        (run envs s0 (k + 2)).g_innerState = 0)) := by
  refine ⟨fun k hk => (tick_no_write _ _ (hflow k hk).2).1,
    flow_eeprom envs s0 n (fun k hk => (hflow k hk).2), fun _ => ?_, fun hn => ?_,
    fun k hk hck => ?_⟩
  · simp only [run, app_update, awaitLoop_passTrials, dispatch_changePass_start _ _ hc0 hi0]
  · rcases flow_counter envs s0 hi0 n hflow with h | h
    · omega
    · exact h.1
  · have hm : ¬ ∀ i, i < PASSWORD_LENGTH →
        (run envs s0 k).newPass i = (run envs s0 k).confirmationPass i :=
      fun hall => (hflow k hk).2 ⟨hck, hall⟩
    have hd := dispatch_confirm_mismatch (envs k) _ hck hm
    have hg := run_changeGuard envs s0 (by simp [changeGuard, hi0]) k
    have hb : (run envs s0 k).g_firstTime = true ∨
        (run envs s0 k).g_previousState = AUTHORIZING_STATE := by
      by_contra hcon
      have h1 : (run envs s0 k).g_firstTime = false := by
        cases hft : (run envs s0 k).g_firstTime
        · rfl
        · exact absurd (Or.inl hft) hcon
      have h2 : (run envs s0 k).g_previousState ≠ AUTHORIZING_STATE :=
        fun h => hcon (Or.inr h)
      have := hg hck.1 h1 h2
      have := hck.2.1
      omega
    have e1c : (run envs s0 (k + 1)).g_currentState = CHANGE_PASS_STATE := by
      simp only [run, app_update, awaitLoop_currentState, hd]
      exact hck.1
    have e1p : (run envs s0 (k + 1)).g_previousState = (run envs s0 k).g_previousState := by
      simp only [run, app_update, awaitLoop_previousState, hd]
    have e1f : (run envs s0 (k + 1)).g_firstTime = (run envs s0 k).g_firstTime := by
      simp only [run, app_update, awaitLoop_firstTime, hd]
    have e1i : (run envs s0 (k + 1)).g_innerState =
        if (run envs s0 (k + 1)).g_passTrials < NEW_PASSWORD_TRIALS then 1 else 4 := by
      simp only [run, app_update, awaitLoop_innerState, awaitLoop_passTrials, hd]
    constructor
    · intro hlt
      rw [if_pos hlt] at e1i
      have hd2 := dispatch_changePass_prompt (envs (k + 1)) _ e1c e1i
        (by rw [e1f, e1p]; exact hb)
      refine ⟨e1c, e1i, ?_, ?_, ?_⟩
      · simp only [tickEffects, app_update, awaitLoop_trace, hd2, List.drop_left]
      · show (app_update (envs (k + 1)) (run envs s0 (k + 1))).g_currentState = _
        simp only [app_update, awaitLoop_currentState, hd2]
        exact e1c
      · show (app_update (envs (k + 1)) (run envs s0 (k + 1))).g_innerState = _
        simp only [app_update, awaitLoop_innerState, hd2]
    · intro heq
      rw [if_neg (by omega)] at e1i
      have hd2 := dispatch_changePass_leave (envs (k + 1)) _ e1c e1i
      constructor
      · show (app_update (envs (k + 1)) (run envs s0 (k + 1))).g_currentState = _
        simp only [app_update, awaitLoop_currentState, hd2]
      · show (app_update (envs (k + 1)) (run envs s0 (k + 1))).g_innerState = _
        simp only [app_update, awaitLoop_innerState, hd2]

/-- C5 at a flow of five failed rounds ("11111" confirmed by "22222") on a provisioned
system: tick 75 is the fifth mismatch, the counter is 5 after it, and tick 76 sets the
state to MainMenu with inner step 0. -/
theorem C5_mismatch_limit_witness :
    changeFlowStart.g_currentState = CHANGE_PASS_STATE ∧
    changeFlowStart.g_innerState = 0 ∧
    (∀ k, k < 77 →
      (run fiveMismatchScript changeFlowStart k).g_currentState = CHANGE_PASS_STATE ∧
      ¬ confirmMatchTick (run fiveMismatchScript changeFlowStart k)) ∧
    confirmTick (run fiveMismatchScript changeFlowStart 75) ∧
    (run fiveMismatchScript changeFlowStart 76).g_passTrials = NEW_PASSWORD_TRIALS ∧
    (run fiveMismatchScript changeFlowStart 77).g_currentState = MAIN_MENU_STATE ∧
    (run fiveMismatchScript changeFlowStart 77).g_innerState = 0 :=
  ⟨by decide, by decide, by decide, by decide, by decide,
    ((C5_mismatch_limit fiveMismatchScript changeFlowStart (by decide) (by decide) 77
      (by decide)).2.2.2.2 75 (by decide) (by decide)).2 (by decide)⟩

/-- C6: when a wrong comparison in Authorizing brings the trial counter to
`PASSWORD_TRIALS`, whatever requester is recorded as previous state (in particular
OpeningDoor or ChangingPassword), the next tick arms the timer for `WARNING_MSG_TIME_MS`,
turns the alarm on and sends `SHOW_ACCESS_DENIED_TEXT_CMD`, and waits on the timer only;
the tick after that turns the alarm off and sets the state to MainMenu with inner step 0. -/
theorem C6_lockout_alarm (envs : Nat → Env) (s : State)
    (hc : s.g_currentState = AUTHORIZING_STATE) (hi : s.g_innerState = 3)
    (hw : ¬ passwordMatches s) (ht : s.g_passTrials + 1 = PASSWORD_TRIALS) :
    (run envs s 1).g_passTrials = PASSWORD_TRIALS ∧
    (run envs s 1).g_previousState = s.g_previousState ∧
    tickEffects (envs 1) (run envs s 1) =
      [Effect.timerArm WARNING_MSG_TIME_MS, Effect.buzzerOn,
       Effect.uartSend SHOW_ACCESS_DENIED_TEXT_CMD] ∧
    (run envs s 2).g_awaitOption = AWAIT_TIMER ∧
    awaitPending (run envs s 2) = !(run envs s 2).g_hasMainTimerFinished ∧
    tickEffects (envs 2) (run envs s 2) = [Effect.buzzerOff] ∧
    (run envs s 3).g_currentState = MAIN_MENU_STATE ∧
    (run envs s 3).g_innerState = 0 := by
  have ht2 : s.g_passTrials = 2 := by simpa using ht
  have hd1 := dispatch_auth_mismatch (envs 0) s hc hi hw
  rw [if_neg (by rw [ht2]; decide)] at hd1
  have e1 : run envs s 1 = awaitLoop (envs 0).events (dispatch (envs 0) (resetFlags s)) := rfl
  have c1 : (run envs s 1).g_currentState = AUTHORIZING_STATE := by
    rw [e1, awaitLoop_currentState, hd1]; exact hc
  have i1 : (run envs s 1).g_innerState = 4 := by
    rw [e1, awaitLoop_innerState, hd1]
  have hd2 := dispatch_auth_alarm (envs 1) (run envs s 1) c1 i1
  have e2 : run envs s 2 =
      awaitLoop (envs 1).events (dispatch (envs 1) (resetFlags (run envs s 1))) := rfl
  have c2 : (run envs s 2).g_currentState = AUTHORIZING_STATE := by
    rw [e2, awaitLoop_currentState, hd2]; exact c1
  have i2 : (run envs s 2).g_innerState = 5 := by
    rw [e2, awaitLoop_innerState, hd2]
  have hd3 := dispatch_auth_leave (envs 2) (run envs s 2) c2 i2
  have e3 : run envs s 3 =
      awaitLoop (envs 2).events (dispatch (envs 2) (resetFlags (run envs s 2))) := rfl
  refine ⟨?_, ?_, ?_, ?_, ?_, ?_, ?_, ?_⟩
  · rw [e1, awaitLoop_passTrials, hd1]
    simp [ht2]
  · rw [e1, awaitLoop_previousState, hd1]
  · simp only [tickEffects, app_update, awaitLoop_trace, hd2, List.drop_left]
  · rw [e2, awaitLoop_awaitOption, hd2]
  · rw [e2]
    exact awaitPending_awaitLoop_timer _ _ (by rw [hd2])
  · simp only [tickEffects, app_update, awaitLoop_trace, hd3, List.drop_left]
  · rw [e3, awaitLoop_currentState, hd3]
  · rw [e3, awaitLoop_innerState, hd3]

/-- C6 at the third wrong entry of `lockoutScript` (requester OpeningDoor): tick 32 is the
comparison, tick 33 starts the alarm, tick 34 ends it. -/
theorem C6_lockout_alarm_witness :
    (run lockoutScript (initialState provisioned) 32).g_currentState = AUTHORIZING_STATE ∧
    (run lockoutScript (initialState provisioned) 32).g_previousState = OPEN_DOOR_STATE ∧
    (run lockoutScript (initialState provisioned) 32).g_innerState = 3 ∧
    ¬ passwordMatches (run lockoutScript (initialState provisioned) 32) ∧
    (run lockoutScript (initialState provisioned) 32).g_passTrials + 1 = PASSWORD_TRIALS ∧
    (run (fun k => lockoutScript (k + 32))
      (run lockoutScript (initialState provisioned) 32) 3).g_currentState = MAIN_MENU_STATE :=
  ⟨by decide, by decide, by decide, by decide, by decide,
    (C6_lockout_alarm (fun k => lockoutScript (k + 32))
      (run lockoutScript (initialState provisioned) 32) (by decide) (by decide)
      (by decide) (by decide)).2.2.2.2.2.2.1⟩

/-- C7: a requester that needs authorization (OpeningDoor, or ChangingPassword on a
provisioned system, both at their inner step 0 and not coming from Authorizing) enters
Authorizing after tick `e` at inner step `e`, where `e` is 0 for OpeningDoor and 1 for
ChangingPassword. As long as the flow has not left Authorizing it has made at most
`PASSWORD_TRIALS` password comparisons. A wrong comparison preceded by fewer than two
comparisons sends `SHOW_WRONG_PASS_TEXT_CMD`, arms the timer for `DEFAULT_MSG_TIME_MS`,
waits for both message and timer and returns to the verify prompt (inner step 1, whose
tick sends `ENTER_PASS_CMD`); a wrong comparison preceded by two comparisons is the third,
sends nothing, arms no wait and goes to inner step 4 instead of the prompt. -/
theorem C7_auth_at_most_three_comparisons (envs : Nat → Env) (s0 : State) (e : Nat)
    (hreq : (s0.g_currentState = OPEN_DOOR_STATE ∧ e = 0) ∨
            (s0.g_currentState = CHANGE_PASS_STATE ∧ s0.g_firstTime = false ∧ e = 1))
    (hp : s0.g_previousState ≠ AUTHORIZING_STATE) (hi : s0.g_innerState = 0) :
    (run envs s0 (e + 1)).g_currentState = AUTHORIZING_STATE ∧
    (run envs s0 (e + 1)).g_innerState = e ∧
    ∀ n, (∀ k, e < k → k < n → (run envs s0 k).g_currentState = AUTHORIZING_STATE) →
      comparisonsBefore envs s0 n ≤ PASSWORD_TRIALS ∧
      ∀ k, k < n → isComparisonTick (run envs s0 k) → ¬ passwordMatches (run envs s0 k) →
        (comparisonsBefore envs s0 k < 2 →
          tickEffects (envs k) (run envs s0 k) =
            [Effect.uartSend SHOW_WRONG_PASS_TEXT_CMD, Effect.timerArm DEFAULT_MSG_TIME_MS] ∧
          (run envs s0 (k + 1)).g_awaitOption = AWAIT_RESPONSE_AND_TIMER ∧
          (run envs s0 (k + 1)).g_currentState = AUTHORIZING_STATE ∧
          (run envs s0 (k + 1)).g_innerState = 1 ∧
          tickEffects (envs (k + 1)) (run envs s0 (k + 1)) =
            [Effect.uartSend ENTER_PASS_CMD]) ∧
        (2 ≤ comparisonsBefore envs s0 k →
          comparisonsBefore envs s0 k = 2 ∧
          tickEffects (envs k) (run envs s0 k) = [] ∧
          (run envs s0 (k + 1)).g_currentState = AUTHORIZING_STATE ∧
          (run envs s0 (k + 1)).g_innerState = 4 ∧
          (run envs s0 (k + 1)).g_awaitOption = AWAIT_NOTHING) := by
  obtain ⟨hc1, hi1, hbefore, hcount, hinv⟩ := handover_enters_auth envs s0 e hreq hp hi
  refine ⟨hc1, hi1, fun n hflow => ?_⟩
  have hbase : authInv (run envs s0 (e + 1)) (comparisonsBefore envs s0 (e + 1)) := by
    rw [hcount]; exact hinv
  have hafter : ∀ m, e + 1 ≤ m → m ≤ n →
      comparisonsBefore envs s0 m ≤ 3 ∧
      ((run envs s0 m).g_currentState = AUTHORIZING_STATE →
        authInv (run envs s0 m) (comparisonsBefore envs s0 m)) :=
    fun m h1 h2 => auth_flow_inv envs s0 (e + 1) hbase m h1
      (fun k hk1 hk2 => hflow k (by omega) (by omega))
  constructor
  · rcases Nat.lt_or_ge n (e + 1) with hlt | hge
    · -- no tick of Authorizing yet
      have hz : ∀ m, m ≤ e + 1 → comparisonsBefore envs s0 m = 0 := by
        intro m
        induction m with
        | zero => intro _; rfl
        | succ m ih =>
          intro hm
          have h0 := ih (by omega)
          have hne := hbefore m (by omega)
          simp [comparisonsBefore, h0, isComparisonTick, hne]
      rw [hz n (by omega)]
      exact Nat.zero_le _
    · exact (hafter n hge (Nat.le_refl n)).1
  · intro k hk hcmp hw
    have hke : e + 1 ≤ k := by
      by_contra hcon
      exact hbefore k (by omega) hcmp.1
    exact wrong_comparison_tick envs s0 k hcmp hw ((hafter k hke (Nat.le_of_lt hk)).2 hcmp.1)

/-- C7 at the flow of `lockoutScript`: OpeningDoor hands over, the flow stays in
Authorizing for ticks 1 to 30 and makes exactly three comparisons. -/
theorem C7_auth_at_most_three_comparisons_witness :
    lockoutFlowStart.g_currentState = OPEN_DOOR_STATE ∧
    lockoutFlowStart.g_previousState ≠ AUTHORIZING_STATE ∧
    lockoutFlowStart.g_innerState = 0 ∧
    (∀ k, 1 ≤ k → k < 31 →
      (run lockoutFlowEnvs lockoutFlowStart k).g_currentState = AUTHORIZING_STATE) ∧
    comparisonsBefore lockoutFlowEnvs lockoutFlowStart 31 = 3 ∧
    comparisonsBefore lockoutFlowEnvs lockoutFlowStart 31 ≤ PASSWORD_TRIALS :=
  ⟨by decide, by decide, by decide, by decide, by decide,
    ((C7_auth_at_most_three_comparisons lockoutFlowEnvs lockoutFlowStart 0
      (Or.inl ⟨by decide, rfl⟩) (by decide) (by decide)).2.2 31
      (show ∀ k, 1 ≤ k → k < 31 →
        (run lockoutFlowEnvs lockoutFlowStart k).g_currentState = AUTHORIZING_STATE
        by decide)).1⟩

/-- C8: for every recorded previous state `p`, the Authorizing comparison tick in which
the entered password equals the stored password sets the current state to `p`, the
previous state to Authorizing and the inner step to 0, and causes no peripheral action at
all: it sends no byte and does not turn the alarm on. -/
theorem C8_auth_success_returns (env : Env) (s : State) (p : EN_AppStates)
    (hp : s.g_previousState = p) (h : authMatchTick s) :
    (app_update env s).g_currentState = p ∧
    (app_update env s).g_previousState = AUTHORIZING_STATE ∧
    (app_update env s).g_innerState = 0 ∧
    tickEffects env s = [] := by
  have hd := dispatch_auth_match env s h
  refine ⟨?_, ?_, ?_, ?_⟩
  · simp only [app_update, awaitLoop_currentState, hd]
    exact hp
  · simp only [app_update, awaitLoop_previousState, hd]
  · simp only [app_update, awaitLoop_innerState, hd]
  · simp only [tickEffects, app_update, awaitLoop_trace, hd, List.drop_length]

/-- C8 at the comparison tick of `unlockScript` (requester OpeningDoor). -/
theorem C8_auth_success_returns_witness :
    (run unlockScript (initialState provisioned) 14).g_previousState = OPEN_DOOR_STATE ∧
    authMatchTick (run unlockScript (initialState provisioned) 14) ∧
    (app_update (unlockScript 14)
      (run unlockScript (initialState provisioned) 14)).g_currentState = OPEN_DOOR_STATE ∧
    tickEffects (unlockScript 14) (run unlockScript (initialState provisioned) 14) = [] :=
  ⟨by decide, by decide,
    (C8_auth_success_returns (unlockScript 14) (run unlockScript (initialState provisioned) 14)
      OPEN_DOOR_STATE (by decide) (by decide)).1,
    (C8_auth_success_returns (unlockScript 14) (run unlockScript (initialState provisioned) 14)
      OPEN_DOOR_STATE (by decide) (by decide)).2.2.2⟩

/-- C9: no tick of the Authorizing handler writes to the EEPROM, so the whole store, and
with it the stored password and the first-run flag, is the same after any number of
consecutive Authorizing ticks as before them, whatever is entered. In the run of
`lockoutScript` (stored password "12345", requester OpeningDoor) the Authorizing flow
spans ticks 5 to 34, each of its three comparisons finds the entry "00000", the alarm is
turned on and then off, the flow ends in MainMenu, and the EEPROM still holds the sentinel
and "12345". -/
theorem C9_auth_writes_nothing :
    (∀ (env : Env) (s : State), s.g_currentState = AUTHORIZING_STATE →
      (tickEffects env s).filter isEepromWrite = [] ∧ (app_update env s).eeprom = s.eeprom) ∧
    (∀ (envs : Nat → Env) (s0 : State) (n : Nat),
      (∀ k, k < n → (run envs s0 k).g_currentState = AUTHORIZING_STATE) →
      (run envs s0 n).eeprom = s0.eeprom) ∧
    ((∀ k, 5 ≤ k → k < 35 →
        (run lockoutScript (initialState provisioned) k).g_currentState = AUTHORIZING_STATE) ∧
      ([14, 23, 32].map (fun k =>
          [0, 1, 2, 3, 4].map (run lockoutScript (initialState provisioned) k).pass) =
        [[48, 48, 48, 48, 48], [48, 48, 48, 48, 48], [48, 48, 48, 48, 48]]) ∧
      ([14, 23, 32].map (fun k =>
          decide (isComparisonTick (run lockoutScript (initialState provisioned) k))) =
        [true, true, true]) ∧
      (run lockoutScript (initialState provisioned) 35).trace.filter isBuzzer =
        [Effect.buzzerOn, Effect.buzzerOff] ∧
      (run lockoutScript (initialState provisioned) 35).g_currentState = MAIN_MENU_STATE ∧
      [0, 1, 2, 3, 4, 5].map (run lockoutScript (initialState provisioned) 35).eeprom =
        [0x55, 49, 50, 51, 52, 53]) := by
  refine ⟨fun env s hc => ?_, fun envs s0 n hflow => auth_flow_eeprom envs s0 n hflow, ?_⟩
  · apply tick_no_write
    intro hm
    rw [hm.1.1] at hc
    cases hc
  · refine ⟨by decide, by decide, by decide, by decide, by decide, by decide⟩

/-- C9 at the Authorizing flow of `lockoutScript`: thirty ticks of Authorizing leave the
EEPROM unchanged. -/
theorem C9_auth_writes_nothing_witness :
    (∀ k, k < 30 →
      (run (fun k => lockoutScript (k + 5))
        (run lockoutScript (initialState provisioned) 5) k).g_currentState =
        AUTHORIZING_STATE) ∧
    (run (fun k => lockoutScript (k + 5))
      (run lockoutScript (initialState provisioned) 5) 30).eeprom =
      (run lockoutScript (initialState provisioned) 5).eeprom :=
  ⟨by decide,
    C9_auth_writes_nothing.2.1 (fun k => lockoutScript (k + 5))
      (run lockoutScript (initialState provisioned) 5) 30 (by decide)⟩

/-- C10: for every byte `v` held at the first-run address, the second Bootstrapping tick
sets the state to MainMenu with the first-run indicator false if `v` is the sentinel
`NOT_FIRST_TIME_EEPROM_VAL`, and otherwise (in particular for the erased value 0xFF) sets
the state to ChangingPassword with the first-run indicator true; in both cases the inner
step is 0 afterwards. -/
theorem C10_bootstrap_first_run_flag (env : Env) (s : State) (v : Nat)
    (hc : s.g_currentState = PREPAIRING_CONNECTION_STATE) (hi : s.g_innerState = 1)
    (hv : s.eeprom FIRST_TIME_CHECK_ADDRESS = v) :
    (v = NOT_FIRST_TIME_EEPROM_VAL →
      (app_update env s).g_currentState = MAIN_MENU_STATE ∧
      (app_update env s).g_firstTime = false ∧
      (app_update env s).g_innerState = 0) ∧
    (v ≠ NOT_FIRST_TIME_EEPROM_VAL →
      (app_update env s).g_currentState = CHANGE_PASS_STATE ∧
      (app_update env s).g_firstTime = true ∧
      (app_update env s).g_innerState = 0) ∧
    (v = 0xFF →
      (app_update env s).g_currentState = CHANGE_PASS_STATE ∧
      (app_update env s).g_firstTime = true ∧
      (app_update env s).g_innerState = 0) := by
  have hd : dispatch env (resetFlags s) = establishConnection env (resetFlags s) := by
    simp [dispatch, resetFlags, hc]
  have hv2 : s.eeprom 0 = v := hv
  have key : ∀ (b : Bool), decide (v = 85) = b →
      (app_update env s).g_currentState =
        (if b then MAIN_MENU_STATE else CHANGE_PASS_STATE) ∧
      (app_update env s).g_firstTime = !b ∧ (app_update env s).g_innerState = 0 := by
    intro b hb
    simp only [app_update, awaitLoop_currentState, awaitLoop_firstTime, awaitLoop_innerState, hd]
    cases b <;> simp at hb <;>
      simp [establishConnection, resetFlags, hi, readByteRetry_eq, setAppState, hv2, hb]
  refine ⟨fun h => ?_, fun h => ?_, fun h => ?_⟩
  · simpa using key true (by simpa using h)
  · simpa using key false (by simpa using h)
  · simpa using key false (by simp [h])

/-- C10 at the second tick of a boot over an erased EEPROM. -/
theorem C10_bootstrap_first_run_flag_witness :
    (run provisionScript (initialState erased) 1).g_currentState =
      PREPAIRING_CONNECTION_STATE ∧
    (run provisionScript (initialState erased) 1).g_innerState = 1 ∧
    (run provisionScript (initialState erased) 1).eeprom FIRST_TIME_CHECK_ADDRESS = 0xFF ∧
    (app_update (provisionScript 1)
      (run provisionScript (initialState erased) 1)).g_currentState = CHANGE_PASS_STATE ∧
    (app_update (provisionScript 1)
      (run provisionScript (initialState erased) 1)).g_firstTime = true :=
  ⟨by decide, by decide, by decide,
    ((C10_bootstrap_first_run_flag (provisionScript 1)
      (run provisionScript (initialState erased) 1) 0xFF (by decide) (by decide)
      (by decide)).2.2 rfl).1,
    ((C10_bootstrap_first_run_flag (provisionScript 1)
      (run provisionScript (initialState erased) 1) 0xFF (by decide) (by decide)
      (by decide)).2.2 rfl).2.1⟩

/-- C11: from the initial state over a store whose first-run flag is not the sentinel, the
two Bootstrapping ticks end in ChangingPassword; as long as the ticks that follow stay in
ChangingPassword, none of them sets the state to Authorizing; and the log after four ticks
is the handshake bytes, the banner timer, the banner command and then
`READ_NEW_PASS_CMD`, which stays a prefix of every later log: the first byte sent after
the banner is PromptNewPassword, not PromptVerifyPassword (`ENTER_PASS_CMD`). -/
theorem C11_first_run_no_authorization (envs : Nat → Env) (mem : Nat → Nat)
    (hv : mem FIRST_TIME_CHECK_ADDRESS ≠ NOT_FIRST_TIME_EEPROM_VAL) :
    (run envs (initialState mem) 2).g_currentState = CHANGE_PASS_STATE ∧
    (∀ n, 2 ≤ n →
      (∀ k, 2 ≤ k → k ≤ n →
        (run envs (initialState mem) k).g_currentState = CHANGE_PASS_STATE) →
      (run envs (initialState mem) (n + 1)).g_currentState ≠ AUTHORIZING_STATE) ∧
    (∃ k, (run envs (initialState mem) 4).trace =
      List.replicate k (Effect.uartSend ACK_CMD) ++
        [Effect.timerArm DEFAULT_MSG_TIME_MS, Effect.uartSend SHOW_DOOR_LOCK_TEXT_CMD,
          Effect.uartSend READ_NEW_PASS_CMD]) ∧
    (∀ n, 4 ≤ n →
      (run envs (initialState mem) n).trace.take
          (run envs (initialState mem) 4).trace.length =
        (run envs (initialState mem) 4).trace) ∧
    READ_NEW_PASS_CMD ≠ ENTER_PASS_CMD := by
  obtain ⟨k, c1, i1, e1, t1⟩ := boot_tick_handshake (envs 0) mem
  have r1 : run envs (initialState mem) 1 = app_update (envs 0) (initialState mem) := rfl
  rw [← r1] at c1 i1 e1 t1
  have hv1 : (run envs (initialState mem) 1).eeprom FIRST_TIME_CHECK_ADDRESS ≠
      NOT_FIRST_TIME_EEPROM_VAL := by
    rw [e1]
    exact hv
  obtain ⟨c2, f2, i2, t2⟩ := boot_tick_first_run (envs 1) _ c1 i1 hv1
  have r2 : run envs (initialState mem) 2 =
      app_update (envs 1) (run envs (initialState mem) 1) := rfl
  rw [← r2] at c2 f2 i2 t2
  have d2 := dispatch_changePass_start (envs 2) _ c2 i2
  have r3 : run envs (initialState mem) 3 =
      app_update (envs 2) (run envs (initialState mem) 2) := rfl
  have c3 : (run envs (initialState mem) 3).g_currentState = CHANGE_PASS_STATE := by
    simp [r3, app_update, d2, c2]
  have f3 : (run envs (initialState mem) 3).g_firstTime = true := by
    simp [r3, app_update, d2, f2]
  have i3 : (run envs (initialState mem) 3).g_innerState = 1 := by
    simp [r3, app_update, d2]
  have t3 : (run envs (initialState mem) 3).trace = (run envs (initialState mem) 2).trace := by
    simp [r3, app_update, d2]
  have d3 := dispatch_changePass_prompt (envs 3) _ c3 i3 (Or.inl f3)
  have r4 : run envs (initialState mem) 4 =
      app_update (envs 3) (run envs (initialState mem) 3) := rfl
  have t4 : (run envs (initialState mem) 4).trace =
      (run envs (initialState mem) 3).trace ++ [Effect.uartSend READ_NEW_PASS_CMD] := by
    simp [r4, app_update, d3]
  have guard : ∀ m, (∀ j, 2 ≤ j → j ≤ 2 + m →
        (run envs (initialState mem) j).g_currentState = CHANGE_PASS_STATE) →
      ((run envs (initialState mem) (2 + m)).g_firstTime = true ∨
        (run envs (initialState mem) (2 + m)).g_innerState = 4) := by
    intro m
    induction m with
    | zero =>
      intro _
      exact Or.inl f2
    | succ m ih =>
      intro hall
      have hg := ih (fun j h2 hj => hall j h2 (by omega))
      have hcm := hall (2 + m) (by omega) (by omega)
      have hnext := (app_update_firstRunGuard (envs (2 + m)) _ hcm hg).2
      exact hnext (hall (2 + (m + 1)) (by omega) (Nat.le_refl _))
  refine ⟨c2, ?_, ⟨k, ?_⟩, ?_, by decide⟩
  · intro n hn hall
    obtain ⟨m, rfl⟩ : ∃ m, n = 2 + m := ⟨n - 2, by omega⟩
    have hg := guard m hall
    have hcm := hall (2 + m) (by omega) (Nat.le_refl _)
    exact (app_update_firstRunGuard (envs (2 + m)) _ hcm hg).1
  · rw [t4, t3, t2, t1]
    simp
  · intro n hn
    exact run_trace_prefix envs (initialState mem) 4 n hn

/-- C11 on the boot of an erased system followed by the entry of a new password and of a
different confirmation: ticks 2 to 18 are ChangingPassword ticks, the state after tick 18 is
not Authorizing, and the bytes sent in the first four ticks are `ACK_CMD`, the banner
command and `READ_NEW_PASS_CMD`. -/
theorem C11_first_run_no_authorization_witness :
    erased FIRST_TIME_CHECK_ADDRESS ≠ NOT_FIRST_TIME_EEPROM_VAL ∧
    (∀ k, 2 ≤ k → k ≤ 18 →
      (run firstRunMismatchScript (initialState erased) k).g_currentState =
        CHANGE_PASS_STATE) ∧
    (run firstRunMismatchScript (initialState erased) (18 + 1)).g_currentState ≠
      AUTHORIZING_STATE ∧
    (run firstRunMismatchScript (initialState erased) 4).trace =
      [Effect.uartSend ACK_CMD, Effect.timerArm DEFAULT_MSG_TIME_MS,
        Effect.uartSend SHOW_DOOR_LOCK_TEXT_CMD, Effect.uartSend READ_NEW_PASS_CMD] :=
  ⟨by decide, by decide,
    (C11_first_run_no_authorization firstRunMismatchScript erased (by decide)).2.1 18
      (by decide) (by decide),
    by decide⟩

/-- C12: from OpeningDoor with previous state Authorizing and inner step 0, the four ticks
that follow emit, in this order, (timer 15000 ms, motor forward, ShowUnlocking),
(timer 3000 ms, motor stop, ShowDoorUnlocked), (timer 15000 ms, motor reverse, ShowLocking)
and (motor stop), so the actuator receives forward, stop, reverse, stop; each of the first
three ticks stays in OpeningDoor, arms the wait on the timer only, and its busy-wait ends
exactly when a timer interrupt arrives; the fourth tick sets the state to MainMenu with
inner step 0. -/
theorem C12_open_door_sequence (envs : Nat → Env) (s : State)
    (hc : s.g_currentState = OPEN_DOOR_STATE) (hp : s.g_previousState = AUTHORIZING_STATE)
    (hi : s.g_innerState = 0) :
    tickEffects (envs 0) s =
      [Effect.timerArm 15000, Effect.motorStart DCMOTOR_FORWARD 50,
        Effect.uartSend SHOW_DOOR_UNLOCKING_TEXT_CMD] ∧
    tickEffects (envs 1) (run envs s 1) =
      [Effect.timerArm 3000, Effect.motorStop,
        Effect.uartSend SHOW_DOOR_IS_UNLOCKED_TEXT_CMD] ∧
    tickEffects (envs 2) (run envs s 2) =
      [Effect.timerArm 15000, Effect.motorStart DCMOTOR_REVERSE 50,
        Effect.uartSend SHOW_DOOR_LOCKING_TEXT_CMD] ∧
    tickEffects (envs 3) (run envs s 3) = [Effect.motorStop] ∧
    ((run envs s 4).trace.drop s.trace.length).filter isMotor =
      [Effect.motorStart DCMOTOR_FORWARD 50, Effect.motorStop,
        Effect.motorStart DCMOTOR_REVERSE 50, Effect.motorStop] ∧
    (∀ k, k < 3 →
      (run envs s (k + 1)).g_currentState = OPEN_DOOR_STATE ∧
      (run envs s (k + 1)).g_awaitOption = AWAIT_TIMER ∧
      (awaitPending (run envs s (k + 1)) = false ↔ Event.timer ∈ (envs k).events)) ∧
    (run envs s 4).g_currentState = MAIN_MENU_STATE ∧
    (run envs s 4).g_innerState = 0 := by
  have d0 := dispatch_openDoor_unlock (envs 0) s hc hp hi
  have r1 : run envs s 1 = app_update (envs 0) s := rfl
  have c1 : (run envs s 1).g_currentState = OPEN_DOOR_STATE := by
    simp [r1, app_update, d0, hc]
  have p1 : (run envs s 1).g_previousState = AUTHORIZING_STATE := by
    simp [r1, app_update, d0, hp]
  have i1 : (run envs s 1).g_innerState = 1 := by
    simp [r1, app_update, d0]
  have a1 : (run envs s 1).g_awaitOption = AWAIT_TIMER := by
    simp [r1, app_update, d0]
  have t1 : (run envs s 1).trace = s.trace ++ [Effect.timerArm 15000,
      Effect.motorStart DCMOTOR_FORWARD 50, Effect.uartSend SHOW_DOOR_UNLOCKING_TEXT_CMD] := by
    simp [r1, app_update, d0]
  have w1 := timed_tick (envs 0) s _ d0 rfl rfl
  have d1 := dispatch_openDoor_hold (envs 1) (run envs s 1) c1 p1 i1
  have r2 : run envs s 2 = app_update (envs 1) (run envs s 1) := rfl
  have c2 : (run envs s 2).g_currentState = OPEN_DOOR_STATE := by
    simp [r2, app_update, d1, c1]
  have p2 : (run envs s 2).g_previousState = AUTHORIZING_STATE := by
    simp [r2, app_update, d1, p1]
  have i2 : (run envs s 2).g_innerState = 2 := by
    simp [r2, app_update, d1]
  have a2 : (run envs s 2).g_awaitOption = AWAIT_TIMER := by
    simp [r2, app_update, d1]
  have t2 : (run envs s 2).trace = (run envs s 1).trace ++ [Effect.timerArm 3000,
      Effect.motorStop, Effect.uartSend SHOW_DOOR_IS_UNLOCKED_TEXT_CMD] := by
    simp [r2, app_update, d1]
  have w2 := timed_tick (envs 1) (run envs s 1) _ d1 rfl rfl
  have d2 := dispatch_openDoor_lock (envs 2) (run envs s 2) c2 p2 i2
  have r3 : run envs s 3 = app_update (envs 2) (run envs s 2) := rfl
  have c3 : (run envs s 3).g_currentState = OPEN_DOOR_STATE := by
    simp [r3, app_update, d2, c2]
  have p3 : (run envs s 3).g_previousState = AUTHORIZING_STATE := by
    simp [r3, app_update, d2, p2]
  have i3 : (run envs s 3).g_innerState = 3 := by
    simp [r3, app_update, d2]
  have a3 : (run envs s 3).g_awaitOption = AWAIT_TIMER := by
    simp [r3, app_update, d2]
  have t3 : (run envs s 3).trace = (run envs s 2).trace ++ [Effect.timerArm 15000,
      Effect.motorStart DCMOTOR_REVERSE 50, Effect.uartSend SHOW_DOOR_LOCKING_TEXT_CMD] := by
    simp [r3, app_update, d2]
  have w3 := timed_tick (envs 2) (run envs s 2) _ d2 rfl rfl
  have d3 := dispatch_openDoor_done (envs 3) (run envs s 3) c3 p3 i3
  have r4 : run envs s 4 = app_update (envs 3) (run envs s 3) := rfl
  have c4 : (run envs s 4).g_currentState = MAIN_MENU_STATE := by
    simp [r4, app_update, d3]
  have i4 : (run envs s 4).g_innerState = 0 := by
    simp [r4, app_update, d3]
  have t4 : (run envs s 4).trace = (run envs s 3).trace ++ [Effect.motorStop] := by
    simp [r4, app_update, d3]
  refine ⟨?_, ?_, ?_, ?_, ?_, ?_, c4, i4⟩
  · simp only [tickEffects, ← r1, t1, List.drop_left]
  · simp only [tickEffects, ← r2, t2, List.drop_left]
  · simp only [tickEffects, ← r3, t3, List.drop_left]
  · simp only [tickEffects, ← r4, t4, List.drop_left]
  · rw [t4, t3, t2, t1]
    simp only [List.append_assoc, List.drop_left]
    rfl
  · intro k hk
    rcases Nat.lt_or_ge k 1 with h | h
    · have hk0 : k = 0 := by omega
      subst hk0
      exact ⟨c1, a1, w1⟩
    · rcases Nat.lt_or_ge k 2 with h2 | h2
      · have hk1 : k = 1 := by omega
        subst hk1
        exact ⟨c2, a2, w2⟩
      · have hk2 : k = 2 := by omega
        subst hk2
        exact ⟨c3, a3, w3⟩

/-- C12 on the run that boots a provisioned system, chooses '+' and enters "12345": the
fifteenth tick leaves the state OpeningDoor after Authorizing at inner step 0, and the
four ticks that follow drive the door and return to MainMenu. -/
theorem C12_open_door_sequence_witness :
    (run unlockScript (initialState provisioned) 15).g_currentState = OPEN_DOOR_STATE ∧
    (run unlockScript (initialState provisioned) 15).g_previousState = AUTHORIZING_STATE ∧
    (run unlockScript (initialState provisioned) 15).g_innerState = 0 ∧
    ((run doorScript (run unlockScript (initialState provisioned) 15) 4).trace.drop
        (run unlockScript (initialState provisioned) 15).trace.length).filter isMotor =
      [Effect.motorStart DCMOTOR_FORWARD 50, Effect.motorStop,
        Effect.motorStart DCMOTOR_REVERSE 50, Effect.motorStop] ∧
    (run unlockScript (initialState provisioned) 19).g_currentState = MAIN_MENU_STATE :=
  ⟨by decide, by decide, by decide,
    (C12_open_door_sequence doorScript (run unlockScript (initialState provisioned) 15)
      (by decide) (by decide) (by decide)).2.2.2.2.1,
    by decide⟩

/-- C13: from the fresh entry state (index 0, entry step 0), when the first
`PASSWORD_LENGTH` received bytes are digits '0'..'9' and the next one is the submit
character '=', the calls of `readPassword` on these six bytes all return FALSE, the
following call returns TRUE whatever byte it finds, the array then holds the five digits
in order, and the entry state is fresh again, so that the call after that returns FALSE:
TRUE is returned exactly once. -/
theorem C13_entry_completes_once (bytes : Nat → Nat) (password : Nat → Nat) (s : State)
    (hidx : s.passIndex = 0) (hst : s.passInnerState = 0)
    (hd : ∀ i, i < PASSWORD_LENGTH → isPassDigit (bytes i))
    (hsub : bytes PASSWORD_LENGTH = PASS_ENTER_CHAR) :
    (∀ k, k < PASSWORD_LENGTH + 1 → callResult bytes password s k = false) ∧
    callResult bytes password s (PASSWORD_LENGTH + 1) = true ∧
    (∀ i, i < PASSWORD_LENGTH →
      (entryState bytes password s (PASSWORD_LENGTH + 2)).1 i = bytes i) ∧
    (entryState bytes password s (PASSWORD_LENGTH + 2)).2.passIndex = 0 ∧
    (entryState bytes password s (PASSWORD_LENGTH + 2)).2.passInnerState = 0 ∧
    callResult bytes password s (PASSWORD_LENGTH + 2) = false := by
  have hpre := entryState_digits bytes password s hidx hst hd
  obtain ⟨h5s, h5i, h5b⟩ := hpre PASSWORD_LENGTH (Nat.le_refl _)
  have hb : bytes PASSWORD_LENGTH % 256 = PASS_ENTER_CHAR := by rw [hsub]; rfl
  have hsubmit := readPasswordOn_submit (bytes PASSWORD_LENGTH)
    (entryState bytes password s PASSWORD_LENGTH).1
    (entryState bytes password s PASSWORD_LENGTH).2 h5s h5i hb
  have e6 := entryState_succ bytes password s PASSWORD_LENGTH
  rw [hsubmit] at e6
  have h6s : (entryState bytes password s (PASSWORD_LENGTH + 1)).2.passInnerState = 1 := by
    simp only [e6]
  have hdone := readPasswordOn_done (bytes (PASSWORD_LENGTH + 1))
    (entryState bytes password s (PASSWORD_LENGTH + 1)).1
    (entryState bytes password s (PASSWORD_LENGTH + 1)).2 h6s
  have e7 := entryState_succ bytes password s (PASSWORD_LENGTH + 1)
  rw [hdone] at e7
  have h7s : (entryState bytes password s (PASSWORD_LENGTH + 2)).2.passInnerState = 0 := by
    simp only [e7]
  have h7i : (entryState bytes password s (PASSWORD_LENGTH + 2)).2.passIndex = 0 := by
    simp only [e7, e6, resetFlags, uartRxCallback]
  refine ⟨fun k hk => ?_, ?_, fun i hi => ?_, h7i, h7s, ?_⟩
  · have hk5 : k ≤ PASSWORD_LENGTH := Nat.le_of_lt_succ hk
    have h0 := (hpre k hk5).1
    cases hr : callResult bytes password s k
    · rfl
    · have := (callResult_true_iff _ _ _ _).1 hr
      rw [h0] at this
      cases this
  · exact (callResult_true_iff _ _ _ _).2 h6s
  · simp only [e7, e6]
    exact h5b i hi
  · cases hr : callResult bytes password s (PASSWORD_LENGTH + 2)
    · rfl
    · have := (callResult_true_iff _ _ _ _).1 hr
      rw [h7s] at this
      cases this

/-- C13 at the entry "12345" followed by '=' and the acknowledgement byte 'A'. -/
theorem C13_entry_completes_once_witness :
    (∀ i, i < PASSWORD_LENGTH → isPassDigit (bytesOf [49, 50, 51, 52, 53, 61, 65] i)) ∧
    bytesOf [49, 50, 51, 52, 53, 61, 65] PASSWORD_LENGTH = PASS_ENTER_CHAR ∧
    [0, 1, 2, 3, 4, 5, 6, 7].map
      (callResult (bytesOf [49, 50, 51, 52, 53, 61, 65]) (fun _ => 0) (initialState erased)) =
      [false, false, false, false, false, false, true, false] ∧
    callResult (bytesOf [49, 50, 51, 52, 53, 61, 65]) (fun _ => 0) (initialState erased)
      (PASSWORD_LENGTH + 1) = true ∧
    [0, 1, 2, 3, 4].map
      (entryState (bytesOf [49, 50, 51, 52, 53, 61, 65]) (fun _ => 0) (initialState erased)
        7).1 = [49, 50, 51, 52, 53] :=
  ⟨by decide, by decide, by decide,
    (C13_entry_completes_once (bytesOf [49, 50, 51, 52, 53, 61, 65]) (fun _ => 0)
      (initialState erased) rfl rfl (by decide) (by decide)).2.1,
    by decide⟩

/-- C14: along every stream of received bytes fed to `readPassword` from the fresh entry
state, when call `k` returns TRUE then the call before it received the submit character
'=' while the index was `PASSWORD_LENGTH` in entry step 0 and itself returned FALSE, at
least `PASSWORD_LENGTH + 1` calls came before, and the five positions of the array hold
digits; and when call `k` does not return TRUE it leaves the wait for a message armed. -/
theorem C14_true_only_after_submit (bytes : Nat → Nat) (password : Nat → Nat) (s : State)
    (hidx : s.passIndex = 0) (hst : s.passInnerState = 0) (k : Nat) :
    (callResult bytes password s k = true →
      PASSWORD_LENGTH + 1 ≤ k ∧
      bytes (k - 1) % 256 = PASS_ENTER_CHAR ∧
      (entryState bytes password s (k - 1)).2.passIndex = PASSWORD_LENGTH ∧
      (entryState bytes password s (k - 1)).2.passInnerState = 0 ∧
      callResult bytes password s (k - 1) = false ∧
      (∀ i, i < PASSWORD_LENGTH → isPassDigit ((entryState bytes password s k).1 i))) ∧
    (callResult bytes password s k = false →
      (entryState bytes password s (k + 1)).2.g_awaitOption = AWAIT_RESPONSE) := by
  constructor
  · intro htrue
    have h1 := (callResult_true_iff _ _ _ _).1 htrue
    cases k with
    | zero =>
      simp [entryState, hst] at h1
    | succ j =>
      have hj := entryState_inv bytes password s hidx hst j
      have hk := entryState_inv bytes password s hidx hst (j + 1)
      have hstep := readPasswordOn_step (bytes j) _ _ hj.1
      rw [entryState_succ] at h1
      obtain ⟨p0, p5, pb⟩ := hstep.2.1 h1
      have hfalse : callResult bytes password s j = false := by
        cases hr : callResult bytes password s j
        · rfl
        · have := (callResult_true_iff _ _ _ _).1 hr
          rw [p0] at this
          cases this
      have hdig := (hk.1.2.2.2 (by rw [entryState_succ]; exact h1)).2
      refine ⟨?_, pb, p5, p0, hfalse, hdig⟩
      have := hj.2
      rw [p5] at this
      omega
  · intro hfalse
    have hk := entryState_inv bytes password s hidx hst k
    have hstep := readPasswordOn_step (bytes k) _ _ hk.1
    rw [entryState_succ]
    exact hstep.2.2 hfalse

/-- C14 on the stream "12", '=', "345", '=', 'A', '7': the first '=' arrives at index 2 and
completes nothing; only call 7, the one after the '=' at index 5, returns TRUE. -/
theorem C14_true_only_after_submit_witness :
    [0, 1, 2, 3, 4, 5, 6, 7, 8].map
      (callResult (bytesOf [49, 50, 61, 51, 52, 53, 61, 65, 55]) (fun _ => 0)
        (initialState erased)) =
      [false, false, false, false, false, false, false, true, false] ∧
    (PASSWORD_LENGTH + 1 ≤ 7 ∧
      bytesOf [49, 50, 61, 51, 52, 53, 61, 65, 55] (7 - 1) % 256 = PASS_ENTER_CHAR ∧
      (entryState (bytesOf [49, 50, 61, 51, 52, 53, 61, 65, 55]) (fun _ => 0)
        (initialState erased) (7 - 1)).2.passIndex = PASSWORD_LENGTH ∧
      (entryState (bytesOf [49, 50, 61, 51, 52, 53, 61, 65, 55]) (fun _ => 0)
        (initialState erased) (7 - 1)).2.passInnerState = 0 ∧
      callResult (bytesOf [49, 50, 61, 51, 52, 53, 61, 65, 55]) (fun _ => 0)
        (initialState erased) (7 - 1) = false ∧
      (∀ i, i < PASSWORD_LENGTH →
        isPassDigit ((entryState (bytesOf [49, 50, 61, 51, 52, 53, 61, 65, 55]) (fun _ => 0)
          (initialState erased) 7).1 i))) :=
  ⟨by decide,
    (C14_true_only_after_submit (bytesOf [49, 50, 61, 51, 52, 53, 61, 65, 55]) (fun _ => 0)
      (initialState erased) rfl rfl 7).1 (by decide)⟩

/-- C15: in the step of `readPassword` that handles the received bytes (entry step 0), a
delete character '-' received while the index is 0 leaves the index at 0 and the array
unchanged, and a clear character 'c' received at any index sets the index to 0, leaves the
array unchanged, and is answered with exactly one byte, the clear command
`CLEAR_ALL_PASS_CHARS_CMD`. -/
theorem C15_delete_on_empty_and_clear (password : Nat → Nat) (s : State)
    (hst : s.passInnerState = 0) :
    (s.g_receivedData = PASS_BACKSPACE_CHAR → s.passIndex = 0 →
      (readPassword password s).2.2.passIndex = 0 ∧
      (readPassword password s).2.1 = password) ∧
    (s.g_receivedData = PASS_CLEAR_SCREEN_CHAR →
      (readPassword password s).2.2.passIndex = 0 ∧
      (readPassword password s).2.1 = password ∧
      (readPassword password s).2.2.trace =
        s.trace ++ [Effect.uartSend CLEAR_ALL_PASS_CHARS_CMD]) := by
  constructor
  · intro hrx hidx
    simp [readPassword, hst, hrx, hidx, UART_sendByteBlocking, emit]
  · intro hrx
    simp [readPassword, hst, hrx, UART_sendByteBlocking, emit]

/-- C15 on a fresh entry for '-' and after the three digits "123" for 'c'. -/
theorem C15_delete_on_empty_and_clear_witness :
    (entryState (bytesOf [49, 50, 51]) (fun _ => 0) (initialState erased) 3).2.passIndex = 3 ∧
    ((readPassword (fun _ => 0) (uartRxCallback PASS_BACKSPACE_CHAR (initialState erased))
        ).2.2.passIndex = 0 ∧
      (readPassword (fun _ => 0) (uartRxCallback PASS_BACKSPACE_CHAR (initialState erased))
        ).2.1 = fun _ => 0) ∧
    (readPassword (fun _ => 0) (uartRxCallback PASS_CLEAR_SCREEN_CHAR
        (entryState (bytesOf [49, 50, 51]) (fun _ => 0) (initialState erased) 3).2)
      ).2.2.passIndex = 0 :=
  ⟨by decide,
    (C15_delete_on_empty_and_clear (fun _ => 0)
      (uartRxCallback PASS_BACKSPACE_CHAR (initialState erased)) rfl).1 rfl rfl,
    by decide⟩

/-- C16 as stated fails at index 0: on a fresh entry (index 0, entry step 0) the delete
character '-' is answered with the skip command `SKIP_PASS_CHAR_CMD`, not with the
backspace command `BACKSPACE_PASS_CHAR_CMD`; the index stays 0. -/
theorem C16_counterexample :
    (uartRxCallback PASS_BACKSPACE_CHAR (initialState erased)).passIndex = 0 ∧
    (uartRxCallback PASS_BACKSPACE_CHAR (initialState erased)).passInnerState = 0 ∧
    (uartRxCallback PASS_BACKSPACE_CHAR (initialState erased)).g_receivedData =
      PASS_BACKSPACE_CHAR ∧
    (readPassword (fun _ => 0)
      (uartRxCallback PASS_BACKSPACE_CHAR (initialState erased))).2.2.trace =
      [Effect.uartSend SKIP_PASS_CHAR_CMD] ∧
    (readPassword (fun _ => 0)
      (uartRxCallback PASS_BACKSPACE_CHAR (initialState erased))).2.2.trace ≠
      [Effect.uartSend BACKSPACE_PASS_CHAR_CMD] ∧
    (readPassword (fun _ => 0)
      (uartRxCallback PASS_BACKSPACE_CHAR (initialState erased))).2.2.passIndex = 0 := by
  decide

/-- C16 (as amended): in entry step 0 of `readPassword`, on the delete character '-' the
call returns FALSE, leaves the array unchanged and sends exactly one byte: when the index
is positive, the backspace command `BACKSPACE_PASS_CHAR_CMD`, and the index decreases by
one; when the index is 0, the skip command `SKIP_PASS_CHAR_CMD`, and the index stays 0. -/
theorem C16_delete_acknowledgement (password : Nat → Nat) (s : State)
    (hst : s.passInnerState = 0) (hrx : s.g_receivedData = PASS_BACKSPACE_CHAR) :
    (readPassword password s).1 = false ∧
    (readPassword password s).2.1 = password ∧
    (s.passIndex ≠ 0 →
      (readPassword password s).2.2.trace =
        s.trace ++ [Effect.uartSend BACKSPACE_PASS_CHAR_CMD] ∧
      (readPassword password s).2.2.passIndex = s.passIndex - 1) ∧
    (s.passIndex = 0 →
      (readPassword password s).2.2.trace =
        s.trace ++ [Effect.uartSend SKIP_PASS_CHAR_CMD] ∧
      (readPassword password s).2.2.passIndex = 0) := by
  by_cases hidx : s.passIndex = 0
  · simp [readPassword, hst, hrx, hidx, UART_sendByteBlocking, emit]
  · simp [readPassword, hst, hrx, hidx, UART_sendByteBlocking, emit]

/-- C16 (as amended) after the two digits "12": the delete character is answered with the
backspace command and the index goes from 2 to 1. -/
theorem C16_delete_acknowledgement_witness :
    (uartRxCallback PASS_BACKSPACE_CHAR
      (entryState (bytesOf [49, 50]) (fun _ => 0) (initialState erased) 2).2).passIndex = 2 ∧
    ((readPassword (fun _ => 0) (uartRxCallback PASS_BACKSPACE_CHAR
        (entryState (bytesOf [49, 50]) (fun _ => 0) (initialState erased) 2).2)).2.2.trace =
      (uartRxCallback PASS_BACKSPACE_CHAR
        (entryState (bytesOf [49, 50]) (fun _ => 0) (initialState erased) 2).2).trace ++
        [Effect.uartSend BACKSPACE_PASS_CHAR_CMD] ∧
    (readPassword (fun _ => 0) (uartRxCallback PASS_BACKSPACE_CHAR
        (entryState (bytesOf [49, 50]) (fun _ => 0) (initialState erased) 2).2)
      ).2.2.passIndex =
      (uartRxCallback PASS_BACKSPACE_CHAR
        (entryState (bytesOf [49, 50]) (fun _ => 0) (initialState erased) 2).2).passIndex - 1) :=
  ⟨by decide,
    (C16_delete_acknowledgement (fun _ => 0) (uartRxCallback PASS_BACKSPACE_CHAR
      (entryState (bytesOf [49, 50]) (fun _ => 0) (initialState erased) 2).2)
      (by decide) (by decide)).2.2.1 (by decide)⟩

/-- C17: in MainMenu at the step that awaits a reply (inner step 1), the tick that finds
the byte `b` in the mailbox sets the state to OpeningDoor when `b` is '+', to
ChangingPassword when `b` is '-', and for every other byte leaves the current state, the
previous state and the inner step unchanged, sends exactly the byte `ACK_CMD` and arms the
wait for a message; hence after any number of ticks that each find a non-option byte in
the mailbox the state is still MainMenu at that step. -/
theorem C17_menu_choice (envs : Nat → Env) (s : State)
    (hc : s.g_currentState = MAIN_MENU_STATE) (hi : s.g_innerState = 1) :
    (s.g_receivedData = OPEN_DOOR_MENU_CHAR →
      ∀ env, (app_update env s).g_currentState = OPEN_DOOR_STATE) ∧
    (s.g_receivedData = CHANGE_PASS_MENU_CHAR →
      ∀ env, (app_update env s).g_currentState = CHANGE_PASS_STATE) ∧
    (s.g_receivedData ≠ OPEN_DOOR_MENU_CHAR → s.g_receivedData ≠ CHANGE_PASS_MENU_CHAR →
      ∀ env, (app_update env s).g_currentState = s.g_currentState ∧
        (app_update env s).g_previousState = s.g_previousState ∧
        (app_update env s).g_innerState = s.g_innerState ∧
        tickEffects env s = [Effect.uartSend ACK_CMD] ∧
        (app_update env s).g_awaitOption = AWAIT_RESPONSE) ∧
    (∀ n, (∀ k, k < n → (run envs s k).g_receivedData ≠ OPEN_DOOR_MENU_CHAR ∧
          (run envs s k).g_receivedData ≠ CHANGE_PASS_MENU_CHAR) →
      (run envs s n).g_currentState = MAIN_MENU_STATE ∧ (run envs s n).g_innerState = 1) := by
  have hother : ∀ (env : Env) (t : State), t.g_currentState = MAIN_MENU_STATE →
      t.g_innerState = 1 → t.g_receivedData ≠ OPEN_DOOR_MENU_CHAR →
      t.g_receivedData ≠ CHANGE_PASS_MENU_CHAR →
      (app_update env t).g_currentState = t.g_currentState ∧
        (app_update env t).g_previousState = t.g_previousState ∧
        (app_update env t).g_innerState = t.g_innerState ∧
        tickEffects env t = [Effect.uartSend ACK_CMD] ∧
        (app_update env t).g_awaitOption = AWAIT_RESPONSE := by
    intro env t htc hti h1 h2
    have hd := dispatch_menu_reply env t htc hti
    rw [if_neg h1, if_neg h2] at hd
    refine ⟨?_, ?_, ?_, ?_, ?_⟩
    · simp only [app_update, awaitLoop_currentState, hd]
      rfl
    · simp only [app_update, awaitLoop_previousState, hd]
      rfl
    · simp only [app_update, awaitLoop_innerState, hd]
      rfl
    · simp only [tickEffects, app_update, awaitLoop_trace, hd, List.drop_left]
    · simp only [app_update, awaitLoop_awaitOption, hd]
  refine ⟨?_, ?_, fun h1 h2 env => hother env s hc hi h1 h2, ?_⟩
  · intro hb env
    have hd := dispatch_menu_reply env s hc hi
    rw [if_pos hb] at hd
    simp only [app_update, awaitLoop_currentState, hd, setAppState]
  · intro hb env
    have hd := dispatch_menu_reply env s hc hi
    have hne : ¬ s.g_receivedData = OPEN_DOOR_MENU_CHAR := by
      rw [hb]
      decide
    rw [if_neg hne, if_pos hb] at hd
    simp only [app_update, awaitLoop_currentState, hd, setAppState]
  · intro n
    induction n with
    | zero =>
      intro _
      exact ⟨hc, hi⟩
    | succ n ih =>
      intro hall
      obtain ⟨c, i⟩ := ih (fun k hk => hall k (Nat.lt_succ_of_lt hk))
      obtain ⟨h1, h2⟩ := hall n (Nat.lt_succ_self n)
      obtain ⟨a, _, b, _, _⟩ := hother (envs n) (run envs s n) c i h1 h2
      simp only [run]
      exact ⟨a.trans c, b.trans i⟩

/-- C17 on a provisioned system with the menu open: the bytes 'K', '0' and 200 keep the
state MainMenu for three ticks, each answered with `ACK_CMD`, and the '+' that follows sets
the state to OpeningDoor. -/
theorem C17_menu_choice_witness :
    (run menuNoiseScript (initialState provisioned) 3).g_currentState = MAIN_MENU_STATE ∧
    (run menuNoiseScript (initialState provisioned) 3).g_innerState = 1 ∧
    [0, 1, 2].map (fun k => (run menuNoiseScript (initialState provisioned) (3 + k)).g_receivedData)
      = [75, 48, 200] ∧
    ((run (fun k => menuNoiseScript (3 + k)) (run menuNoiseScript (initialState provisioned) 3)
        3).g_currentState = MAIN_MENU_STATE ∧
      (run (fun k => menuNoiseScript (3 + k)) (run menuNoiseScript (initialState provisioned) 3)
        3).g_innerState = 1) ∧
    [0, 1, 2].map (fun k => tickEffects (menuNoiseScript (3 + k))
      (run menuNoiseScript (initialState provisioned) (3 + k))) =
      [[Effect.uartSend ACK_CMD], [Effect.uartSend ACK_CMD], [Effect.uartSend ACK_CMD]] ∧
    (run menuNoiseScript (initialState provisioned) 7).g_currentState = OPEN_DOOR_STATE :=
  ⟨by decide, by decide, by decide,
    (C17_menu_choice (fun k => menuNoiseScript (3 + k))
      (run menuNoiseScript (initialState provisioned) 3) (by decide) (by decide)).2.2.2 3
      (by decide),
    by decide, by decide⟩

/-- C19: whatever the store held before and however many bus transactions had to be
repeated, `readPassFromEeprom` executed after `savePassToEeprom p` fills the five positions
of its array with exactly `p 0 .. p 4`, and leaves every other position of the array as it
was. -/
theorem C19_save_then_read (env env2 : Env) (p q : Nat → Nat) (s : State) (i : Nat) :
    (i < PASSWORD_LENGTH →
      readPassFromEeprom env2 q (savePassToEeprom env p s) i = p i) ∧
    (PASSWORD_LENGTH ≤ i →
      readPassFromEeprom env2 q (savePassToEeprom env p s) i = q i) := by
  constructor
  · intro hi
    rw [readPassFromEeprom_apply env2 q _ i hi, savePassToEeprom_eq]
    simp only [storePass, PASSWORD_EEPROM_START_ADDRESS, PASSWORD_LENGTH] at hi ⊢
    rw [if_pos ⟨by omega, by omega⟩]
    congr 1
    omega
  · intro hi
    unfold readPassFromEeprom
    rw [readPassFrom_apply, if_neg (by omega)]

/-- C19 at the password "12345" written over a store that held "00000", with two failed
bus transactions on the first write and one on the third read. -/
theorem C19_save_then_read_witness :
    [0, 1, 2, 3, 4].map
      (readPassFromEeprom (busEnv (fun a => if a = 3 then 1 else 0)) (fun _ => 7)
        (savePassToEeprom (busEnv (fun a => if a = 1 then 2 else 0))
          (bytesOf [49, 50, 51, 52, 53]) (initialState provisioned))) =
      [49, 50, 51, 52, 53] ∧
    readPassFromEeprom (busEnv (fun a => if a = 3 then 1 else 0)) (fun _ => 7)
        (savePassToEeprom (busEnv (fun a => if a = 1 then 2 else 0))
          (bytesOf [49, 50, 51, 52, 53]) (initialState provisioned)) 2 =
      bytesOf [49, 50, 51, 52, 53] 2 :=
  ⟨by decide,
    (C19_save_then_read (busEnv (fun a => if a = 1 then 2 else 0))
      (busEnv (fun a => if a = 3 then 1 else 0)) (bytesOf [49, 50, 51, 52, 53])
      (fun _ => 7) (initialState provisioned) 2).1 (by decide)⟩

/-- C20: `comparePasswords p q` returns TRUE exactly when `p i = q i` for every `i` in
`0..4`; hence it is reflexive, symmetric, and its result is the same for any two pairs of
arrays that agree on these five positions. -/
theorem C20_compare_is_equality (p q : Nat → Nat) :
    (comparePasswords p q = true ↔ ∀ i, i < PASSWORD_LENGTH → p i = q i) ∧
    comparePasswords p p = true ∧
    comparePasswords p q = comparePasswords q p ∧
    (∀ p2 q2 : Nat → Nat, (∀ i, i < PASSWORD_LENGTH → p2 i = p i) →
      (∀ i, i < PASSWORD_LENGTH → q2 i = q i) →
      comparePasswords p2 q2 = comparePasswords p q) := by
  refine ⟨comparePasswords_iff p q, (comparePasswords_iff p p).2 (fun _ _ => rfl), ?_, ?_⟩
  · rw [Bool.eq_iff_iff, comparePasswords_iff, comparePasswords_iff]
    exact ⟨fun H i hi => (H i hi).symm, fun H i hi => (H i hi).symm⟩
  · intro p2 q2 hp hq
    rw [Bool.eq_iff_iff, comparePasswords_iff, comparePasswords_iff]
    constructor
    · intro H i hi
      rw [← hp i hi, ← hq i hi]
      exact H i hi
    · intro H i hi
      rw [hp i hi, hq i hi]
      exact H i hi

/-- C20 at "12345" against "12345" followed by other bytes (equal) and against "12346"
(different in the last position). -/
theorem C20_compare_is_equality_witness :
    comparePasswords (bytesOf [49, 50, 51, 52, 53]) (bytesOf [49, 50, 51, 52, 53, 9, 9]) = true ∧
    comparePasswords (bytesOf [49, 50, 51, 52, 53]) (bytesOf [49, 50, 51, 52, 54]) = false ∧
    comparePasswords (bytesOf [49, 50, 51, 52, 53, 9, 9]) (bytesOf [49, 50, 51, 52, 54]) =
      comparePasswords (bytesOf [49, 50, 51, 52, 53]) (bytesOf [49, 50, 51, 52, 54]) :=
  ⟨by decide, by decide,
    (C20_compare_is_equality (bytesOf [49, 50, 51, 52, 53]) (bytesOf [49, 50, 51, 52, 54])).2.2.2
      (bytesOf [49, 50, 51, 52, 53, 9, 9]) (bytesOf [49, 50, 51, 52, 54])
      (by decide) (fun _ _ => rfl)⟩

/-- C21: a tick is the handler step on the state with the await option `AWAIT_NOTHING` and
both event flags cleared, followed by the closing busy-wait; the wait is over (its
condition is false) exactly when the await option is `AWAIT_NOTHING`, or it is
`AWAIT_RESPONSE` and the byte-received flag is set, or it is `AWAIT_TIMER` and the
timer-expired flag is set, or it is `AWAIT_RESPONSE_AND_TIMER` and both flags are set; the
loop is left at once when the wait is over and otherwise spins until the next interrupt. -/
theorem C21_tick_frame_and_wait (env : Env) (s t : State) :
    app_update env s = awaitLoop env.events (dispatch env (resetFlags s)) ∧
    (resetFlags s).g_awaitOption = AWAIT_NOTHING ∧
    (resetFlags s).g_isDataReceived = false ∧
    (resetFlags s).g_hasMainTimerFinished = false ∧
    (awaitPending t = false ↔
      t.g_awaitOption = AWAIT_NOTHING ∨
      (t.g_awaitOption = AWAIT_RESPONSE ∧ t.g_isDataReceived = true) ∨
      (t.g_awaitOption = AWAIT_TIMER ∧ t.g_hasMainTimerFinished = true) ∨
      (t.g_awaitOption = AWAIT_RESPONSE_AND_TIMER ∧ t.g_isDataReceived = true ∧
        t.g_hasMainTimerFinished = true)) ∧
    (awaitPending t = false → ∀ events, awaitLoop events t = t) ∧
    (awaitPending t = true → ∀ e events,
      awaitLoop (e :: events) t = awaitLoop events (isr e t)) := by
  refine ⟨rfl, rfl, rfl, rfl, ?_, ?_, ?_⟩
  · unfold awaitPending
    cases t.g_awaitOption <;> cases t.g_isDataReceived <;>
      cases t.g_hasMainTimerFinished <;> decide
  · intro h events
    cases events with
    | nil => rfl
    | cons e es =>
      unfold awaitLoop
      rw [h]
      rfl
  · intro h e events
    have : awaitLoop (e :: events) t =
        if awaitPending t then awaitLoop events (isr e t) else t := rfl
    rw [this, h]
    rfl

/-- C21 on the banner tick of a boot: the step arms `AWAIT_RESPONSE_AND_TIMER`; after a
received byte alone the wait is still on, after the timer interrupt as well it is over. -/
theorem C21_tick_frame_and_wait_witness :
    (dispatch (envOf []) (resetFlags (initialState provisioned))).g_awaitOption =
      AWAIT_RESPONSE_AND_TIMER ∧
    awaitPending (app_update (envOf [Event.rx 65]) (initialState provisioned)) = true ∧
    awaitPending (app_update (envOf [Event.rx 65, Event.timer]) (initialState provisioned)) =
      false ∧
    (∀ events, awaitLoop events
        (app_update (envOf [Event.rx 65, Event.timer]) (initialState provisioned)) =
      app_update (envOf [Event.rx 65, Event.timer]) (initialState provisioned)) :=
  ⟨by decide, by decide, by decide,
    (C21_tick_frame_and_wait (envOf []) (initialState provisioned)
      (app_update (envOf [Event.rx 65, Event.timer]) (initialState provisioned))).2.2.2.2.2.1
      (by decide)⟩

/-- C25: in every state reached from the initial state whose current state is MainMenu,
OpeningDoor or Authorizing, the first-run indicator is false and the first-run address of
the store holds the sentinel 0x55; and when the store did not hold the sentinel at reset
(a first-run system), such a state is reached only after a ChangingPassword tick that
found the confirmation equal to the new password, so no number of mismatches leads to
MainMenu. -/
theorem C25_menu_implies_provisioned (envs : Nat → Env) (mem : Nat → Nat) (n : Nat)
    (hc : (run envs (initialState mem) n).g_currentState = MAIN_MENU_STATE ∨
      (run envs (initialState mem) n).g_currentState = OPEN_DOOR_STATE ∨
      (run envs (initialState mem) n).g_currentState = AUTHORIZING_STATE) :
    (run envs (initialState mem) n).g_firstTime = false ∧
    (run envs (initialState mem) n).eeprom FIRST_TIME_CHECK_ADDRESS = 0x55 ∧
    (mem FIRST_TIME_CHECK_ADDRESS ≠ 0x55 →
      ∃ k, k < n ∧ confirmMatchTick (run envs (initialState mem) k)) := by
  have hinv := run_firstRunInv envs mem n
  have hp : (run envs (initialState mem) n).g_firstTime = false ∧
      (run envs (initialState mem) n).eeprom 0 = 85 := by
    unfold firstRunInv at hinv
    rcases hc with h | h | h <;> simpa [h] using hinv
  refine ⟨hp.1, hp.2, fun hmem => ?_⟩
  by_contra hno
  have hflow : ∀ k, k < n → ¬ confirmMatchTick (run envs (initialState mem) k) :=
    fun k hk hm => hno ⟨k, hk, hm⟩
  have he := flow_eeprom envs (initialState mem) n hflow
  have h0 := hp.2
  rw [he] at h0
  exact hmem h0

/-- C25 on a first-run system: on the run that enters different passwords no state within
20 ticks is MainMenu; on the provisioning run MainMenu is reached after the confirmed
password, with the indicator false and the sentinel stored. -/
theorem C25_menu_implies_provisioned_witness :
    (∀ n, n < 20 →
      (run firstRunMismatchScript (initialState erased) n).g_currentState ≠ MAIN_MENU_STATE) ∧
    (run provisionScript (initialState erased) 19).g_currentState = MAIN_MENU_STATE ∧
    ((run provisionScript (initialState erased) 19).g_firstTime = false ∧
      (run provisionScript (initialState erased) 19).eeprom FIRST_TIME_CHECK_ADDRESS = 0x55 ∧
      (erased FIRST_TIME_CHECK_ADDRESS ≠ 0x55 →
        ∃ k, k < 19 ∧ confirmMatchTick (run provisionScript (initialState erased) k))) :=
  ⟨by decide, by decide,
    C25_menu_implies_provisioned provisionScript erased 19 (Or.inl (by decide))⟩

/-- C26: the code diverges from the claim at the hand-over of ChangingPassword to
Authorizing. On a provisioned system, after the menu choice '-', the sixth tick starts in
ChangingPassword at inner step 1 and sets the state to Authorizing, and the inner step is
1, not 0, when the tick ends; the tick that follows is the prompt step of Authorizing
(`ENTER_PASS_CMD`), so the initial step of Authorizing is not run. The sibling hand-over
of OpeningDoor (menu choice '+') ends at inner step 0, and there the first tick of
Authorizing is its initial step, which transmits nothing. -/
theorem C26_counterexample :
    (run changeScript (initialState provisioned) 5).g_currentState = CHANGE_PASS_STATE ∧
    (run changeScript (initialState provisioned) 5).g_innerState = 1 ∧
    (app_update (changeScript 5)
      (run changeScript (initialState provisioned) 5)).g_currentState = AUTHORIZING_STATE ∧
    (app_update (changeScript 5)
      (run changeScript (initialState provisioned) 5)).g_currentState ≠
      (run changeScript (initialState provisioned) 5).g_currentState ∧
    (app_update (changeScript 5)
      (run changeScript (initialState provisioned) 5)).g_innerState = 1 ∧
    (app_update (changeScript 5)
      (run changeScript (initialState provisioned) 5)).g_innerState ≠ 0 ∧
    tickEffects (changeScript 6) (run changeScript (initialState provisioned) 6) =
      [Effect.uartSend ENTER_PASS_CMD] ∧
    ((run unlockScript (initialState provisioned) 4).g_currentState = OPEN_DOOR_STATE ∧
      (app_update (unlockScript 4)
        (run unlockScript (initialState provisioned) 4)).g_currentState = AUTHORIZING_STATE ∧
      (app_update (unlockScript 4)
        (run unlockScript (initialState provisioned) 4)).g_innerState = 0 ∧
      tickEffects (unlockScript 5) (run unlockScript (initialState provisioned) 5) = []) := by
  decide

/-- C26, extent of the divergence: the hand-over of ChangingPassword to Authorizing
(ChangingPassword at inner step 1 on a provisioned system, not entered from Authorizing)
is the only tick that changes the current state and does not end at inner step 0; every
such hand-over tick sets the state to Authorizing, transmits nothing and ends at inner
step 1, and the tick after it is the prompt step of Authorizing, which transmits
`ENTER_PASS_CMD` and leaves the wrong-password counter as it found it instead of
resetting it. -/
theorem C26_inner_step_at_transition (env env2 : Env) (s : State) :
    ((app_update env s).g_currentState ≠ s.g_currentState →
      (app_update env s).g_innerState = 0 ∨
      (s.g_currentState = CHANGE_PASS_STATE ∧ s.g_innerState = 1 ∧ s.g_firstTime = false ∧
        s.g_previousState ≠ AUTHORIZING_STATE ∧
        (app_update env s).g_currentState = AUTHORIZING_STATE ∧
        (app_update env s).g_innerState = 1)) ∧
    (s.g_currentState = CHANGE_PASS_STATE → s.g_innerState = 1 → s.g_firstTime = false →
      s.g_previousState ≠ AUTHORIZING_STATE →
      (app_update env s).g_currentState = AUTHORIZING_STATE ∧
      (app_update env s).g_previousState = CHANGE_PASS_STATE ∧
      (app_update env s).g_innerState = 1 ∧
      tickEffects env s = [] ∧
      tickEffects env2 (app_update env s) = [Effect.uartSend ENTER_PASS_CMD] ∧
      (app_update env2 (app_update env s)).g_innerState = 2 ∧
      (app_update env2 (app_update env s)).g_passTrials = s.g_passTrials) := by
  constructor
  · intro hch
    rcases app_update_reset env s with h | h | h
    · exact absurd h hch
    · exact Or.inl h
    · exact Or.inr h
  · intro hc hi hf hp
    have hd := dispatch_changePass_handover env s hc hi hf hp
    have c1 : (app_update env s).g_currentState = AUTHORIZING_STATE := by
      simp only [app_update, awaitLoop_currentState, hd]
    have i1 : (app_update env s).g_innerState = 1 := by
      simp only [app_update, awaitLoop_innerState, hd]
      exact hi
    have p1 : (app_update env s).g_passTrials = s.g_passTrials := by
      simp only [app_update, awaitLoop_passTrials, hd]
    have hd2 := dispatch_auth_prompt env2 (app_update env s) c1 i1
    refine ⟨c1, ?_, i1, ?_, ?_, ?_, ?_⟩
    · simp only [app_update, awaitLoop_previousState, hd]
    · simp only [tickEffects, app_update, awaitLoop_trace, hd, List.drop_length]
    · have ht : (app_update env2 (app_update env s)).trace =
          (app_update env s).trace ++ [Effect.uartSend ENTER_PASS_CMD] := by
        rw [show app_update env2 (app_update env s) =
          awaitLoop env2.events (dispatch env2 (resetFlags (app_update env s))) from rfl,
          awaitLoop_trace, hd2]
      rw [tickEffects, ht, List.drop_left]
    · rw [show app_update env2 (app_update env s) =
        awaitLoop env2.events (dispatch env2 (resetFlags (app_update env s))) from rfl,
        awaitLoop_innerState, hd2]
    · rw [show app_update env2 (app_update env s) =
        awaitLoop env2.events (dispatch env2 (resetFlags (app_update env s))) from rfl,
        awaitLoop_passTrials, hd2]
      exact p1

/-- C26 on the change run: the menu tick that receives '-' changes the state and ends at
inner step 0; the hand-over tick ends in Authorizing at inner step 1 and the next tick
transmits `ENTER_PASS_CMD`. -/
theorem C26_inner_step_at_transition_witness :
    (app_update (changeScript 3)
      (run changeScript (initialState provisioned) 3)).g_currentState ≠
      (run changeScript (initialState provisioned) 3).g_currentState ∧
    (app_update (changeScript 3)
      (run changeScript (initialState provisioned) 3)).g_innerState = 0 ∧
    ((app_update (changeScript 5)
        (run changeScript (initialState provisioned) 5)).g_currentState = AUTHORIZING_STATE ∧
      (app_update (changeScript 5)
        (run changeScript (initialState provisioned) 5)).g_previousState = CHANGE_PASS_STATE ∧
      (app_update (changeScript 5)
        (run changeScript (initialState provisioned) 5)).g_innerState = 1 ∧
      tickEffects (changeScript 5) (run changeScript (initialState provisioned) 5) = [] ∧
      tickEffects (changeScript 6) (app_update (changeScript 5)
        (run changeScript (initialState provisioned) 5)) = [Effect.uartSend ENTER_PASS_CMD] ∧
      (app_update (changeScript 6) (app_update (changeScript 5)
        (run changeScript (initialState provisioned) 5))).g_innerState = 2 ∧
      (app_update (changeScript 6) (app_update (changeScript 5)
        (run changeScript (initialState provisioned) 5))).g_passTrials =
        (run changeScript (initialState provisioned) 5).g_passTrials) :=
  ⟨by decide, by decide,
    (C26_inner_step_at_transition (changeScript 5) (changeScript 6)
      (run changeScript (initialState provisioned) 5)).2 (by decide) (by decide) (by decide)
      (by decide)⟩

/-- C27: the ChangingPassword tick that finds the confirmation equal to the new password
performs, in this order: the writes of the five password bytes to the addresses 0x01 to
0x05; the write of the sentinel 0x55 to address 0x00, exactly when the first-run indicator
was true; the transmission of `SHOW_PASS_CHANGED_CMD`; the arming of the message timer.
Nothing else is done; afterwards the first-run indicator is false, the first-run address
holds the sentinel if the indicator was true and its old content otherwise, and every
address above 0x05 holds its old content. -/
theorem C27_confirmed_write_order (env : Env) (s : State) (h : confirmTick s)
    (hm : ∀ i, i < PASSWORD_LENGTH → s.newPass i = s.confirmationPass i) :
    tickEffects env s =
      [Effect.eepromWrite 0x01 (s.confirmationPass 0),
        Effect.eepromWrite 0x02 (s.confirmationPass 1),
        Effect.eepromWrite 0x03 (s.confirmationPass 2),
        Effect.eepromWrite 0x04 (s.confirmationPass 3),
        Effect.eepromWrite 0x05 (s.confirmationPass 4)] ++
      (if s.g_firstTime then [Effect.eepromWrite 0x00 0x55] else []) ++
      [Effect.uartSend SHOW_PASS_CHANGED_CMD, Effect.timerArm DEFAULT_MSG_TIME_MS] ∧
    (app_update env s).g_firstTime = false ∧
    (app_update env s).eeprom 0x00 = (if s.g_firstTime then 0x55 else s.eeprom 0x00) ∧
    (∀ a, 0x05 < a → (app_update env s).eeprom a = s.eeprom a) := by
  have hd := dispatch_confirm_match env s h hm
  refine ⟨?_, ?_, ?_, ?_⟩
  · simp only [tickEffects, app_update, awaitLoop_trace, hd, List.drop_left, passwordWrites_eq]
    cases hf : s.g_firstTime <;> simp
  · simp only [app_update, awaitLoop_firstTime, hd]
  · simp only [app_update, awaitLoop_eeprom, hd]
    cases hf : s.g_firstTime <;> simp [storePass, setByte]
  · intro a ha
    have h0 : ¬ a = 0 := by omega
    have h1 : ¬ (1 ≤ a ∧ a < 1 + 5) := by omega
    simp only [app_update, awaitLoop_eeprom, hd]
    cases hf : s.g_firstTime <;> simp [storePass, setByte, h0, h1]

/-- C27 on the provisioning run (first-run indicator true: five password writes, then the
sentinel) and on the change run of a provisioned system (no sentinel write). -/
theorem C27_confirmed_write_order_witness :
    (confirmTick (run provisionScript (initialState erased) 17) ∧
      (run provisionScript (initialState erased) 17).g_firstTime = true) ∧
    tickEffects (provisionScript 17) (run provisionScript (initialState erased) 17) =
      [Effect.eepromWrite 1 49, Effect.eepromWrite 2 50, Effect.eepromWrite 3 51,
        Effect.eepromWrite 4 52, Effect.eepromWrite 5 53, Effect.eepromWrite 0 85,
        Effect.uartSend SHOW_PASS_CHANGED_CMD, Effect.timerArm DEFAULT_MSG_TIME_MS] ∧
    (app_update (provisionScript 17)
      (run provisionScript (initialState erased) 17)).g_firstTime = false ∧
    (confirmTick (run changeScript (initialState provisioned) 30) ∧
      (run changeScript (initialState provisioned) 30).g_firstTime = false) ∧
    tickEffects (changeScript 30) (run changeScript (initialState provisioned) 30) =
      [Effect.eepromWrite 1 49, Effect.eepromWrite 2 49, Effect.eepromWrite 3 49,
        Effect.eepromWrite 4 49, Effect.eepromWrite 5 49,
        Effect.uartSend SHOW_PASS_CHANGED_CMD, Effect.timerArm DEFAULT_MSG_TIME_MS] :=
  ⟨by decide, by decide,
    (C27_confirmed_write_order (provisionScript 17)
      (run provisionScript (initialState erased) 17) (by decide) (by decide)).2.1,
    by decide, by decide⟩

/-- C28: in every state reached from the initial state, a tick that is not the handshake
step of Bootstrapping transmits at most one byte, and when it ends with the await option
`AWAIT_RESPONSE` or `AWAIT_RESPONSE_AND_TIMER` it has transmitted exactly one byte: the
Controller never waits for a reply to a message it did not send. The same holds from every
state in which the entry step of `readPassword` is 0 or 1. -/
theorem C28_one_byte_per_tick (envs : Nat → Env) (mem : Nat → Nat) (n : Nat) (env : Env)
    (s : State) :
    (¬ ((run envs (initialState mem) n).g_currentState = PREPAIRING_CONNECTION_STATE ∧
        (run envs (initialState mem) n).g_innerState = 0) →
      (uartBytes (tickEffects (envs n) (run envs (initialState mem) n))).length ≤ 1 ∧
      ((app_update (envs n) (run envs (initialState mem) n)).g_awaitOption = AWAIT_RESPONSE ∨
          (app_update (envs n) (run envs (initialState mem) n)).g_awaitOption =
            AWAIT_RESPONSE_AND_TIMER →
        (uartBytes (tickEffects (envs n) (run envs (initialState mem) n))).length = 1)) ∧
    (¬ (s.g_currentState = PREPAIRING_CONNECTION_STATE ∧ s.g_innerState = 0) →
      s.passInnerState ≤ 1 →
      (uartBytes (tickEffects env s)).length ≤ 1 ∧
      ((app_update env s).g_awaitOption = AWAIT_RESPONSE ∨
          (app_update env s).g_awaitOption = AWAIT_RESPONSE_AND_TIMER →
        (uartBytes (tickEffects env s)).length = 1)) := by
  constructor
  · intro hh
    have h := app_update_send (envs n) _ hh (run_entry_step envs mem n)
    exact ⟨h.1, h.2.1⟩
  · intro hh hp
    have h := app_update_send env s hh hp
    exact ⟨h.1, h.2.1⟩

/-- C28 along the change run of a provisioned system: every tick after the handshake
transmits at most one byte; the tick that completes the entry of the new password
transmits `CONFIRM_PASS_CMD` and waits for a message, and the tick that completes the
entry in Authorizing transmits nothing and does not wait. -/
theorem C28_one_byte_per_tick_witness :
    (∀ n, 1 ≤ n → n < 32 →
      (uartBytes (tickEffects (changeScript n)
        (run changeScript (initialState provisioned) n))).length ≤ 1) ∧
    ((uartBytes (tickEffects (changeScript 23)
        (run changeScript (initialState provisioned) 23))).length ≤ 1 ∧
      ((app_update (changeScript 23)
          (run changeScript (initialState provisioned) 23)).g_awaitOption = AWAIT_RESPONSE ∨
        (app_update (changeScript 23)
          (run changeScript (initialState provisioned) 23)).g_awaitOption =
          AWAIT_RESPONSE_AND_TIMER →
        (uartBytes (tickEffects (changeScript 23)
          (run changeScript (initialState provisioned) 23))).length = 1)) ∧
    tickEffects (changeScript 23) (run changeScript (initialState provisioned) 23) =
      [Effect.uartSend CONFIRM_PASS_CMD] ∧
    (app_update (changeScript 23)
      (run changeScript (initialState provisioned) 23)).g_awaitOption = AWAIT_RESPONSE ∧
    tickEffects (changeScript 13) (run changeScript (initialState provisioned) 13) = [] ∧
    (app_update (changeScript 13)
      (run changeScript (initialState provisioned) 13)).g_awaitOption = AWAIT_NOTHING :=
  ⟨by decide,
    (C28_one_byte_per_tick changeScript provisioned 23 (changeScript 23)
      (run changeScript (initialState provisioned) 23)).1 (by decide),
    by decide, by decide, by decide, by decide⟩

/-- C29: in every state reached from the initial state, whatever the store holds and
whatever the environment does, the inner step is one that the handler of the current state
defines: at most 1 in Bootstrapping and in MainMenu, at most 4 in ChangingPassword, at most
3 in OpeningDoor and at most 5 in Authorizing; so the `switch` of the handler that runs
next executes one of its `case` branches. -/
theorem C29_inner_step_in_range (envs : Nat → Env) (mem : Nat → Nat) (n : Nat) :
    ((run envs (initialState mem) n).g_currentState = PREPAIRING_CONNECTION_STATE →
      (run envs (initialState mem) n).g_innerState ≤ 1) ∧
    ((run envs (initialState mem) n).g_currentState = MAIN_MENU_STATE →
      (run envs (initialState mem) n).g_innerState ≤ 1) ∧
    ((run envs (initialState mem) n).g_currentState = CHANGE_PASS_STATE →
      (run envs (initialState mem) n).g_innerState ≤ 4) ∧
    ((run envs (initialState mem) n).g_currentState = OPEN_DOOR_STATE →
      (run envs (initialState mem) n).g_innerState ≤ 3) ∧
    ((run envs (initialState mem) n).g_currentState = AUTHORIZING_STATE →
      (run envs (initialState mem) n).g_innerState ≤ 5) := by
  have key : innerInRange (run envs (initialState mem) n) := by
    induction n with
    | zero => exact innerInRange_zero _ rfl
    | succ n ih => exact app_update_range (envs n) _ ih
  unfold innerInRange at key
  refine ⟨fun h => ?_, fun h => ?_, fun h => ?_, fun h => ?_, fun h => ?_⟩ <;>
    simpa [h] using key

/-- C29 along the lock-out run (three wrong passwords, alarm, back to the menu): the
largest inner step met in Authorizing is 5, and every state of the run is in range. -/
theorem C29_inner_step_in_range_witness :
    (∃ n, n < 40 ∧ (run lockoutScript (initialState provisioned) n).g_currentState =
        AUTHORIZING_STATE ∧
      (run lockoutScript (initialState provisioned) n).g_innerState = 5) ∧
    (∀ n, n < 40 → innerInRange (run lockoutScript (initialState provisioned) n)) ∧
    ((run lockoutScript (initialState provisioned) 12).g_currentState = AUTHORIZING_STATE →
      (run lockoutScript (initialState provisioned) 12).g_innerState ≤ 5) :=
  ⟨by decide, by decide,
    (C29_inner_step_in_range lockoutScript provisioned 12).2.2.2.2⟩

/-- C30: along every stream of received bytes fed to `readPassword` from the fresh entry
state, before every call the index is at most `PASSWORD_LENGTH`; a call either leaves the
array as it is or stores the received byte at the current index, which then is below
`PASSWORD_LENGTH`, so the positions from `PASSWORD_LENGTH` on are never written; and a
digit received while the index is `PASSWORD_LENGTH` changes neither the index nor the
array and is answered with the skip command. -/
theorem C30_entry_stays_in_bounds (bytes : Nat → Nat) (password : Nat → Nat) (s : State)
    (hidx : s.passIndex = 0) (hst : s.passInnerState = 0) (k : Nat) :
    (entryState bytes password s k).2.passIndex ≤ PASSWORD_LENGTH ∧
    ((entryState bytes password s (k + 1)).1 = (entryState bytes password s k).1 ∨
      ((entryState bytes password s k).2.passIndex < PASSWORD_LENGTH ∧
        (entryState bytes password s (k + 1)).1 =
          setByte (entryState bytes password s k).1 (entryState bytes password s k).2.passIndex
            (bytes k % 256))) ∧
    (∀ i, PASSWORD_LENGTH ≤ i → (entryState bytes password s k).1 i = password i) ∧
    ((entryState bytes password s k).2.passIndex = PASSWORD_LENGTH →
      isPassDigit (bytes k % 256) →
      (entryState bytes password s (k + 1)).2.passIndex = PASSWORD_LENGTH ∧
      (entryState bytes password s (k + 1)).1 = (entryState bytes password s k).1 ∧
      (entryState bytes password s (k + 1)).2.trace =
        (entryState bytes password s k).2.trace ++ [Effect.uartSend SKIP_PASS_CHAR_CMD]) := by
  have hinv := fun j => (entryState_inv bytes password s hidx hst j).1
  have hle : ∀ j, (entryState bytes password s j).2.passIndex ≤ PASSWORD_LENGTH :=
    fun j => (hinv j).2.1
  have hbuf : ∀ j, (entryState bytes password s (j + 1)).1 = (entryState bytes password s j).1 ∨
      ((entryState bytes password s j).2.passIndex < PASSWORD_LENGTH ∧
        (entryState bytes password s (j + 1)).1 =
          setByte (entryState bytes password s j).1 (entryState bytes password s j).2.passIndex
            (bytes j % 256)) := by
    intro j
    rw [entryState_succ]
    rcases readPasswordOn_buffer (bytes j) (entryState bytes password s j).1
        (entryState bytes password s j).2 with h | ⟨_, hne, _, h⟩
    · exact Or.inl h
    · exact Or.inr ⟨Nat.lt_of_le_of_ne (hle j) hne, h⟩
  refine ⟨hle k, hbuf k, ?_, ?_⟩
  · intro i hi
    induction k with
    | zero => rfl
    | succ j ih =>
      rcases hbuf j with h | ⟨hlt, h⟩
      · rw [h]
        exact ih
      · rw [h]
        simp only [setByte]
        rw [if_neg (by omega)]
        exact ih
  · intro hfull hd
    have h0 : (entryState bytes password s k).2.passInnerState = 0 := by
      have h01 := (hinv k).1
      rcases Nat.lt_or_ge (entryState bytes password s k).2.passInnerState 1 with h | h
      · omega
      · have h1 : (entryState bytes password s k).2.passInnerState = 1 := by omega
        have := ((hinv k).2.2.2 h1).1
        rw [hfull] at this
        cases this
    have hr := readPasswordOn_full (bytes k) (entryState bytes password s k).1
      (entryState bytes password s k).2 h0 hfull hd
    rw [entryState_succ, hr]
    exact ⟨hfull, rfl, rfl⟩

/-- C30 on the stream "1234567": the sixth and the seventh digit arrive at index 5 and
change nothing; the array keeps "12345" and position 5 keeps its old content. -/
theorem C30_entry_stays_in_bounds_witness :
    [0, 1, 2, 3, 4, 5, 6, 7].map (fun k =>
      (entryState (bytesOf [49, 50, 51, 52, 53, 54, 55]) (fun _ => 0) (initialState erased)
        k).2.passIndex) = [0, 1, 2, 3, 4, 5, 5, 5] ∧
    [0, 1, 2, 3, 4, 5].map
      (entryState (bytesOf [49, 50, 51, 52, 53, 54, 55]) (fun _ => 0) (initialState erased)
        7).1 = [49, 50, 51, 52, 53, 0] ∧
    ((entryState (bytesOf [49, 50, 51, 52, 53, 54, 55]) (fun _ => 0) (initialState erased)
        (5 + 1)).2.passIndex = PASSWORD_LENGTH ∧
      (entryState (bytesOf [49, 50, 51, 52, 53, 54, 55]) (fun _ => 0) (initialState erased)
        (5 + 1)).1 =
        (entryState (bytesOf [49, 50, 51, 52, 53, 54, 55]) (fun _ => 0) (initialState erased)
          5).1 ∧
      (entryState (bytesOf [49, 50, 51, 52, 53, 54, 55]) (fun _ => 0) (initialState erased)
        (5 + 1)).2.trace =
        (entryState (bytesOf [49, 50, 51, 52, 53, 54, 55]) (fun _ => 0) (initialState erased)
          5).2.trace ++ [Effect.uartSend SKIP_PASS_CHAR_CMD]) :=
  ⟨by decide, by decide,
    (C30_entry_stays_in_bounds (bytesOf [49, 50, 51, 52, 53, 54, 55]) (fun _ => 0)
      (initialState erased) rfl rfl 5).2.2.2 (by decide) (by decide)⟩

end Ctrl

namespace Hmi

open EN_AwaitOptions EN_AppStates

/-! ## The Interface node: lemmas -/

theorem sentBytes_append (l1 l2 : List Effect) :
    sentBytes (l1 ++ l2) = sentBytes l1 ++ sentBytes l2 := by
  induction l1 with
  | nil => rfl
  | cons e l ih =>
    cases e <;> simp [sentBytes, ih]

theorem keysRead_append (l1 l2 : List Effect) :
    keysRead (l1 ++ l2) = keysRead l1 ++ keysRead l2 := by
  induction l1 with
  | nil => rfl
  | cons e l ih =>
    cases e <;> simp [keysRead, ih]

theorem hmi_lcdOnly_refl (s : State) : lcdOnly s s :=
  ⟨[], by simp, rfl, rfl⟩

theorem hmi_lcdOnly_ite (s : State) (c : Prop) [Decidable c] (a b : State)
    (ha : lcdOnly s a) (hb : lcdOnly s b) : lcdOnly s (if c then a else b) := by
  split
  · exact ha
  · exact hb

theorem hmi_lcdOnly_strAt (s t : State) (row col : Nat) (str : String) (h : lcdOnly s t) :
    lcdOnly s (LCD_sendStrAt row col str t) := by
  obtain ⟨l, rfl, hl, hk⟩ := h
  exact ⟨l ++ [Effect.lcdStrAt row col str], by simp [LCD_sendStrAt, emit],
    by rw [sentBytes_append, hl]; rfl, by rw [keysRead_append, hk]; rfl⟩

theorem hmi_lcdOnly_command (s t : State) (c : Nat) (h : lcdOnly s t) :
    lcdOnly s (LCD_sendCommand c t) := by
  obtain ⟨l, rfl, hl, hk⟩ := h
  exact ⟨l ++ [Effect.lcdCommand c], by simp [LCD_sendCommand, emit],
    by rw [sentBytes_append, hl]; rfl, by rw [keysRead_append, hk]; rfl⟩

theorem hmi_lcdOnly_setCursor (s t : State) (row col : Nat) (h : lcdOnly s t) :
    lcdOnly s (LCD_setCursor row col t) := by
  obtain ⟨l, rfl, hl, hk⟩ := h
  exact ⟨l ++ [Effect.lcdSetCursor row col], by simp [LCD_setCursor, emit],
    by rw [sentBytes_append, hl]; rfl, by rw [keysRead_append, hk]; rfl⟩

theorem hmi_lcdOnly_char (s t : State) (c : Nat) (h : lcdOnly s t) :
    lcdOnly s (LCD_sendChar c t) := by
  obtain ⟨l, rfl, hl, hk⟩ := h
  exact ⟨l ++ [Effect.lcdChar c], by simp [LCD_sendChar, emit],
    by rw [sentBytes_append, hl]; rfl, by rw [keysRead_append, hk]; rfl⟩

/-- The text shown for a command is LCD output only. -/
theorem hmi_controlLcdText_frame (c : Nat) (s : State) : lcdOnly s (controlLcdText c s) := by
  have h1 : lcdOnly s (if c ≥ ACK_CMD ∧ c ≤ SHOW_DOOR_IS_UNLOCKED_TEXT_CMD then
      LCD_sendCommand LCD_CLEAR_SCREEN s else s) :=
    hmi_lcdOnly_ite s _ _ _ (hmi_lcdOnly_command s s _ (hmi_lcdOnly_refl s)) (hmi_lcdOnly_refl s)
  unfold controlLcdText
  generalize (if c ≥ ACK_CMD ∧ c ≤ SHOW_DOOR_IS_UNLOCKED_TEXT_CMD then
      LCD_sendCommand LCD_CLEAR_SCREEN s else s) = s1 at h1 ⊢
  dsimp only
  repeat
    first
      | exact h1
      | apply hmi_lcdOnly_ite
      | apply hmi_lcdOnly_strAt

/-- The closing busy-wait changes the receive flag and the mailbox only. -/
theorem hmi_awaitLoop_frame (events : List Nat) (s : State) :
    ∃ r d, awaitLoop events s = { s with g_isDataReceived := r, g_receivedCmd := d } := by
  induction events generalizing s with
  | nil => exact ⟨s.g_isDataReceived, s.g_receivedCmd, rfl⟩
  | cons e es ih =>
    unfold awaitLoop
    split
    · obtain ⟨r, d, h⟩ := ih (UartRxCallback e s)
      rw [h]
      exact ⟨r, d, by simp [UartRxCallback]⟩
    · exact ⟨s.g_isDataReceived, s.g_receivedCmd, rfl⟩

/-- A tick that does not arm the wait leaves the busy-wait at once. -/
theorem hmi_awaitLoop_idle (events : List Nat) (s : State)
    (h : s.g_awaitOption = AWAIT_NOTHING) : awaitLoop events s = s := by
  cases events with
  | nil => rfl
  | cons e es =>
    unfold awaitLoop
    have : awaitPending s = false := by
      unfold awaitPending
      rw [h]
      rfl
    rw [this]
    rfl

@[simp] theorem hmi_awaitLoop_state (events : List Nat) (s : State) :
    (awaitLoop events s).g_state = s.g_state := by
  obtain ⟨r, d, h⟩ := hmi_awaitLoop_frame events s
  rw [h]

@[simp] theorem hmi_awaitLoop_awaitOption (events : List Nat) (s : State) :
    (awaitLoop events s).g_awaitOption = s.g_awaitOption := by
  obtain ⟨r, d, h⟩ := hmi_awaitLoop_frame events s
  rw [h]

@[simp] theorem hmi_awaitLoop_trace (events : List Nat) (s : State) :
    (awaitLoop events s).trace = s.trace := by
  obtain ⟨r, d, h⟩ := hmi_awaitLoop_frame events s
  rw [h]

/-! ### The step of each state, on the copy `c` of the mailbox -/

/-- ReceivingCommand on `GET_MENU_OPTION_CMD`: the menu is shown and the state becomes
ReadingMenuOptions. -/
theorem hmi_dispatch_menu (env : Env) (c : Nat) (t : State)
    (hs : t.g_state = RECEIVE_COMMAND_STATE) (hc : c = GET_MENU_OPTION_CMD) :
    ∃ l, dispatch env c t = { t with g_state := READING_MENU_OPTIONS_STATE,
                                     trace := t.trace ++ l } ∧
      sentBytes l = [] ∧ keysRead l = [] := by
  obtain ⟨l, hl, hb, hk⟩ := hmi_controlLcdText_frame c t
  refine ⟨l, ?_, hb, hk⟩
  unfold dispatch
  rw [hs]
  simp only [hl]
  rw [if_pos hc]

/-- ReceivingCommand on one of the three password prompts: the prompt is shown, the cursor
is set, and the state becomes ReadingPass. -/
theorem hmi_dispatch_prompt (env : Env) (c : Nat) (t : State)
    (hs : t.g_state = RECEIVE_COMMAND_STATE)
    (hc : c = READ_NEW_PASS_CMD ∨ c = CONFIRM_PASS_CMD ∨ c = ENTER_PASS_CMD) :
    ∃ l, dispatch env c t = { t with g_state := READING_PASS_STATE, trace := t.trace ++ l } ∧
      sentBytes l = [] ∧ keysRead l = [] := by
  obtain ⟨l, hl, hb, hk⟩ := hmi_controlLcdText_frame c t
  have hne : ¬ c = GET_MENU_OPTION_CMD := by
    simp only [READ_NEW_PASS_CMD, CONFIRM_PASS_CMD, ENTER_PASS_CMD, GET_MENU_OPTION_CMD] at hc ⊢
    omega
  refine ⟨l ++ [Effect.lcdSetCursor 1 0], ?_, ?_, ?_⟩
  · unfold dispatch
    rw [hs]
    simp only [hl]
    rw [if_neg hne, if_pos hc]
    simp only [LCD_setCursor, emit, List.append_assoc]
  · rw [sentBytes_append, hb]
    rfl
  · rw [keysRead_append, hk]
    rfl

/-- ReceivingCommand on any other byte: the text is shown, `ACK_CMD` is transmitted and
the wait is armed. -/
theorem hmi_dispatch_ack (env : Env) (c : Nat) (t : State)
    (hs : t.g_state = RECEIVE_COMMAND_STATE) (hm : ¬ c = GET_MENU_OPTION_CMD)
    (hp : ¬ (c = READ_NEW_PASS_CMD ∨ c = CONFIRM_PASS_CMD ∨ c = ENTER_PASS_CMD)) :
    ∃ l, dispatch env c t = { t with g_awaitOption := AWAIT_RESPONSE, trace := t.trace ++ l } ∧
      sentBytes l = [ACK_CMD] ∧ keysRead l = [] := by
  obtain ⟨l, hl, hb, hk⟩ := hmi_controlLcdText_frame c t
  refine ⟨l ++ [Effect.uartSend ACK_CMD], ?_, ?_, ?_⟩
  · unfold dispatch
    rw [hs]
    simp only [hl]
    rw [if_neg hm, if_neg hp]
    simp only [UART_sendByteBlocking, emit, List.append_assoc]
    rw [hs]
  · rw [sentBytes_append, hb]
    rfl
  · rw [keysRead_append, hk]
    rfl

theorem hmi_readPassword_stop (env : Env) (t : State) :
    readPassword env STOP_RECEIVING_PASS_CMD t =
      { t with g_state := RECEIVE_COMMAND_STATE, g_awaitOption := AWAIT_RESPONSE,
               trace := t.trace ++ [Effect.uartSend ACK_CMD] } := by
  simp [readPassword, UART_sendByteBlocking, emit]

theorem hmi_readPassword_key (env : Env) (c : Nat) (t : State)
    (h1 : ¬ c = STOP_RECEIVING_PASS_CMD) :
    ∃ l, readPassword env c t =
      { t with g_awaitOption := AWAIT_RESPONSE, trace := t.trace ++ l } ∧
      sentBytes l = [env.key % 256] ∧ keysRead l = [env.key % 256] := by
  have hr : lcdOnly t (if c = BACKSPACE_PASS_CHAR_CMD then
        LCD_sendCommand LCD_MOVE_CURSOR_LEFT
          (LCD_sendChar 32 (LCD_sendCommand LCD_MOVE_CURSOR_LEFT t))
      else if c = CLEAR_ALL_PASS_CHARS_CMD then
        LCD_setCursor 1 0 (LCD_sendStrAt 1 0 "                " t)
      else if c = READ_NEXT_PASS_CHAR_CMD then
        LCD_sendChar PASS_DISPLAY_CHAR t
      else t) := by
    repeat
      first
        | exact hmi_lcdOnly_refl t
        | apply hmi_lcdOnly_ite
        | apply hmi_lcdOnly_command
        | apply hmi_lcdOnly_char
        | apply hmi_lcdOnly_strAt
        | apply hmi_lcdOnly_setCursor
  obtain ⟨l, hl, hb, hk⟩ := hr
  refine ⟨l ++ [Effect.keypadRead (env.key % 256), Effect.uartSend (env.key % 256)], ?_, ?_, ?_⟩
  · have h2 : c ≠ STOP_RECEIVING_PASS_CMD := h1
    unfold readPassword
    rw [if_neg h1, hl]
    simp only [if_pos h2, UART_sendByteBlocking, KEYPAD_getPressedKey, emit, List.append_assoc,
      List.singleton_append]
  · rw [sentBytes_append, hb]
    rfl
  · rw [keysRead_append, hk]
    rfl

/-- ReadingMenuOptions on `ACK_CMD` or `GET_MENU_OPTION_CMD`: one key is read and
transmitted and the wait is armed. -/
theorem hmi_dispatch_menu_key (env : Env) (c : Nat) (t : State)
    (hs : t.g_state = READING_MENU_OPTIONS_STATE) (hc : c = ACK_CMD ∨ c = GET_MENU_OPTION_CMD) :
    dispatch env c t =
      { t with g_awaitOption := AWAIT_RESPONSE,
               trace := t.trace ++ [Effect.keypadRead (env.key % 256),
                 Effect.uartSend (env.key % 256)] } := by
  unfold dispatch
  rw [hs]
  simp only [if_pos hc, UART_sendByteBlocking, KEYPAD_getPressedKey, emit, List.append_assoc,
    List.singleton_append]
  rw [hs]

/-- ReadingMenuOptions on any other byte: the state becomes ReceivingCommand. -/
theorem hmi_dispatch_menu_leave (env : Env) (c : Nat) (t : State)
    (hs : t.g_state = READING_MENU_OPTIONS_STATE)
    (hc : ¬ (c = ACK_CMD ∨ c = GET_MENU_OPTION_CMD)) :
    dispatch env c t = { t with g_state := RECEIVE_COMMAND_STATE } := by
  unfold dispatch
  rw [hs]
  simp only [if_neg hc]

theorem hmi_dispatch_pass (env : Env) (c : Nat) (t : State)
    (hs : t.g_state = READING_PASS_STATE) :
    dispatch env c t = readPassword env c t := by
  unfold dispatch
  rw [hs]

/-! ### Ticks -/

/-- A tick whose step does not arm the wait ends with the state its step produced. -/
theorem hmi_tick_idle (env : Env) (s d : State)
    (hd : dispatch env (s.g_receivedCmd % 256) (resetFlags s) = d)
    (ha : d.g_awaitOption = AWAIT_NOTHING) : app_update env s = d := by
  unfold app_update
  rw [hd, hmi_awaitLoop_idle _ _ ha]

/-- The closing busy-wait keeps the state, the await option and the log of the step. -/
theorem hmi_tick_frame (env : Env) (s d : State)
    (hd : dispatch env (s.g_receivedCmd % 256) (resetFlags s) = d) :
    (app_update env s).g_state = d.g_state ∧
    (app_update env s).g_awaitOption = d.g_awaitOption ∧
    (app_update env s).trace = d.trace := by
  unfold app_update
  rw [hd]
  exact ⟨hmi_awaitLoop_state _ _, hmi_awaitLoop_awaitOption _ _, hmi_awaitLoop_trace _ _⟩

/-- ReceivingCommand on `GET_MENU_OPTION_CMD`: the state becomes ReadingMenuOptions; nothing
is transmitted, no key is read and the wait is not armed. -/
theorem hmi_receive_menu (env : Env) (s : State) (hs : s.g_state = RECEIVE_COMMAND_STATE)
    (hc : s.g_receivedCmd % 256 = GET_MENU_OPTION_CMD) :
    (app_update env s).g_state = READING_MENU_OPTIONS_STATE ∧
    (app_update env s).g_awaitOption = AWAIT_NOTHING ∧
    (app_update env s).g_receivedCmd = s.g_receivedCmd ∧
    ∃ l, (app_update env s).trace = s.trace ++ l ∧ sentBytes l = [] ∧ keysRead l = [] := by
  obtain ⟨l, hd, hb, hk⟩ := hmi_dispatch_menu env _ (resetFlags s) hs hc
  rw [hmi_tick_idle env s _ hd rfl]
  exact ⟨rfl, rfl, rfl, l, rfl, hb, hk⟩

/-- ReceivingCommand on one of the three password prompts: the state becomes ReadingPass;
nothing is transmitted, no key is read and the wait is not armed. -/
theorem hmi_receive_prompt (env : Env) (s : State) (hs : s.g_state = RECEIVE_COMMAND_STATE)
    (hc : s.g_receivedCmd % 256 = READ_NEW_PASS_CMD ∨ s.g_receivedCmd % 256 = CONFIRM_PASS_CMD ∨
      s.g_receivedCmd % 256 = ENTER_PASS_CMD) :
    (app_update env s).g_state = READING_PASS_STATE ∧
    (app_update env s).g_awaitOption = AWAIT_NOTHING ∧
    (app_update env s).g_receivedCmd = s.g_receivedCmd ∧
    ∃ l, (app_update env s).trace = s.trace ++ l ∧ sentBytes l = [] ∧ keysRead l = [] := by
  obtain ⟨l, hd, hb, hk⟩ := hmi_dispatch_prompt env _ (resetFlags s) hs hc
  rw [hmi_tick_idle env s _ hd rfl]
  exact ⟨rfl, rfl, rfl, l, rfl, hb, hk⟩

/-- ReadingMenuOptions on a byte other than `ACK_CMD` and `GET_MENU_OPTION_CMD`: the state
becomes ReceivingCommand; the log does not grow and the wait is not armed. -/
theorem hmi_menu_leave (env : Env) (s : State) (hs : s.g_state = READING_MENU_OPTIONS_STATE)
    (hc : ¬ (s.g_receivedCmd % 256 = ACK_CMD ∨ s.g_receivedCmd % 256 = GET_MENU_OPTION_CMD)) :
    (app_update env s).g_state = RECEIVE_COMMAND_STATE ∧
    (app_update env s).g_awaitOption = AWAIT_NOTHING ∧
    (app_update env s).g_receivedCmd = s.g_receivedCmd ∧
    ∃ l, (app_update env s).trace = s.trace ++ l ∧ sentBytes l = [] ∧ keysRead l = [] := by
  have hd := hmi_dispatch_menu_leave env _ (resetFlags s) hs hc
  rw [hmi_tick_idle env s _ hd rfl]
  exact ⟨rfl, rfl, rfl, [], by simp [resetFlags], rfl, rfl⟩

/-- ReceivingCommand on any other byte: `ACK_CMD` is transmitted, no key is read, the wait
is armed and the state stays ReceivingCommand. -/
theorem hmi_receive_ack (env : Env) (s : State) (hs : s.g_state = RECEIVE_COMMAND_STATE)
    (hm : ¬ s.g_receivedCmd % 256 = GET_MENU_OPTION_CMD)
    (hp : ¬ (s.g_receivedCmd % 256 = READ_NEW_PASS_CMD ∨
      s.g_receivedCmd % 256 = CONFIRM_PASS_CMD ∨ s.g_receivedCmd % 256 = ENTER_PASS_CMD)) :
    (app_update env s).g_state = RECEIVE_COMMAND_STATE ∧
    (app_update env s).g_awaitOption = AWAIT_RESPONSE ∧
    ∃ l, (app_update env s).trace = s.trace ++ l ∧ sentBytes l = [ACK_CMD] ∧
      keysRead l = [] := by
  obtain ⟨l, hd, hb, hk⟩ := hmi_dispatch_ack env _ (resetFlags s) hs hm hp
  obtain ⟨h1, h2, h3⟩ := hmi_tick_frame env s _ hd
  exact ⟨h1.trans hs, h2, l, h3, hb, hk⟩

/-- ReadingPass on `STOP_RECEIVING_PASS_CMD`: `ACK_CMD` is transmitted, no key is read, the
wait is armed and the state becomes ReceivingCommand. -/
theorem hmi_pass_stop (env : Env) (s : State) (hs : s.g_state = READING_PASS_STATE)
    (hc : s.g_receivedCmd % 256 = STOP_RECEIVING_PASS_CMD) :
    (app_update env s).g_state = RECEIVE_COMMAND_STATE ∧
    (app_update env s).g_awaitOption = AWAIT_RESPONSE ∧
    ∃ l, (app_update env s).trace = s.trace ++ l ∧ sentBytes l = [ACK_CMD] ∧
      keysRead l = [] := by
  have hd := hmi_dispatch_pass env (s.g_receivedCmd % 256) (resetFlags s) hs
  rw [hc, hmi_readPassword_stop] at hd
  rw [← hc] at hd
  obtain ⟨h1, h2, h3⟩ := hmi_tick_frame env s _ hd
  exact ⟨h1, h2, [Effect.uartSend ACK_CMD], h3, rfl, rfl⟩

/-- ReadingPass on any other byte: one key is read and transmitted, the wait is armed and
the state stays ReadingPass. -/
theorem hmi_pass_key (env : Env) (s : State) (hs : s.g_state = READING_PASS_STATE)
    (hc : ¬ s.g_receivedCmd % 256 = STOP_RECEIVING_PASS_CMD) :
    (app_update env s).g_state = READING_PASS_STATE ∧
    (app_update env s).g_awaitOption = AWAIT_RESPONSE ∧
    ∃ l, (app_update env s).trace = s.trace ++ l ∧ sentBytes l = [env.key % 256] ∧
      keysRead l = [env.key % 256] := by
  have hd := hmi_dispatch_pass env (s.g_receivedCmd % 256) (resetFlags s) hs
  obtain ⟨l, hl, hb, hk⟩ := hmi_readPassword_key env _ (resetFlags s) hc
  rw [hl] at hd
  obtain ⟨h1, h2, h3⟩ := hmi_tick_frame env s _ hd
  exact ⟨h1.trans hs, h2, l, h3, hb, hk⟩

/-- ReadingMenuOptions on `ACK_CMD` or `GET_MENU_OPTION_CMD`: one key is read and
transmitted, the wait is armed and the state stays ReadingMenuOptions. -/
theorem hmi_menu_reply (env : Env) (s : State) (hs : s.g_state = READING_MENU_OPTIONS_STATE)
    (hc : s.g_receivedCmd % 256 = ACK_CMD ∨ s.g_receivedCmd % 256 = GET_MENU_OPTION_CMD) :
    (app_update env s).g_state = READING_MENU_OPTIONS_STATE ∧
    (app_update env s).g_awaitOption = AWAIT_RESPONSE ∧
    ∃ l, (app_update env s).trace = s.trace ++ l ∧ sentBytes l = [env.key % 256] ∧
      keysRead l = [env.key % 256] := by
  have hd := hmi_dispatch_menu_key env _ (resetFlags s) hs hc
  obtain ⟨h1, h2, h3⟩ := hmi_tick_frame env s _ hd
  exact ⟨h1.trans hs, h2, _, h3, rfl, rfl⟩

/-! ### One reply per message -/

theorem hmi_run_shift (envs : Nat → Env) (s : State) (k : Nat) :
    run envs s (k + 1) = run (fun i => envs (i + 1)) (app_update (envs 0) s) k := by
  induction k with
  | zero => rfl
  | succ k ih =>
    show app_update (envs (k + 1)) (run envs s (k + 1)) = _
    rw [ih]
    rfl

theorem hmi_repliesAt_zero (envs : Nat → Env) (s : State) (b : Nat)
    (h : (app_update (envs 0) s).g_awaitOption = AWAIT_RESPONSE ∧
      ∃ l, (app_update (envs 0) s).trace = s.trace ++ l ∧ sentBytes l = [b])
    (hb : b = ACK_CMD ∨ b = (envs 0).key % 256) :
    repliesAt envs s 0 := by
  obtain ⟨ha, l, hl, hs⟩ := h
  refine ⟨fun k hk => absurd hk (Nat.not_lt_zero k), ha, l, b, hl, hs, hb⟩

theorem hmi_repliesAt_succ (envs : Nat → Env) (s : State) (n : Nat)
    (h1 : (app_update (envs 0) s).g_awaitOption = AWAIT_NOTHING ∧
      (app_update (envs 0) s).g_receivedCmd = s.g_receivedCmd ∧
      ∃ l, (app_update (envs 0) s).trace = s.trace ++ l ∧ sentBytes l = [])
    (h : repliesAt (fun i => envs (i + 1)) (app_update (envs 0) s) n) :
    repliesAt envs s (n + 1) := by
  obtain ⟨ha1, hc1, l1, hl1, hs1⟩ := h1
  obtain ⟨hidle, harm, l, b, hl, hs, hb⟩ := h
  refine ⟨?_, ?_, l1 ++ l, b, ?_, ?_, hb⟩
  · intro k hk
    cases k with
    | zero => exact ⟨ha1, hc1, l1, hl1, hs1⟩
    | succ j =>
      obtain ⟨a, c, l2, hl2, hs2⟩ := hidle j (by omega)
      rw [hmi_run_shift]
      refine ⟨a, c.trans hc1, l1 ++ l2, ?_, ?_⟩
      · rw [hl2, hl1, List.append_assoc]
      · rw [sentBytes_append, hs1, hs2]
        rfl
  · rw [hmi_run_shift]
    exact harm
  · rw [hmi_run_shift, hl, hl1, List.append_assoc]
  · rw [sentBytes_append, hs1, hs]
    rfl

/-- From ReceivingCommand the reply comes in the first or the second tick. -/
theorem hmi_receive_replies (envs : Nat → Env) (s : State)
    (hs : s.g_state = RECEIVE_COMMAND_STATE) :
    ∃ n, n < 2 ∧ repliesAt envs s n := by
  by_cases hm : s.g_receivedCmd % 256 = GET_MENU_OPTION_CMD
  · obtain ⟨st, ha, hc, l, hl, hb, _⟩ := hmi_receive_menu (envs 0) s hs hm
    refine ⟨1, by omega, hmi_repliesAt_succ envs s 0 ⟨ha, hc, l, hl, hb⟩ ?_⟩
    obtain ⟨_, ha2, l2, hl2, hb2, _⟩ :=
      hmi_menu_reply (envs 1) _ st (Or.inr (by rw [hc]; exact hm))
    exact hmi_repliesAt_zero _ _ _ ⟨ha2, l2, hl2, hb2⟩ (Or.inr rfl)
  · by_cases hp : s.g_receivedCmd % 256 = READ_NEW_PASS_CMD ∨
        s.g_receivedCmd % 256 = CONFIRM_PASS_CMD ∨ s.g_receivedCmd % 256 = ENTER_PASS_CMD
    · obtain ⟨st, ha, hc, l, hl, hb, _⟩ := hmi_receive_prompt (envs 0) s hs hp
      refine ⟨1, by omega, hmi_repliesAt_succ envs s 0 ⟨ha, hc, l, hl, hb⟩ ?_⟩
      have hne : ¬ (app_update (envs 0) s).g_receivedCmd % 256 = STOP_RECEIVING_PASS_CMD := by
        rw [hc]
        simp only [READ_NEW_PASS_CMD, CONFIRM_PASS_CMD, ENTER_PASS_CMD,
          STOP_RECEIVING_PASS_CMD] at hp ⊢
        omega
      obtain ⟨_, ha2, l2, hl2, hb2, _⟩ := hmi_pass_key (envs 1) _ st hne
      exact hmi_repliesAt_zero _ _ _ ⟨ha2, l2, hl2, hb2⟩ (Or.inr rfl)
    · obtain ⟨_, ha, l, hl, hb, _⟩ := hmi_receive_ack (envs 0) s hs hm hp
      exact ⟨0, by omega, hmi_repliesAt_zero envs s _ ⟨ha, l, hl, hb⟩ (Or.inl rfl)⟩

/-! ## The claims about the Interface node -/

/-- C18: from every Interface state and every mailbox content there is a number `n < 3`
such that the first `n` ticks do not arm the wait for a message, leave the mailbox as it is
and transmit nothing, and tick `n` (at the latest the third tick) arms the wait for a
message; up to and including that tick the node transmits exactly one byte, which is
`ACK_CMD` or the key pressed during that tick. -/
theorem C18_one_reply_within_three_ticks (envs : Nat → Env) (s : State) :
    ∃ n, n < 3 ∧
      (∀ k, k < n →
        (run envs s (k + 1)).g_awaitOption = AWAIT_NOTHING ∧
        (run envs s (k + 1)).g_receivedCmd = s.g_receivedCmd ∧
        ∃ l, (run envs s (k + 1)).trace = s.trace ++ l ∧ sentBytes l = []) ∧
      (run envs s (n + 1)).g_awaitOption = AWAIT_RESPONSE ∧
      ∃ l b, (run envs s (n + 1)).trace = s.trace ++ l ∧ sentBytes l = [b] ∧
        (b = ACK_CMD ∨ b = (envs n).key % 256) := by
  have key : ∃ n, n < 3 ∧ repliesAt envs s n := by
    cases hs : s.g_state with
    | RECEIVE_COMMAND_STATE =>
      obtain ⟨n, hn, h⟩ := hmi_receive_replies envs s hs
      exact ⟨n, by omega, h⟩
    | READING_PASS_STATE =>
      by_cases h1 : s.g_receivedCmd % 256 = STOP_RECEIVING_PASS_CMD
      · obtain ⟨_, ha, l, hl, hb, _⟩ := hmi_pass_stop (envs 0) s hs h1
        exact ⟨0, by omega, hmi_repliesAt_zero envs s _ ⟨ha, l, hl, hb⟩ (Or.inl rfl)⟩
      · obtain ⟨_, ha, l, hl, hb, _⟩ := hmi_pass_key (envs 0) s hs h1
        exact ⟨0, by omega, hmi_repliesAt_zero envs s _ ⟨ha, l, hl, hb⟩ (Or.inr rfl)⟩
    | READING_MENU_OPTIONS_STATE =>
      by_cases hc : s.g_receivedCmd % 256 = ACK_CMD ∨ s.g_receivedCmd % 256 = GET_MENU_OPTION_CMD
      · obtain ⟨_, ha, l, hl, hb, _⟩ := hmi_menu_reply (envs 0) s hs hc
        exact ⟨0, by omega, hmi_repliesAt_zero envs s _ ⟨ha, l, hl, hb⟩ (Or.inr rfl)⟩
      · obtain ⟨st, ha, hm, l, hl, hb, _⟩ := hmi_menu_leave (envs 0) s hs hc
        obtain ⟨n, hn, h⟩ := hmi_receive_replies (fun i => envs (i + 1)) _ st
        exact ⟨n + 1, by omega, hmi_repliesAt_succ envs s n ⟨ha, hm, l, hl, hb⟩ h⟩
  obtain ⟨n, hn, h⟩ := key
  exact ⟨n, hn, h⟩

/-- C18 on the longest path: in ReadingMenuOptions with `READ_NEW_PASS_CMD` in the mailbox,
the first tick returns to ReceivingCommand, the second shows the prompt and enters
ReadingPass, and the third transmits the pressed key '7' and arms the wait. -/
theorem C18_one_reply_within_three_ticks_witness :
    (∃ n, n < 3 ∧
      (∀ k, k < n →
        (run (fun _ => envOf 55 []) (stateOf READING_MENU_OPTIONS_STATE READ_NEW_PASS_CMD)
          (k + 1)).g_awaitOption = AWAIT_NOTHING ∧
        (run (fun _ => envOf 55 []) (stateOf READING_MENU_OPTIONS_STATE READ_NEW_PASS_CMD)
          (k + 1)).g_receivedCmd =
          (stateOf READING_MENU_OPTIONS_STATE READ_NEW_PASS_CMD).g_receivedCmd ∧
        ∃ l, (run (fun _ => envOf 55 []) (stateOf READING_MENU_OPTIONS_STATE READ_NEW_PASS_CMD)
          (k + 1)).trace =
          (stateOf READING_MENU_OPTIONS_STATE READ_NEW_PASS_CMD).trace ++ l ∧
          sentBytes l = []) ∧
      (run (fun _ => envOf 55 []) (stateOf READING_MENU_OPTIONS_STATE READ_NEW_PASS_CMD)
        (n + 1)).g_awaitOption = AWAIT_RESPONSE ∧
      ∃ l b, (run (fun _ => envOf 55 []) (stateOf READING_MENU_OPTIONS_STATE READ_NEW_PASS_CMD)
        (n + 1)).trace = (stateOf READING_MENU_OPTIONS_STATE READ_NEW_PASS_CMD).trace ++ l ∧
        sentBytes l = [b] ∧
        (b = ACK_CMD ∨ b = ((fun _ => envOf 55 []) n).key % 256)) ∧
    [1, 2, 3].map (fun k => (run (fun _ => envOf 55 [])
      (stateOf READING_MENU_OPTIONS_STATE READ_NEW_PASS_CMD) k).g_awaitOption) =
      [AWAIT_NOTHING, AWAIT_NOTHING, AWAIT_RESPONSE] ∧
    [1, 2, 3].map (fun k => sentBytes (run (fun _ => envOf 55 [])
      (stateOf READING_MENU_OPTIONS_STATE READ_NEW_PASS_CMD) k).trace) = [[], [], [55]] :=
  ⟨C18_one_reply_within_three_ticks (fun _ => envOf 55 [])
    (stateOf READING_MENU_OPTIONS_STATE READ_NEW_PASS_CMD), by decide, by decide⟩

/-- C22: in ReceivingCommand, with `c` the byte in the mailbox: on `GET_MENU_OPTION_CMD` the
tick sets the state to ReadingMenuOptions, and on `READ_NEW_PASS_CMD`, `CONFIRM_PASS_CMD`
or `ENTER_PASS_CMD` it sets the state to ReadingPass, in both cases transmitting no byte,
reading no key and not arming the wait; on every other byte the tick transmits exactly
`ACK_CMD`, reads no key, arms the wait for a message and leaves the state
ReceivingCommand. -/
theorem C22_receiving_command_step (env : Env) (s : State)
    (hs : s.g_state = RECEIVE_COMMAND_STATE) :
    (s.g_receivedCmd % 256 = GET_MENU_OPTION_CMD →
      (app_update env s).g_state = READING_MENU_OPTIONS_STATE ∧
      (app_update env s).g_awaitOption = AWAIT_NOTHING ∧
      ∃ l, (app_update env s).trace = s.trace ++ l ∧ sentBytes l = [] ∧ keysRead l = []) ∧
    (s.g_receivedCmd % 256 = READ_NEW_PASS_CMD ∨ s.g_receivedCmd % 256 = CONFIRM_PASS_CMD ∨
        s.g_receivedCmd % 256 = ENTER_PASS_CMD →
      (app_update env s).g_state = READING_PASS_STATE ∧
      (app_update env s).g_awaitOption = AWAIT_NOTHING ∧
      ∃ l, (app_update env s).trace = s.trace ++ l ∧ sentBytes l = [] ∧ keysRead l = []) ∧
    (s.g_receivedCmd % 256 ≠ GET_MENU_OPTION_CMD →
        s.g_receivedCmd % 256 ≠ READ_NEW_PASS_CMD →
        s.g_receivedCmd % 256 ≠ CONFIRM_PASS_CMD → s.g_receivedCmd % 256 ≠ ENTER_PASS_CMD →
      (app_update env s).g_state = RECEIVE_COMMAND_STATE ∧
      (app_update env s).g_awaitOption = AWAIT_RESPONSE ∧
      ∃ l, (app_update env s).trace = s.trace ++ l ∧ sentBytes l = [ACK_CMD] ∧
        keysRead l = []) := by
  refine ⟨fun hc => ?_, fun hc => ?_, fun h1 h2 h3 h4 => ?_⟩
  · obtain ⟨l, hd, hb, hk⟩ := hmi_dispatch_menu env _ (resetFlags s) hs hc
    rw [hmi_tick_idle env s _ hd rfl]
    exact ⟨rfl, rfl, l, rfl, hb, hk⟩
  · obtain ⟨l, hd, hb, hk⟩ := hmi_dispatch_prompt env _ (resetFlags s) hs hc
    rw [hmi_tick_idle env s _ hd rfl]
    exact ⟨rfl, rfl, l, rfl, hb, hk⟩
  · have hp : ¬ (s.g_receivedCmd % 256 = READ_NEW_PASS_CMD ∨
        s.g_receivedCmd % 256 = CONFIRM_PASS_CMD ∨ s.g_receivedCmd % 256 = ENTER_PASS_CMD) := by
      rintro (h | h | h)
      · exact h2 h
      · exact h3 h
      · exact h4 h
    obtain ⟨l, hd, hb, hk⟩ := hmi_dispatch_ack env _ (resetFlags s) hs h1 hp
    obtain ⟨e1, e2, e3⟩ := hmi_tick_frame env s _ hd
    exact ⟨e1.trans hs, e2, l, e3, hb, hk⟩

/-- C22 on the banner command (answered with `ACK_CMD`), on an unknown byte (also answered
with `ACK_CMD`), on the menu command and on a password prompt. -/
theorem C22_receiving_command_step_witness :
    ((app_update (envOf 55 []) (stateOf RECEIVE_COMMAND_STATE SHOW_DOOR_LOCK_TEXT_CMD)).g_state =
        RECEIVE_COMMAND_STATE ∧
      (app_update (envOf 55 [])
        (stateOf RECEIVE_COMMAND_STATE SHOW_DOOR_LOCK_TEXT_CMD)).g_awaitOption =
        AWAIT_RESPONSE) ∧
    sentBytes (app_update (envOf 55 [])
      (stateOf RECEIVE_COMMAND_STATE SHOW_DOOR_LOCK_TEXT_CMD)).trace = [ACK_CMD] ∧
    sentBytes (app_update (envOf 55 []) (stateOf RECEIVE_COMMAND_STATE 7)).trace = [ACK_CMD] ∧
    (app_update (envOf 55 []) (stateOf RECEIVE_COMMAND_STATE GET_MENU_OPTION_CMD)).g_state =
      READING_MENU_OPTIONS_STATE ∧
    sentBytes (app_update (envOf 55 [])
      (stateOf RECEIVE_COMMAND_STATE GET_MENU_OPTION_CMD)).trace = [] ∧
    (app_update (envOf 55 []) (stateOf RECEIVE_COMMAND_STATE ENTER_PASS_CMD)).g_state =
      READING_PASS_STATE :=
  ⟨⟨((C22_receiving_command_step (envOf 55 [])
        (stateOf RECEIVE_COMMAND_STATE SHOW_DOOR_LOCK_TEXT_CMD) rfl).2.2
        (by decide) (by decide) (by decide) (by decide)).1,
      ((C22_receiving_command_step (envOf 55 [])
        (stateOf RECEIVE_COMMAND_STATE SHOW_DOOR_LOCK_TEXT_CMD) rfl).2.2
        (by decide) (by decide) (by decide) (by decide)).2.1⟩,
    by decide, by decide, by decide, by decide, by decide⟩

/-- C23: in ReadingPass, with `c` the byte in the mailbox: on `STOP_RECEIVING_PASS_CMD` the
tick transmits exactly `ACK_CMD`, reads no key and sets the state to ReceivingCommand; on
every other byte it reads exactly one key, transmits exactly that key and stays in
ReadingPass; in both cases the wait for a message is armed. -/
theorem C23_reading_pass_step (env : Env) (s : State) (hs : s.g_state = READING_PASS_STATE) :
    (app_update env s).g_awaitOption = AWAIT_RESPONSE ∧
    (s.g_receivedCmd % 256 = STOP_RECEIVING_PASS_CMD →
      (app_update env s).g_state = RECEIVE_COMMAND_STATE ∧
      ∃ l, (app_update env s).trace = s.trace ++ l ∧ sentBytes l = [ACK_CMD] ∧
        keysRead l = []) ∧
    (s.g_receivedCmd % 256 ≠ STOP_RECEIVING_PASS_CMD →
      (app_update env s).g_state = READING_PASS_STATE ∧
      ∃ l, (app_update env s).trace = s.trace ++ l ∧ sentBytes l = [env.key % 256] ∧
        keysRead l = [env.key % 256]) := by
  have hd := hmi_dispatch_pass env (s.g_receivedCmd % 256) (resetFlags s) hs
  by_cases hc : s.g_receivedCmd % 256 = STOP_RECEIVING_PASS_CMD
  · have hd2 := hd
    rw [hc, hmi_readPassword_stop, ← hc] at hd2
    obtain ⟨e1, e2, e3⟩ := hmi_tick_frame env s _ hd2
    exact ⟨e2, fun _ => ⟨e1, [Effect.uartSend ACK_CMD], e3, rfl, rfl⟩, fun h => absurd hc h⟩
  · obtain ⟨l, hl, hb, hk⟩ := hmi_readPassword_key env _ (resetFlags s) hc
    rw [hl] at hd
    obtain ⟨e1, e2, e3⟩ := hmi_tick_frame env s _ hd
    exact ⟨e2, fun h => absurd h hc, fun _ => ⟨e1.trans hs, l, e3, hb, hk⟩⟩

/-- C23 on `READ_NEXT_PASS_CHAR_CMD` with the key '7' pressed, and on
`STOP_RECEIVING_PASS_CMD`. -/
theorem C23_reading_pass_step_witness :
    (app_update (envOf 55 []) (stateOf READING_PASS_STATE READ_NEXT_PASS_CHAR_CMD)).g_awaitOption =
      AWAIT_RESPONSE ∧
    (app_update (envOf 55 []) (stateOf READING_PASS_STATE READ_NEXT_PASS_CHAR_CMD)).g_state =
      READING_PASS_STATE ∧
    (app_update (envOf 55 []) (stateOf READING_PASS_STATE READ_NEXT_PASS_CHAR_CMD)).trace =
      [Effect.lcdChar PASS_DISPLAY_CHAR, Effect.keypadRead 55, Effect.uartSend 55] ∧
    (app_update (envOf 55 []) (stateOf READING_PASS_STATE STOP_RECEIVING_PASS_CMD)).g_state =
      RECEIVE_COMMAND_STATE ∧
    (app_update (envOf 55 []) (stateOf READING_PASS_STATE STOP_RECEIVING_PASS_CMD)).trace =
      [Effect.uartSend ACK_CMD] :=
  ⟨(C23_reading_pass_step (envOf 55 [])
      (stateOf READING_PASS_STATE READ_NEXT_PASS_CHAR_CMD) rfl).1,
    ((C23_reading_pass_step (envOf 55 [])
      (stateOf READING_PASS_STATE READ_NEXT_PASS_CHAR_CMD) rfl).2.2 (by decide)).1,
    by decide,
    ((C23_reading_pass_step (envOf 55 [])
      (stateOf READING_PASS_STATE STOP_RECEIVING_PASS_CMD) rfl).2.1 (by decide)).1,
    by decide⟩

/-- C24: in ReadingMenuOptions, with `c` the byte in the mailbox: on `ACK_CMD` or
`GET_MENU_OPTION_CMD` the tick reads exactly one key, transmits exactly that key, arms the
wait for a message and stays in ReadingMenuOptions; on every other byte it sets the state
to ReceivingCommand, leaves the log as it is (nothing transmitted, no key read) and does
not arm the wait. -/
theorem C24_reading_menu_step (env : Env) (s : State)
    (hs : s.g_state = READING_MENU_OPTIONS_STATE) :
    (s.g_receivedCmd % 256 = ACK_CMD ∨ s.g_receivedCmd % 256 = GET_MENU_OPTION_CMD →
      (app_update env s).g_state = READING_MENU_OPTIONS_STATE ∧
      (app_update env s).g_awaitOption = AWAIT_RESPONSE ∧
      (app_update env s).trace =
        s.trace ++ [Effect.keypadRead (env.key % 256), Effect.uartSend (env.key % 256)] ∧
      sentBytes [Effect.keypadRead (env.key % 256), Effect.uartSend (env.key % 256)] =
        [env.key % 256] ∧
      keysRead [Effect.keypadRead (env.key % 256), Effect.uartSend (env.key % 256)] =
        [env.key % 256]) ∧
    (s.g_receivedCmd % 256 ≠ ACK_CMD → s.g_receivedCmd % 256 ≠ GET_MENU_OPTION_CMD →
      (app_update env s).g_state = RECEIVE_COMMAND_STATE ∧
      (app_update env s).g_awaitOption = AWAIT_NOTHING ∧
      (app_update env s).trace = s.trace) := by
  constructor
  · intro hc
    have hd := hmi_dispatch_menu_key env _ (resetFlags s) hs hc
    obtain ⟨e1, e2, e3⟩ := hmi_tick_frame env s _ hd
    exact ⟨e1.trans hs, e2, e3, rfl, rfl⟩
  · intro h1 h2
    have hc : ¬ (s.g_receivedCmd % 256 = ACK_CMD ∨
        s.g_receivedCmd % 256 = GET_MENU_OPTION_CMD) := by
      rintro (h | h)
      · exact h1 h
      · exact h2 h
    have hd := hmi_dispatch_menu_leave env _ (resetFlags s) hs hc
    rw [hmi_tick_idle env s _ hd rfl]
    exact ⟨rfl, rfl, rfl⟩

/-- C24 on `ACK_CMD` with the key '+' pressed, and on the password prompt
`READ_NEW_PASS_CMD`. -/
theorem C24_reading_menu_step_witness :
    ((app_update (envOf 43 []) (stateOf READING_MENU_OPTIONS_STATE ACK_CMD)).g_state =
        READING_MENU_OPTIONS_STATE ∧
      (app_update (envOf 43 []) (stateOf READING_MENU_OPTIONS_STATE ACK_CMD)).g_awaitOption =
        AWAIT_RESPONSE) ∧
    (app_update (envOf 43 []) (stateOf READING_MENU_OPTIONS_STATE ACK_CMD)).trace =
      [Effect.keypadRead 43, Effect.uartSend 43] ∧
    ((app_update (envOf 43 []) (stateOf READING_MENU_OPTIONS_STATE READ_NEW_PASS_CMD)).g_state =
        RECEIVE_COMMAND_STATE ∧
      (app_update (envOf 43 [])
        (stateOf READING_MENU_OPTIONS_STATE READ_NEW_PASS_CMD)).g_awaitOption = AWAIT_NOTHING ∧
      (app_update (envOf 43 []) (stateOf READING_MENU_OPTIONS_STATE READ_NEW_PASS_CMD)).trace =
        (stateOf READING_MENU_OPTIONS_STATE READ_NEW_PASS_CMD).trace) :=
  ⟨⟨((C24_reading_menu_step (envOf 43 []) (stateOf READING_MENU_OPTIONS_STATE ACK_CMD) rfl).1
        (Or.inl (by decide))).1,
      ((C24_reading_menu_step (envOf 43 []) (stateOf READING_MENU_OPTIONS_STATE ACK_CMD) rfl).1
        (Or.inl (by decide))).2.1⟩,
    by decide,
    (C24_reading_menu_step (envOf 43 []) (stateOf READING_MENU_OPTIONS_STATE READ_NEW_PASS_CMD)
      rfl).2 (by decide) (by decide)⟩

end Hmi
